import Mathlib

/-!
# HMI state hierarchy and state controller of sdl_core

Shallow embedding of
* `src/components/application_manager/src/hmi_state.cc`
* `src/components/application_manager/src/state_controller_impl.cc`

Pointers are modelled by values: a state carries the flags of the application
it is bound to, a null parent is the constructor `HmiState.noParent`, and an
application is addressed by its position in the population.
Dereferencing a null parent is modelled by the result `none`.
-/

namespace application_manager

/-! ## Enumerations -/

/-- Values of `mobile_apis::HMILevel::eType`. -/
inductive HMILevel where
  | INVALID_ENUM
  | HMI_FULL
  | HMI_LIMITED
  | HMI_BACKGROUND
  | HMI_NONE
  deriving DecidableEq, Repr

/-- Values of `mobile_apis::AudioStreamingState::eType`. -/
inductive AudioStreamingState where
  | INVALID_ENUM
  | AUDIBLE
  | ATTENUATED
  | NOT_AUDIBLE
  deriving DecidableEq, Repr

/-- Modelled from the spec: the values of `mobile_apis::SystemContext::eType`
(the declaration is not part of the sources; the spec names main screen, menu,
alert, etc.). -/
inductive SystemContext where
  | INVALID_ENUM
  | SYSCTXT_MAIN
  | SYSCTXT_VRSESSION
  | SYSCTXT_MENU
  | SYSCTXT_HMI_OBSCURED
  | SYSCTXT_ALERT
  deriving DecidableEq, Repr

/-- Values of `HmiState::StateID` used by the sources. -/
inductive StateID where
  | STATE_ID_CURRENT
  | STATE_ID_REGULAR
  | STATE_ID_POSTPONED
  | STATE_ID_PHONE_CALL
  | STATE_ID_SAFETY_MODE
  | STATE_ID_VR_SESSION
  | STATE_ID_TTS_SESSION
  | STATE_ID_NAVI_STREAMING
  | STATE_ID_DEACTIVATE_HMI
  | STATE_ID_AUDIO_SOURCE
  | STATE_ID_EMBEDDED_NAVI
  deriving DecidableEq, Repr

/-- Values of `StateChangeReason` (the `reason_` member of a state). -/
inductive StateChangeReason where
  | kGeneralReason
  | kResumptionRequestedReason
  | kActivationRequestedReason
  deriving DecidableEq, Repr

/-- Application types that key the conflict table (`Application::AT_COMMON_*`). -/
inductive ApplicationType where
  | AT_COMMON_MEDIA
  | AT_COMMON_NAVI
  deriving DecidableEq, Repr

/-- Modelled from the spec: `helpers::Compare<T, EQ, ONE>(x, a, b)` of
`utils/helpers.h`, true when `x` equals one of the listed values. -/
def Compare_EQ_ONE {α : Type} [DecidableEq α] (x a b : α) : Bool :=
  decide (x = a) || decide (x = b)

/-! ## Applications as seen from a state -/

/-- Modelled from the spec: the type flags of the `Application` collaborator
(`is_media_application`, `is_navi`, `is_voice_communication_supported`,
`is_app_type_included`). -/
structure AppInfo where
  is_media_application : Bool
  is_navi : Bool
  is_voice_communication_supported : Bool
  app_types : List ApplicationType
  deriving DecidableEq, Repr

/-- Modelled from the spec: `Application::is_audio()`. The audio applications
are the media, navigation and voice-communication applications; every other
application belongs to the non-audio category of the conflict resolver. -/
def AppInfo.is_audio (a : AppInfo) : Bool :=
  a.is_media_application || a.is_voice_communication_supported || a.is_navi

/-- Modelled from the spec: `Application::is_app_type_included(type)`. -/
def AppInfo.is_app_type_included (a : AppInfo) (t : ApplicationType) : Bool :=
  decide (t ∈ a.app_types)

/-! ## HmiState -/

/-- Data members of `HmiState` other than `parent_` and `app_mngr_`. -/
structure HmiData where
  app_ : AppInfo
  state_id_ : StateID
  hmi_level_ : HMILevel
  audio_streaming_state_ : AudioStreamingState
  system_context_ : SystemContext
  reason_ : StateChangeReason
  deriving DecidableEq, Repr

/-- An `HmiState` object together with the chain of its parents. The variant
(dynamic class) of a state is identified with its `state_id_`. -/
inductive HmiState where
  | noParent (d : HmiData) : HmiState
  | withParent (d : HmiData) (parent_ : HmiState) : HmiState
  deriving DecidableEq, Repr

namespace HmiState

/-- Data members of the state itself. -/
def data : HmiState → HmiData
  | noParent d => d
  | withParent d _ => d

/-- Accessor `parent()`; `none` is the null pointer. -/
def parent : HmiState → Option HmiState
  | noParent _ => none
  | withParent _ p => some p

/-- Accessor `state_id()`. -/
def state_id (s : HmiState) : StateID := s.data.state_id_

/-- Setter `set_parent(parent)` (the argument is non-null). -/
def set_parent (s : HmiState) (p : HmiState) : HmiState := withParent s.data p

/-- `HmiState::is_navi_app`. -/
def is_navi_app (s : HmiState) : Bool := s.data.app_.is_navi

/-- `HmiState::is_media_app`. -/
def is_media_app (s : HmiState) : Bool := s.data.app_.is_media_application

/-- `HmiState::is_voice_communication_app`. -/
def is_voice_communication_app (s : HmiState) : Bool :=
  s.data.app_.is_voice_communication_supported

end HmiState

/-- `HmiState::HmiState(app, app_mngr, state_id)`. -/
def HmiData.create (app : AppInfo) (state_id : StateID) : HmiData :=
  { app_ := app
    state_id_ := state_id
    hmi_level_ := HMILevel.INVALID_ENUM
    audio_streaming_state_ := AudioStreamingState.INVALID_ENUM
    system_context_ := SystemContext.INVALID_ENUM
    reason_ := StateChangeReason.kGeneralReason }

/-! ### Per-variant rules of `hmi_state.cc`

Each rule is the body of the overriding member function, with the value of
`parent()->hmi_level()` or `parent()->audio_streaming_state()` passed in. -/

/-- Body of `PhoneCallHmiState::hmi_level`. -/
def PhoneCallHmiState.hmi_level (d : HmiData) (parent_hmi_level : HMILevel) : HMILevel :=
  if Compare_EQ_ONE parent_hmi_level HMILevel.HMI_BACKGROUND HMILevel.HMI_NONE then
    parent_hmi_level
  else if StateChangeReason.kActivationRequestedReason = d.reason_ then
    HMILevel.HMI_FULL
  else if d.app_.is_navi then
    HMILevel.HMI_LIMITED
  else if StateChangeReason.kResumptionRequestedReason = d.reason_
      ∧ d.app_.is_media_application = false then
    parent_hmi_level
  else
    HMILevel.HMI_BACKGROUND

/-- Body of `DeactivateHMI::hmi_level`. -/
def DeactivateHMI.hmi_level (parent_hmi_level : HMILevel) : HMILevel :=
  if Compare_EQ_ONE parent_hmi_level HMILevel.HMI_BACKGROUND HMILevel.HMI_NONE then
    parent_hmi_level
  else
    HMILevel.HMI_BACKGROUND

/-- Body of `AudioSource::hmi_level`. -/
def AudioSource.hmi_level (d : HmiData) (parent_hmi_level : HMILevel) : HMILevel :=
  if Compare_EQ_ONE parent_hmi_level HMILevel.HMI_BACKGROUND HMILevel.HMI_NONE then
    parent_hmi_level
  else if d.app_.is_navi || d.app_.is_voice_communication_supported then
    HMILevel.HMI_LIMITED
  else
    HMILevel.HMI_BACKGROUND

/-- Body of `EmbeddedNavi::hmi_level`. -/
def EmbeddedNavi.hmi_level (d : HmiData) (parent_hmi_level : HMILevel) : HMILevel :=
  if Compare_EQ_ONE parent_hmi_level HMILevel.HMI_BACKGROUND HMILevel.HMI_NONE then
    parent_hmi_level
  else if d.app_.is_media_application then
    HMILevel.HMI_LIMITED
  else
    HMILevel.HMI_BACKGROUND

/-- Body of `VRHmiState::audio_streaming_state`. -/
def VRHmiState.audio_streaming_state : AudioStreamingState :=
  AudioStreamingState.NOT_AUDIBLE

/-- Body of `TTSHmiState::audio_streaming_state`, once the parent has been
read: `own_hmi_level` is the value of the state's own `hmi_level()`. -/
def TTSHmiState.audio_streaming_state (is_attenuated_supported : Bool)
    (own_hmi_level : HMILevel) (parent_audio : AudioStreamingState) : AudioStreamingState :=
  if is_attenuated_supported
      && decide (AudioStreamingState.NOT_AUDIBLE ≠ parent_audio)
      && Compare_EQ_ONE own_hmi_level HMILevel.HMI_FULL HMILevel.HMI_LIMITED then
    AudioStreamingState.ATTENUATED
  else
    AudioStreamingState.NOT_AUDIBLE

/-- Body of `NaviStreamingHmiState::audio_streaming_state`. -/
def NaviStreamingHmiState.audio_streaming_state (is_attenuated_supported : Bool)
    (d : HmiData) (parent_audio : AudioStreamingState) : AudioStreamingState :=
  if !d.app_.is_navi && decide (AudioStreamingState.AUDIBLE = parent_audio) then
    if is_attenuated_supported then
      AudioStreamingState.ATTENUATED
    else
      AudioStreamingState.NOT_AUDIBLE
  else
    parent_audio

/-- Body of `AudioSource::audio_streaming_state`. -/
def AudioSource.audio_streaming_state (d : HmiData)
    (parent_audio : AudioStreamingState) : AudioStreamingState :=
  if d.app_.is_navi then parent_audio else AudioStreamingState.NOT_AUDIBLE

/-- Body of `EmbeddedNavi::audio_streaming_state`. -/
def EmbeddedNavi.audio_streaming_state (d : HmiData)
    (parent_audio : AudioStreamingState) : AudioStreamingState :=
  if d.app_.is_media_application then parent_audio else AudioStreamingState.NOT_AUDIBLE

namespace HmiState

/-- Virtual `hmi_level()`. The variants phone call, deactivate HMI, audio
source and embedded navi read `parent()->hmi_level()`; with a null parent that
read fails (`none`).

Modelled from the spec: the non-overridden accessor of the base class (declared
in `hmi_state.h`, not part of the sources). A state of kind REGULAR, POSTPONED
or CURRENT returns its stored field (it sits at the bottom of the stack and has
no meaningful parent); a temporary layer reads through `parent` when it is
attached above another state, so that the level of a TTS-session layer is the
level of its parent, as the rule of that variant is specified, and returns its
stored field when it has no parent. -/
def hmi_level : HmiState → Option HMILevel
  | noParent d =>
    match d.state_id_ with
    | StateID.STATE_ID_PHONE_CALL => none
    | StateID.STATE_ID_DEACTIVATE_HMI => none
    | StateID.STATE_ID_AUDIO_SOURCE => none
    | StateID.STATE_ID_EMBEDDED_NAVI => none
    | _ => some d.hmi_level_
  | withParent d p =>
    match d.state_id_ with
    | StateID.STATE_ID_PHONE_CALL => (hmi_level p).map (PhoneCallHmiState.hmi_level d)
    | StateID.STATE_ID_DEACTIVATE_HMI => (hmi_level p).map DeactivateHMI.hmi_level
    | StateID.STATE_ID_AUDIO_SOURCE => (hmi_level p).map (AudioSource.hmi_level d)
    | StateID.STATE_ID_EMBEDDED_NAVI => (hmi_level p).map (EmbeddedNavi.hmi_level d)
    | StateID.STATE_ID_SAFETY_MODE => hmi_level p
    | StateID.STATE_ID_VR_SESSION => hmi_level p
    | StateID.STATE_ID_TTS_SESSION => hmi_level p
    | StateID.STATE_ID_NAVI_STREAMING => hmi_level p
    | _ => some d.hmi_level_

/-- Virtual `audio_streaming_state()`; the argument is
`app_mngr_.is_attenuated_supported()`. The C++ conditions short-circuit: the TTS
variant reads the parent only when attenuation is supported, the audio-source
and embedded-navi variants only for a navi, respectively media, application,
and the TTS variant calls its own `hmi_level()` only when the audio state of the
parent is not NOT_AUDIBLE.

Modelled from the spec: the non-overridden accessor of the base class returns
the stored field of a state of kind REGULAR, POSTPONED or CURRENT and of a
temporary layer without parent, and reads through `parent` for a temporary layer
attached above another state. -/
def audio_streaming_state (is_attenuated_supported : Bool) : HmiState → Option AudioStreamingState
  | noParent d =>
    match d.state_id_ with
    | StateID.STATE_ID_VR_SESSION => some VRHmiState.audio_streaming_state
    | StateID.STATE_ID_TTS_SESSION =>
      if is_attenuated_supported then none else some AudioStreamingState.NOT_AUDIBLE
    | StateID.STATE_ID_NAVI_STREAMING => none
    | StateID.STATE_ID_AUDIO_SOURCE =>
      if d.app_.is_navi then none else some AudioStreamingState.NOT_AUDIBLE
    | StateID.STATE_ID_EMBEDDED_NAVI =>
      if d.app_.is_media_application then none else some AudioStreamingState.NOT_AUDIBLE
    | _ => some d.audio_streaming_state_
  | withParent d p =>
    match d.state_id_ with
    | StateID.STATE_ID_VR_SESSION => some VRHmiState.audio_streaming_state
    | StateID.STATE_ID_TTS_SESSION =>
      if is_attenuated_supported then
        match audio_streaming_state is_attenuated_supported p with
        | none => none
        | some parent_audio =>
          if AudioStreamingState.NOT_AUDIBLE ≠ parent_audio then
            (hmi_level (withParent d p)).map
              (fun own_hmi_level =>
                TTSHmiState.audio_streaming_state is_attenuated_supported own_hmi_level
                  parent_audio)
          else some AudioStreamingState.NOT_AUDIBLE
      else some AudioStreamingState.NOT_AUDIBLE
    | StateID.STATE_ID_NAVI_STREAMING =>
      (audio_streaming_state is_attenuated_supported p).map
        (NaviStreamingHmiState.audio_streaming_state is_attenuated_supported d)
    | StateID.STATE_ID_AUDIO_SOURCE =>
      if d.app_.is_navi then
        (audio_streaming_state is_attenuated_supported p).map
          (AudioSource.audio_streaming_state d)
      else some AudioStreamingState.NOT_AUDIBLE
    | StateID.STATE_ID_EMBEDDED_NAVI =>
      if d.app_.is_media_application then
        (audio_streaming_state is_attenuated_supported p).map
          (EmbeddedNavi.audio_streaming_state d)
      else some AudioStreamingState.NOT_AUDIBLE
    | StateID.STATE_ID_PHONE_CALL => audio_streaming_state is_attenuated_supported p
    | StateID.STATE_ID_SAFETY_MODE => audio_streaming_state is_attenuated_supported p
    | StateID.STATE_ID_DEACTIVATE_HMI => audio_streaming_state is_attenuated_supported p
    | _ => some d.audio_streaming_state_

/-- Modelled from the spec: accessor `system_context()` of the base class
(declared in `hmi_state.h`), which no variant overrides: the stored field of a
state of kind REGULAR, POSTPONED or CURRENT and of a temporary layer without
parent, read through `parent` for a temporary layer attached above another
state. -/
def system_context : HmiState → SystemContext
  | noParent d => d.system_context_
  | withParent d p =>
    match d.state_id_ with
    | StateID.STATE_ID_CURRENT => d.system_context_
    | StateID.STATE_ID_REGULAR => d.system_context_
    | StateID.STATE_ID_POSTPONED => d.system_context_
    | _ => system_context p

end HmiState

/-! ## The Application collaborator -/

/-- The values returned by the three accessors `hmi_level()`,
`audio_streaming_state()` and `system_context()` of a state object. A state of
kind REGULAR (built by `CreateHmiState(app, STATE_ID_REGULAR)` followed by the
three setters) is determined by them. -/
structure RegularState where
  hmi_level_ : HMILevel
  audio_streaming_state_ : AudioStreamingState
  system_context_ : SystemContext
  deriving DecidableEq, Repr

/-- The state object of kind REGULAR holding the given members, bound to `app`. -/
def RegularState.toHmiState (app : AppInfo) (r : RegularState) : HmiState :=
  HmiState.noParent
    { app_ := app
      state_id_ := StateID.STATE_ID_REGULAR
      hmi_level_ := r.hmi_level_
      audio_streaming_state_ := r.audio_streaming_state_
      system_context_ := r.system_context_
      reason_ := StateChangeReason.kGeneralReason }

/-- Stored members of a state, read as a regular state. -/
def HmiState.toRegular (s : HmiState) : RegularState :=
  { hmi_level_ := s.data.hmi_level_
    audio_streaming_state_ := s.data.audio_streaming_state_
    system_context_ := s.data.system_context_ }

/-- Modelled from the spec: the `Application` collaborator with its HMI state
stack: the regular state at the bottom and the attached temporary states above
it, listed bottom-up (the parent of a layer is the layer before it, the parent
of the first layer is the regular state), the optional postponed regular state
and the flag set by `set_keeping_hmi_level`. -/
structure Application where
  app_id : Nat
  info : AppInfo
  is_resuming : Bool
  regular : RegularState
  temps : List HmiData
  postponed : Option RegularState := none
  keeping_hmi_level : Bool := false
  hmi_app_id : Nat := 0
  deriving DecidableEq, Repr

namespace Application

def is_audio (a : Application) : Bool := a.info.is_audio

def is_media_application (a : Application) : Bool := a.info.is_media_application

def is_navi (a : Application) : Bool := a.info.is_navi

def is_voice_communication_supported (a : Application) : Bool :=
  a.info.is_voice_communication_supported

def is_app_type_included (a : Application) (t : ApplicationType) : Bool :=
  a.info.is_app_type_included t

/-- Modelled from the spec: `RegularHmiState()`, the state at the bottom of the stack. -/
def RegularHmiState (a : Application) : RegularState := a.regular

/-- Modelled from the spec: `CurrentHmiState()`, the top of the stack with its
chain of parents. -/
def CurrentHmiState (a : Application) : HmiState :=
  a.temps.foldl (fun parent d => HmiState.withParent d parent) (a.regular.toHmiState a.info)

/-- Level of one layer given the level of its parent (dispatch of
`hmi_level()` on the variant). -/
def layer_hmi_level (d : HmiData) (parent_hmi_level : HMILevel) : HMILevel :=
  match d.state_id_ with
  | StateID.STATE_ID_PHONE_CALL => PhoneCallHmiState.hmi_level d parent_hmi_level
  | StateID.STATE_ID_DEACTIVATE_HMI => DeactivateHMI.hmi_level parent_hmi_level
  | StateID.STATE_ID_AUDIO_SOURCE => AudioSource.hmi_level d parent_hmi_level
  | StateID.STATE_ID_EMBEDDED_NAVI => EmbeddedNavi.hmi_level d parent_hmi_level
  | StateID.STATE_ID_SAFETY_MODE => parent_hmi_level
  | StateID.STATE_ID_VR_SESSION => parent_hmi_level
  | StateID.STATE_ID_TTS_SESSION => parent_hmi_level
  | StateID.STATE_ID_NAVI_STREAMING => parent_hmi_level
  | _ => d.hmi_level_

/-- Audio state of one layer given the level and the audio state of its parent
(dispatch of `audio_streaming_state()` on the variant; the TTS variant reads its
own `hmi_level()`). -/
def layer_audio_streaming_state (is_attenuated_supported : Bool) (d : HmiData)
    (parent_hmi_level : HMILevel) (parent_audio : AudioStreamingState) :
    AudioStreamingState :=
  match d.state_id_ with
  | StateID.STATE_ID_VR_SESSION => VRHmiState.audio_streaming_state
  | StateID.STATE_ID_TTS_SESSION =>
    TTSHmiState.audio_streaming_state is_attenuated_supported
      (layer_hmi_level d parent_hmi_level) parent_audio
  | StateID.STATE_ID_NAVI_STREAMING =>
    NaviStreamingHmiState.audio_streaming_state is_attenuated_supported d parent_audio
  | StateID.STATE_ID_AUDIO_SOURCE => AudioSource.audio_streaming_state d parent_audio
  | StateID.STATE_ID_EMBEDDED_NAVI => EmbeddedNavi.audio_streaming_state d parent_audio
  | StateID.STATE_ID_PHONE_CALL => parent_audio
  | StateID.STATE_ID_SAFETY_MODE => parent_audio
  | StateID.STATE_ID_DEACTIVATE_HMI => parent_audio
  | _ => d.audio_streaming_state_

/-- Level and audio state of one layer given those of its parent. -/
def layer_step (is_attenuated_supported : Bool)
    (parent : HMILevel × AudioStreamingState) (d : HmiData) :
    HMILevel × AudioStreamingState :=
  (layer_hmi_level d parent.1,
    layer_audio_streaming_state is_attenuated_supported d parent.1 parent.2)

/-- Value of `CurrentHmiState()->hmi_level()`. -/
def hmi_level (a : Application) : HMILevel :=
  a.temps.foldl (fun l d => layer_hmi_level d l) a.regular.hmi_level_

/-- Value of `CurrentHmiState()->audio_streaming_state()`. -/
def audio_streaming_state (is_attenuated_supported : Bool) (a : Application) :
    AudioStreamingState :=
  (a.temps.foldl (layer_step is_attenuated_supported)
    (a.regular.hmi_level_, a.regular.audio_streaming_state_)).2

/-- System context of one layer given the system context of its parent. -/
def layer_system_context (d : HmiData) (parent_system_context : SystemContext) :
    SystemContext :=
  match d.state_id_ with
  | StateID.STATE_ID_CURRENT => d.system_context_
  | StateID.STATE_ID_REGULAR => d.system_context_
  | StateID.STATE_ID_POSTPONED => d.system_context_
  | _ => parent_system_context

/-- Value of `CurrentHmiState()->system_context()`. -/
def system_context (a : Application) : SystemContext :=
  a.temps.foldl (fun sc d => layer_system_context d sc) a.regular.system_context_

/-- The three accessor values of `CurrentHmiState()`. -/
def current (is_attenuated_supported : Bool) (a : Application) : RegularState :=
  { hmi_level_ := a.hmi_level
    audio_streaming_state_ := a.audio_streaming_state is_attenuated_supported
    system_context_ := a.system_context }

/-- Modelled from the spec: `SetRegularState(state)` replaces the regular state
at the bottom of the stack. -/
def SetRegularState (a : Application) (state : RegularState) : Application :=
  { a with regular := state }

/-- Modelled from the spec: `RemoveHMIState(kind)` detaches the layer of that
kind; the layer above it gets the layer below as parent. -/
def RemoveHMIState (a : Application) (kind : StateID) : Application :=
  { a with temps := a.temps.eraseP (fun d => decide (d.state_id_ = kind)) }

/-- Modelled from the spec: `set_is_resuming(flag)`. -/
def set_is_resuming (a : Application) (flag : Bool) : Application :=
  { a with is_resuming := flag }

/-- Modelled from the spec: `PostponedHmiState()`, null when no state is postponed. -/
def PostponedHmiState (a : Application) : Option RegularState := a.postponed

/-- Modelled from the spec: `RemovePostponedState()`. -/
def RemovePostponedState (a : Application) : Application :=
  { a with postponed := none }

/-- Modelled from the spec: `set_keeping_hmi_level(flag)`. -/
def set_keeping_hmi_level (a : Application) (flag : Bool) : Application :=
  { a with keeping_hmi_level := flag }

end Application

/-! ## The state controller -/

/-- Calls made to the external collaborators (notification sinks). -/
inductive Notification where
  | SendHMIStatusNotification (app_id : Nat)
  | ResetDataInNone (app_id : Nat)
  | OnHMILevelChanged (app_id : Nat) (old_level new_level : HMILevel)
  | RecordHmiStateChanged (app_id : Nat) (level : HMILevel)
  | SendOnResumeAudioSourceToHMI (app_id : Nat)
  deriving DecidableEq, Repr

/-- Entry of the deferred queue `waiting_for_applying_state_` (the members of
`DataForActivation` read by `ProcessSavingHMIState`); the state is given by its
accessor values. -/
structure DataForActivation where
  app_id_ : Nat
  state_ : RegularState
  send_activate_app_ : Bool
  deriving DecidableEq, Repr

/-- Calls made to the resumption controller. -/
inductive ResumeCtrlCall where
  | PostponeHmiLevelResumption
  | RestoreHmiLevelResumption
  deriving DecidableEq, Repr

/-- State of `StateControllerImpl` together with the part of the application
manager it works on: the registered applications (an application is addressed
by its position in the population), the list `active_states_`, the answer of
`app_mngr_.is_attenuated_supported()` and the calls sent so far; the map
`waiting_for_activate` from HMI application ids to pending states (a null
pointer is `none`), the queue `waiting_for_applying_state_` and the calls made
to the resumption controller. -/
structure StateControllerImpl where
  applications : List Application
  active_states_ : List StateID
  is_attenuated_supported : Bool
  sent : List Notification
  waiting_for_activate : List (Nat × Option HmiState) := []
  waiting_for_applying_state_ : List DataForActivation := []
  resume_ctrl_calls : List ResumeCtrlCall := []
  deriving DecidableEq, Repr

/-- The table `conflict_states_` filled by the constructor. -/
def conflict_states_ : List (ApplicationType × List StateID) :=
  [ (ApplicationType.AT_COMMON_MEDIA, [StateID.STATE_ID_EMBEDDED_NAVI]),
    (ApplicationType.AT_COMMON_NAVI, [StateID.STATE_ID_AUDIO_SOURCE]) ]

/-- `IsStatusChanged(old_state, new_state)`. -/
def IsStatusChanged (old_state new_state : RegularState) : Bool :=
  if old_state.hmi_level_ ≠ new_state.hmi_level_
      ∨ old_state.audio_streaming_state_ ≠ new_state.audio_streaming_state_
      ∨ old_state.system_context_ ≠ new_state.system_context_ then
    true
  else
    false

namespace StateControllerImpl

/-- `IsTempStateActive(ID)`. -/
def IsTempStateActive (c : StateControllerImpl) (ID : StateID) : Bool :=
  decide (ID ∈ c.active_states_)

/-- `IsSameAppType(app1, app2)`. -/
def IsSameAppType (app1 app2 : Application) : Bool :=
  let both_media := app1.is_media_application && app2.is_media_application
  let both_navi := app1.is_navi && app2.is_navi
  let both_vc :=
    app1.is_voice_communication_supported && app2.is_voice_communication_supported
  let both_simple := !app1.is_audio && !app2.is_audio
  both_simple || both_media || both_navi || both_vc

/-- `RemoveConflictedActiveStatesFromApp(app)`: for every application type of
the conflict table that the application includes, every listed state that is
active is removed from the application. -/
def RemoveConflictedActiveStatesFromApp (c : StateControllerImpl) (app : Application) :
    Application :=
  conflict_states_.foldl
    (fun a entry =>
      if app.is_app_type_included entry.1 then
        (entry.2.filter c.IsTempStateActive).foldl Application.RemoveHMIState a
      else a)
    app

/-- `OnStateChanged(app, old_state, new_state)`: the calls it makes. -/
def OnStateChanged (app_id : Nat) (old_state new_state : RegularState) : List Notification :=
  if IsStatusChanged old_state new_state then
    [Notification.SendHMIStatusNotification app_id]
      ++ (if new_state.hmi_level_ = HMILevel.HMI_NONE then
            [Notification.ResetDataInNone app_id] else [])
      ++ [Notification.OnHMILevelChanged app_id old_state.hmi_level_ new_state.hmi_level_,
          Notification.RecordHmiStateChanged app_id new_state.hmi_level_]
  else
    []

/-- `SetupRegularHmiState(app, state)`; `app` is the position of the
application, an absent application is the null pointer of the `DCHECK`. At every
call in the sources the state is of kind REGULAR (checked by
`ApplyRegularState`, built by the three-argument overload), so it is given by
its accessor values. -/
def SetupRegularHmiState (c : StateControllerImpl) (app : Nat) (state : RegularState) :
    StateControllerImpl :=
  match c.applications[app]? with
  | none => c
  | some a =>
    let old_state := a.current c.is_attenuated_supported
    let a1 :=
      if HMILevel.HMI_FULL = state.hmi_level_ then
        c.RemoveConflictedActiveStatesFromApp a
      else a
    let a2 := a1.SetRegularState state
    let resume :=
      if HMILevel.HMI_LIMITED = state.hmi_level_ ∧ a2.is_resuming = true then
        [Notification.SendOnResumeAudioSourceToHMI a2.app_id]
      else []
    let a3 := a2.set_is_resuming false
    let new_state := a3.current c.is_attenuated_supported
    { c with
      applications := c.applications.set app a3
      sent := c.sent ++ resume ++ OnStateChanged a3.app_id old_state new_state }

/-- `SetupRegularHmiState(app, hmi_level, audio_state)`: the new regular state
takes the system context of the previous regular state. -/
def SetupRegularHmiState3 (c : StateControllerImpl) (app : Nat) (hmi_level : HMILevel)
    (audio_state : AudioStreamingState) : StateControllerImpl :=
  match c.applications[app]? with
  | none => c
  | some a =>
    let prev_state := a.RegularHmiState
    let new_state : RegularState :=
      { hmi_level_ := hmi_level
        audio_streaming_state_ := audio_state
        system_context_ := prev_state.system_context_ }
    c.SetupRegularHmiState app new_state

/-- Level computed by `HmiLevelConflictResolver::operator()` for the candidate
`to_resolve` (the value of `result_hmi_level` before it is compared with the
current level). -/
def HmiLevelConflictResolver.result_hmi_level (applied_ : Application) (state_ : RegularState)
    (to_resolve : Application) : HMILevel :=
  let cur_state := to_resolve.RegularHmiState
  let applied_grabs_audio :=
    Compare_EQ_ONE state_.hmi_level_ HMILevel.HMI_FULL HMILevel.HMI_LIMITED
      && applied_.is_audio
  let applied_grabs_full := decide (state_.hmi_level_ = HMILevel.HMI_FULL)
  let to_resolve_handles_full := decide (cur_state.hmi_level_ = HMILevel.HMI_FULL)
  let to_resolve_handles_audio :=
    Compare_EQ_ONE cur_state.hmi_level_ HMILevel.HMI_FULL HMILevel.HMI_LIMITED
      && to_resolve.is_audio
  let same_app_type := IsSameAppType applied_ to_resolve
  let result_hmi_level := cur_state.hmi_level_
  let result_hmi_level :=
    if applied_grabs_full && to_resolve_handles_audio && !same_app_type then
      HMILevel.HMI_LIMITED
    else result_hmi_level
  let result_hmi_level :=
    if (applied_grabs_full && to_resolve_handles_full && !to_resolve.is_audio)
        || (applied_grabs_audio && to_resolve_handles_audio && same_app_type) then
      HMILevel.HMI_BACKGROUND
    else result_hmi_level
  result_hmi_level

/-- `HmiLevelConflictResolver::operator()(to_resolve)` for the resolver built
from the applied application (at position `applied_`) and the applied state. -/
def HmiLevelConflictResolver (applied_ : Nat) (state_ : RegularState)
    (c : StateControllerImpl) (to_resolve : Nat) : StateControllerImpl :=
  if to_resolve = applied_ then c
  else
    match c.applications[applied_]?, c.applications[to_resolve]? with
    | some ap, some tr =>
      let cur_state := tr.RegularHmiState
      let result_hmi_level := HmiLevelConflictResolver.result_hmi_level ap state_ tr
      if cur_state.hmi_level_ ≠ result_hmi_level then
        c.SetupRegularHmiState3 to_resolve result_hmi_level
          (if result_hmi_level = HMILevel.HMI_LIMITED then AudioStreamingState.AUDIBLE
           else AudioStreamingState.NOT_AUDIBLE)
      else c
    | _, _ => c

/-- `ForEachApplication(func)`: the functor is called on every registered
application, in the order of the population. -/
def ForEachApplication (func : StateControllerImpl → Nat → StateControllerImpl)
    (c : StateControllerImpl) : StateControllerImpl :=
  (List.range c.applications.length).foldl func c

/-- `ApplyRegularState(app, state)`. The three `DCHECK_OR_RETURN_VOID` leave
the controller unchanged for an absent application and for a state whose kind
is not REGULAR. -/
def ApplyRegularState (c : StateControllerImpl) (app : Nat) (state : HmiState) :
    StateControllerImpl :=
  match c.applications[app]? with
  | none => c
  | some _ =>
    if state.state_id ≠ StateID.STATE_ID_REGULAR then c
    else
      ForEachApplication (HmiLevelConflictResolver app state.toRegular)
        (c.SetupRegularHmiState app state.toRegular)

end StateControllerImpl

/-! ## Availability of a requested state and the registry of temporary states -/

/-- Services of the application manager that the controller consumes and that
are not part of the sources: `GetDefaultHmiLevel(app)` of the default-level
provider, `IsAppTypeExistsInFullOrLimited(app)` and `application_id` from a
correlation id to an HMI application id. They are parameters of the model. -/
structure ApplicationManager where
  GetDefaultHmiLevel : Application → HMILevel
  IsAppTypeExistsInFullOrLimited : Application → Bool
  application_id : Int → Nat := fun _ => 0

/-- The controller operation `SetRegularState(app, state)`, a template of
`state_controller_impl.h` that is not part of the sources; it is a parameter of
the operations that call it. -/
abbrev SetRegularStateFn : Type :=
  StateControllerImpl → Nat → RegularState → StateControllerImpl

/-- The temporary kinds of the specification: VR_SESSION, TTS_SESSION,
NAVI_STREAMING, PHONE_CALL, SAFETY_MODE, DEACTIVATE_HMI, AUDIO_SOURCE and
EMBEDDED_NAVI. -/
def StateID.is_temporary : StateID → Bool
  | StateID.STATE_ID_VR_SESSION => true
  | StateID.STATE_ID_TTS_SESSION => true
  | StateID.STATE_ID_NAVI_STREAMING => true
  | StateID.STATE_ID_PHONE_CALL => true
  | StateID.STATE_ID_SAFETY_MODE => true
  | StateID.STATE_ID_DEACTIVATE_HMI => true
  | StateID.STATE_ID_AUDIO_SOURCE => true
  | StateID.STATE_ID_EMBEDDED_NAVI => true
  | _ => false

namespace StateControllerImpl

/-- Modelled from the spec: `app_mngr_.active_application()`, the registered
application holding FULL (null when there is none). -/
def active_application (c : StateControllerImpl) : Option Application :=
  c.applications.find? (fun a => decide (a.hmi_level = HMILevel.HMI_FULL))

/-- `CalcAudioState(app, hmi_level)`. -/
def CalcAudioState (app : Application) (hmi_level : HMILevel) : AudioStreamingState :=
  if Compare_EQ_ONE hmi_level HMILevel.HMI_FULL HMILevel.HMI_LIMITED then
    if app.is_audio then AudioStreamingState.AUDIBLE else AudioStreamingState.NOT_AUDIBLE
  else AudioStreamingState.NOT_AUDIBLE

/-- `IsResumptionAllowed(app, state)`. -/
def IsResumptionAllowed (c : StateControllerImpl) (app : Application) (state : RegularState) :
    Bool :=
  if !app.is_resuming
      || !Compare_EQ_ONE state.hmi_level_ HMILevel.HMI_FULL HMILevel.HMI_LIMITED then
    true
  else if c.IsTempStateActive StateID.STATE_ID_AUDIO_SOURCE && app.is_media_application then
    false
  else if c.IsTempStateActive StateID.STATE_ID_EMBEDDED_NAVI && app.is_navi then
    false
  else
    true

/-- `GetAvailableHmiLevel(app, hmi_level)`. The answer of
`IsAppTypeExistsInFullOrLimited(app)` is computed and dropped, and the local
flag `does_audio_app_with_same_type_exist` is the constant `false`. -/
def GetAvailableHmiLevel (c : StateControllerImpl) (m : ApplicationManager)
    (app : Application) (hmi_level : HMILevel) : HMILevel :=
  let result := hmi_level
  if !Compare_EQ_ONE hmi_level HMILevel.HMI_FULL HMILevel.HMI_LIMITED then result
  else
    let is_audio_app := app.is_audio
    let does_audio_app_with_same_type_exist := false
    let _dropped := m.IsAppTypeExistsInFullOrLimited app
    if HMILevel.HMI_LIMITED = hmi_level then
      if !is_audio_app || does_audio_app_with_same_type_exist then
        m.GetDefaultHmiLevel app
      else result
    else
      let is_active_app_exist := c.active_application.isSome
      if is_audio_app then
        if does_audio_app_with_same_type_exist then m.GetDefaultHmiLevel app
        else if is_active_app_exist then HMILevel.HMI_LIMITED
        else result
      else if is_active_app_exist then m.GetDefaultHmiLevel app
      else result

/-- `CheckActiveStatesForConflictWithApp(app)`: some entry of the conflict
table whose application type the application does not include lists an active
state. -/
def CheckActiveStatesForConflictWithApp (c : StateControllerImpl) (app : Application) : Bool :=
  conflict_states_.any
    (fun entry => !app.is_app_type_included entry.1 && entry.2.any c.IsTempStateActive)

/-- `IsStateAvailableForResumption(app, state)`. -/
def IsStateAvailableForResumption (c : StateControllerImpl) (app : Application)
    (state : RegularState) : Bool :=
  if !app.is_resuming
      || !Compare_EQ_ONE state.hmi_level_ HMILevel.HMI_FULL HMILevel.HMI_LIMITED then
    true
  else if c.IsTempStateActive StateID.STATE_ID_VR_SESSION
      || c.IsTempStateActive StateID.STATE_ID_SAFETY_MODE
      || c.IsTempStateActive StateID.STATE_ID_DEACTIVATE_HMI then
    false
  else if c.IsTempStateActive StateID.STATE_ID_PHONE_CALL && app.is_audio then
    false
  else
    true

/-- `IsStateAvailable(app, state)`. -/
def IsStateAvailable (c : StateControllerImpl) (app : Application) (state : RegularState) :
    Bool :=
  if app.is_resuming then
    c.IsStateAvailableForResumption app state
  else if HMILevel.HMI_FULL = state.hmi_level_ ∧ c.CheckActiveStatesForConflictWithApp app = true
  then
    false
  else
    true

/-- `ResolveHmiState(app, state)`; the result `none` is the null state. The
requested state is given by its accessor values, the granted state is the
REGULAR state built by `CreateHmiState` and the three setters. -/
def ResolveHmiState (c : StateControllerImpl) (m : ApplicationManager) (app : Application)
    (state : RegularState) : Option RegularState :=
  let available_state : RegularState :=
    { hmi_level_ := state.hmi_level_
      audio_streaming_state_ := state.audio_streaming_state_
      system_context_ := state.system_context_ }
  let available_state :=
    if app.is_resuming then
      let available_level := c.GetAvailableHmiLevel m app state.hmi_level_
      { available_state with
        hmi_level_ := available_level
        audio_streaming_state_ := CalcAudioState app available_level }
    else available_state
  if c.IsStateAvailable app available_state then some available_state else none

/-- `IsStateActive(state_id)`. -/
def IsStateActive (c : StateControllerImpl) (state_id : StateID) : Bool :=
  match state_id with
  | StateID.STATE_ID_CURRENT => true
  | StateID.STATE_ID_REGULAR => true
  | _ => c.IsTempStateActive state_id

/-- Modelled from the spec: `ForEachApplicationWithParam(func, param)` of
`state_controller_impl.h`, which calls `func(param, app)` on every registered
application. -/
def ForEachApplicationWithParam {α : Type}
    (func : α → StateControllerImpl → Nat → StateControllerImpl) (param : α)
    (c : StateControllerImpl) : StateControllerImpl :=
  (List.range c.applications.length).foldl (func param) c

/-- The controller with the application at position `app` replaced by its image. -/
def update_application (c : StateControllerImpl) (app : Nat) (f : Application → Application) :
    StateControllerImpl :=
  match c.applications[app]? with
  | none => c
  | some a => { c with applications := c.applications.set app (f a) }

/-- `OnTempStateStartedForApp(ID, app)`. -/
def OnTempStateStartedForApp (ID : StateID) (c : StateControllerImpl) (app : Nat) :
    StateControllerImpl :=
  if StateID.STATE_ID_DEACTIVATE_HMI = ID then
    c.update_application app (fun a => a.set_keeping_hmi_level true)
  else c

/-- `OnTempStateStoppedForApp(ID, app)`: a postponed state is removed from the
application and requested again as a regular state through `SetRegularState`. -/
def OnTempStateStoppedForApp (SetRegularState : SetRegularStateFn) (ID : StateID)
    (c : StateControllerImpl) (app : Nat) : StateControllerImpl :=
  match c.applications[app]? with
  | none => c
  | some a =>
    let c1 :=
      match a.PostponedHmiState with
      | some state =>
        SetRegularState (c.update_application app Application.RemovePostponedState) app state
      | none => c
    if StateID.STATE_ID_DEACTIVATE_HMI = ID then
      c1.update_application app (fun a => a.set_keeping_hmi_level false)
    else c1

/-- `TempStateStarted(ID)`. -/
def TempStateStarted (c : StateControllerImpl) (ID : StateID) : StateControllerImpl :=
  let c1 :=
    if ID ∈ c.active_states_ then c
    else { c with active_states_ := c.active_states_ ++ [ID] }
  ForEachApplicationWithParam OnTempStateStartedForApp ID c1

/-- `TempStateStopped(ID)`; `active_states_.remove(ID)` erases every element
equal to `ID`. -/
def TempStateStopped (SetRegularState : SetRegularStateFn) (c : StateControllerImpl)
    (ID : StateID) : StateControllerImpl :=
  let c1 := { c with active_states_ := c.active_states_.filter (fun s => decide (s ≠ ID)) }
  ForEachApplicationWithParam (OnTempStateStoppedForApp SetRegularState) ID c1

end StateControllerImpl

/-! ## State factory, registration and the sequence of registry calls -/

/-- `CreateHmiState(app, state_id)`: the state object of the variant that
belongs to `state_id`, bound to `app`, with no parent; the `default` label of
the switch (`NOTREACHED()`) leaves the result null. The two-argument
constructor used for REGULAR does not initialise `audio_streaming_state_`; the
model gives it INVALID_ENUM like the three-argument one. -/
def CreateHmiState (app : AppInfo) (state_id : StateID) : Option HmiState :=
  match state_id with
  | StateID.STATE_ID_PHONE_CALL =>
    some (HmiState.noParent (HmiData.create app StateID.STATE_ID_PHONE_CALL))
  | StateID.STATE_ID_SAFETY_MODE =>
    some (HmiState.noParent (HmiData.create app StateID.STATE_ID_SAFETY_MODE))
  | StateID.STATE_ID_VR_SESSION =>
    some (HmiState.noParent (HmiData.create app StateID.STATE_ID_VR_SESSION))
  | StateID.STATE_ID_TTS_SESSION =>
    some (HmiState.noParent (HmiData.create app StateID.STATE_ID_TTS_SESSION))
  | StateID.STATE_ID_NAVI_STREAMING =>
    some (HmiState.noParent (HmiData.create app StateID.STATE_ID_NAVI_STREAMING))
  | StateID.STATE_ID_REGULAR =>
    some (HmiState.noParent (HmiData.create app StateID.STATE_ID_REGULAR))
  | StateID.STATE_ID_POSTPONED =>
    some (HmiState.noParent (HmiData.create app state_id))
  | StateID.STATE_ID_DEACTIVATE_HMI =>
    some (HmiState.noParent (HmiData.create app StateID.STATE_ID_DEACTIVATE_HMI))
  | StateID.STATE_ID_AUDIO_SOURCE =>
    some (HmiState.noParent (HmiData.create app StateID.STATE_ID_AUDIO_SOURCE))
  | StateID.STATE_ID_EMBEDDED_NAVI =>
    some (HmiState.noParent (HmiData.create app StateID.STATE_ID_EMBEDDED_NAVI))
  | _ => none

/-- Modelled from the spec: `Application::AddHMIState(state)` puts the state on
top of the stack. The stack keeps the members of the state; its parent is the
layer below. -/
def Application.AddHMIState (a : Application) (state : HmiState) : Application :=
  { a with temps := a.temps ++ [state.data] }

namespace StateControllerImpl

/-- The loop of `OnApplicationRegistered` over `active_states_`: every active
kind is created, gets the current state of the application as parent and is
added to the application. The flag is false when one of the two
`DCHECK_OR_RETURN_VOID` of the loop left the function. -/
def OnApplicationRegistered.attach : List StateID → Application → Application × Bool
  | [], app => (app, true)
  | it :: rest, app =>
    match CreateHmiState app.info it with
    | none => (app, false)
    | some new_state =>
      if new_state.state_id = StateID.STATE_ID_REGULAR then (app, false)
      else
        let old_hmi_state := app.CurrentHmiState
        OnApplicationRegistered.attach rest (app.AddHMIState (new_state.set_parent old_hmi_state))

/-- `OnApplicationRegistered(app, default_level)`. -/
def OnApplicationRegistered (c : StateControllerImpl) (app : Nat) (default_level : HMILevel) :
    StateControllerImpl :=
  match c.applications[app]? with
  | none => c
  | some a =>
    match OnApplicationRegistered.attach c.active_states_ a with
    | (a1, false) => { c with applications := c.applications.set app a1 }
    | (a1, true) =>
      let default_state : RegularState :=
        { hmi_level_ := default_level
          audio_streaming_state_ := CalcAudioState a1 default_level
          system_context_ := SystemContext.SYSCTXT_MAIN }
      let initial_state := a1.RegularHmiState
      let a2 := a1.SetRegularState default_state
      let new_state := a2.current c.is_attenuated_supported
      { c with
        applications := c.applications.set app a2
        sent := c.sent ++ OnStateChanged a2.app_id initial_state new_state }

end StateControllerImpl

/-- A call of one of the two registry operations. -/
inductive RegistryCall where
  | started (ID : StateID)
  | stopped (ID : StateID)
  deriving DecidableEq, Repr

/-- The controller after a sequence of `TempStateStarted` and
`TempStateStopped` calls. -/
def run_registry_calls (SetRegularState : SetRegularStateFn) :
    StateControllerImpl → List RegistryCall → StateControllerImpl
  | c, [] => c
  | c, RegistryCall.started ID :: rest =>
    run_registry_calls SetRegularState (c.TempStateStarted ID) rest
  | c, RegistryCall.stopped ID :: rest =>
    run_registry_calls SetRegularState (c.TempStateStopped SetRegularState ID) rest

/-- The three fields of two states differ somewhere (the condition of the
notification contract). -/
def states_differ (old_state new_state : RegularState) : Prop :=
  old_state.hmi_level_ ≠ new_state.hmi_level_
    ∨ old_state.audio_streaming_state_ ≠ new_state.audio_streaming_state_
    ∨ old_state.system_context_ ≠ new_state.system_context_


/-! ## Pending activations, the deferred queue and the event handler -/

/-- The overload `SetRegularState(app, state, SendActivateApp)` of the missing
header, a parameter of the operations that call it. -/
abbrev SetRegularStateSendFn : Type :=
  StateControllerImpl → Nat → RegularState → Bool → StateControllerImpl

/-- The overload `SetRegularState(app, hmi_level, SendActivateApp)` of the
missing header, a parameter of the operations that call it. -/
abbrev SetRegularStateLevelFn : Type :=
  StateControllerImpl → Nat → HMILevel → Bool → StateControllerImpl

/-- The three overloads of `SetRegularState` called by the sources. -/
structure SetRegularStateOverloads where
  state : SetRegularStateFn
  state_send : SetRegularStateSendFn
  level_send : SetRegularStateLevelFn

/-- Modelled from the spec: the values of `hmi_apis::Common_EventTypes::eType`
that `on_event` compares with; `UNKNOWN` stands for every other value of the
cast event id. -/
inductive Common_EventTypes where
  | AUDIO_SOURCE
  | EMBEDDED_NAVI
  | PHONE_CALL
  | EMERGENCY_EVENT
  | DEACTIVATE_HMI
  | UNKNOWN (id : Nat)
  deriving DecidableEq, Repr

/-- Values of `hmi_apis::FunctionID::eType` that `on_event` dispatches on;
`OTHER` stands for every other function id. -/
inductive FunctionID where
  | BasicCommunication_ActivateApp
  | BasicCommunication_OnAppActivated
  | BasicCommunication_OnAppDeactivated
  | VR_Started
  | VR_Stopped
  | TTS_Started
  | TTS_Stopped
  | BasicCommunication_OnEventChanged
  | OTHER
  deriving DecidableEq, Repr

/-- Modelled from the spec: the result code SUCCESS of
`hmi_apis::Common_Result::eType`; result codes are integers. -/
def Common_Result.SUCCESS : Int := 0

/-- Modelled from the spec: the members of the structured payload of an event
that the handlers read: result code, correlation id, application id, the flag
`is_active` and the event type. -/
structure Message where
  code : Int
  correlation_id : Int
  app_id : Nat
  is_active : Bool
  event_name : Common_EventTypes
  deriving DecidableEq, Repr

/-- Position of the first application that satisfies `p`. -/
def find_application (p : Application → Bool) : List Application → Option Nat
  | [] => none
  | a :: rest => if p a then some 0 else (find_application p rest).map (fun i => i + 1)

/-- The kind that the spec maps an event type to. -/
def event_state_id : Common_EventTypes → Option StateID
  | Common_EventTypes.AUDIO_SOURCE => some StateID.STATE_ID_AUDIO_SOURCE
  | Common_EventTypes.EMBEDDED_NAVI => some StateID.STATE_ID_EMBEDDED_NAVI
  | Common_EventTypes.PHONE_CALL => some StateID.STATE_ID_PHONE_CALL
  | Common_EventTypes.EMERGENCY_EVENT => some StateID.STATE_ID_SAFETY_MODE
  | Common_EventTypes.DEACTIVATE_HMI => some StateID.STATE_ID_DEACTIVATE_HMI
  | Common_EventTypes.UNKNOWN _ => none

namespace StateControllerImpl

/-- Modelled from the spec: `app_mngr_.application(app_id)`, lookup in the
application directory. -/
def application (c : StateControllerImpl) (app_id : Nat) : Option Nat :=
  find_application (fun a => decide (a.app_id = app_id)) c.applications

/-- Modelled from the spec: `app_mngr_.application_by_hmi_app(hmi_app_id)`. -/
def application_by_hmi_app (c : StateControllerImpl) (hmi_app_id : Nat) : Option Nat :=
  find_application (fun a => decide (a.hmi_app_id = hmi_app_id)) c.applications

/-- `waiting_for_activate[hmi_app_id]`: `std::map::operator[]` returns the
stored pointer and inserts a null pointer for a key that is absent. -/
def waiting_for_activate_at (c : StateControllerImpl) (hmi_app_id : Nat) :
    Option HmiState × StateControllerImpl :=
  match c.waiting_for_activate.lookup hmi_app_id with
  | some pending_state => (pending_state, c)
  | none =>
    (none, { c with waiting_for_activate := c.waiting_for_activate ++ [(hmi_app_id, none)] })

/-- `waiting_for_activate.erase(hmi_app_id)`. -/
def erase_waiting_for_activate (c : StateControllerImpl) (hmi_app_id : Nat) :
    StateControllerImpl :=
  { c with
    waiting_for_activate := c.waiting_for_activate.filter (fun e => decide (e.1 ≠ hmi_app_id)) }

/-- `ProcessSavingHMIState()`. The first argument bounds the number of
iterations of the `while` loop; `none` means that the bound was reached. -/
def ProcessSavingHMIState (SetRegularState : SetRegularStateSendFn) :
    Nat → StateControllerImpl → Option StateControllerImpl
  | 0, _ => none
  | fuel + 1, c =>
    if c.waiting_for_activate.isEmpty then
      match c.waiting_for_applying_state_ with
      | [] => some c
      | it :: rest =>
        match c.application it.app_id_ with
        | none =>
          ProcessSavingHMIState SetRegularState fuel { c with waiting_for_applying_state_ := rest }
        | some app =>
          ProcessSavingHMIState SetRegularState fuel
            (SetRegularState { c with waiting_for_applying_state_ := rest } app it.state_
              it.send_activate_app_)
    else some c

/-- `OnActivateAppResponse(message)`. When the application exists and the code
is SUCCESS, a null pending state makes `DCHECK_OR_RETURN_VOID(pending_state)`
leave the function before the entry is erased. -/
def OnActivateAppResponse (ops : SetRegularStateOverloads) (m : ApplicationManager)
    (fuel : Nat) (c : StateControllerImpl) (message : Message) : Option StateControllerImpl :=
  let code := message.code
  let correlation_id := message.correlation_id
  let hmi_app_id := m.application_id correlation_id
  let application := c.application_by_hmi_app hmi_app_id
  let erase_and_drain : StateControllerImpl → Option StateControllerImpl := fun c2 =>
    let c3 := c2.erase_waiting_for_activate hmi_app_id
    if !c3.waiting_for_applying_state_.isEmpty && c3.waiting_for_activate.isEmpty then
      ProcessSavingHMIState ops.state_send fuel c3
    else some c3
  match application with
  | some app =>
    if Common_Result.SUCCESS = code then
      match c.waiting_for_activate_at hmi_app_id with
      | (none, c1) => some c1
      | (some pending_state, c1) => erase_and_drain (c1.ApplyRegularState app pending_state)
    else erase_and_drain c
  | none => erase_and_drain c

/-- `OnTimeOutActivateAppRequest(hmi_app_id)`. -/
def OnTimeOutActivateAppRequest (ops : SetRegularStateOverloads) (fuel : Nat)
    (c : StateControllerImpl) (hmi_app_id : Nat) : Option StateControllerImpl :=
  let c1 := c.erase_waiting_for_activate hmi_app_id
  if !c1.waiting_for_applying_state_.isEmpty && c1.waiting_for_activate.isEmpty then
    ProcessSavingHMIState ops.state_send fuel c1
  else some c1

/-- `DeactivateApp(app)`: the copy of the regular state with the level and the
audio state replaced is requested with `SendActivateApp` false. -/
def DeactivateApp (ops : SetRegularStateOverloads) (c : StateControllerImpl) (app : Nat) :
    StateControllerImpl :=
  match c.applications[app]? with
  | none => c
  | some a =>
    let regular := a.RegularHmiState
    let new_regular : RegularState :=
      if a.is_audio then
        { regular with
          hmi_level_ := HMILevel.HMI_LIMITED
          audio_streaming_state_ := AudioStreamingState.AUDIBLE }
      else
        { regular with
          hmi_level_ := HMILevel.HMI_BACKGROUND
          audio_streaming_state_ := AudioStreamingState.NOT_AUDIBLE }
    ops.state_send c app new_regular false

/-- `OnAppActivated(message)`. -/
def OnAppActivated (ops : SetRegularStateOverloads) (c : StateControllerImpl)
    (message : Message) : StateControllerImpl :=
  match c.application message.app_id with
  | none => c
  | some app => ops.level_send c app HMILevel.HMI_FULL true

/-- `OnAppDeactivated(message)`; `app->hmi_level()` is the level of the current
state of the application. -/
def OnAppDeactivated (ops : SetRegularStateOverloads) (c : StateControllerImpl)
    (message : Message) : StateControllerImpl :=
  match c.application message.app_id with
  | none => c
  | some app =>
    match c.applications[app]? with
    | none => c
    | some a =>
      if HMILevel.HMI_FULL ≠ a.hmi_level then c
      else DeactivateApp ops c app

/-- Modelled from the spec: the per-application part of `ApplyTempState<ID>`
(header): the layer of kind `ID` is created, gets the current state as parent
and is attached; the change of the current state is notified. -/
def HMIStateStarted (ID : StateID) (c : StateControllerImpl) (app : Nat) :
    StateControllerImpl :=
  match c.applications[app]? with
  | none => c
  | some a =>
    match CreateHmiState a.info ID with
    | none => c
    | some new_state =>
      let old_state := a.current c.is_attenuated_supported
      let a1 := a.AddHMIState (new_state.set_parent a.CurrentHmiState)
      { c with
        applications := c.applications.set app a1
        sent := c.sent
          ++ OnStateChanged a1.app_id old_state (a1.current c.is_attenuated_supported) }

/-- Modelled from the spec: the per-application part of `CancelTempState<ID>`
(header): the layer of kind `ID` is detached; the change of the current state is
notified. -/
def HMIStateStopped (ID : StateID) (c : StateControllerImpl) (app : Nat) :
    StateControllerImpl :=
  match c.applications[app]? with
  | none => c
  | some a =>
    let old_state := a.current c.is_attenuated_supported
    let a1 := a.RemoveHMIState ID
    { c with
      applications := c.applications.set app a1
      sent := c.sent
        ++ OnStateChanged a1.app_id old_state (a1.current c.is_attenuated_supported) }

/-- Modelled from the spec: `ApplyTempState<ID>()` (header) attaches the layer
to every registered application and marks the kind active with
`TempStateStarted(ID)`. -/
def ApplyTempState (ID : StateID) (c : StateControllerImpl) : StateControllerImpl :=
  (ForEachApplication (HMIStateStarted ID) c).TempStateStarted ID

/-- Modelled from the spec: `CancelTempState<ID>()` (header) detaches the layer
from every registered application and marks the kind inactive with
`TempStateStopped(ID)`. -/
def CancelTempState (ops : SetRegularStateOverloads) (ID : StateID)
    (c : StateControllerImpl) : StateControllerImpl :=
  (ForEachApplication (HMIStateStopped ID) c).TempStateStopped ops.state ID

/-- The case `BasicCommunication_OnEventChanged` of `on_event`. -/
def OnEventChanged (ops : SetRegularStateOverloads) (c : StateControllerImpl)
    (message : Message) : StateControllerImpl :=
  let is_active := message.is_active
  let state_id := message.event_name
  if is_active then
    if Common_EventTypes.AUDIO_SOURCE = state_id then
      ApplyTempState StateID.STATE_ID_AUDIO_SOURCE c
    else if Common_EventTypes.EMBEDDED_NAVI = state_id then
      ApplyTempState StateID.STATE_ID_EMBEDDED_NAVI c
    else if Common_EventTypes.PHONE_CALL = state_id then
      ApplyTempState StateID.STATE_ID_PHONE_CALL c
    else if Common_EventTypes.EMERGENCY_EVENT = state_id then
      ApplyTempState StateID.STATE_ID_SAFETY_MODE c
    else if Common_EventTypes.DEACTIVATE_HMI = state_id then
      ApplyTempState StateID.STATE_ID_DEACTIVATE_HMI
        { c with
          resume_ctrl_calls :=
            c.resume_ctrl_calls ++ [ResumeCtrlCall.PostponeHmiLevelResumption] }
    else c
  else
    if Common_EventTypes.AUDIO_SOURCE = state_id then
      CancelTempState ops StateID.STATE_ID_AUDIO_SOURCE c
    else if Common_EventTypes.EMBEDDED_NAVI = state_id then
      CancelTempState ops StateID.STATE_ID_EMBEDDED_NAVI c
    else if Common_EventTypes.PHONE_CALL = state_id then
      CancelTempState ops StateID.STATE_ID_PHONE_CALL c
    else if Common_EventTypes.EMERGENCY_EVENT = state_id then
      CancelTempState ops StateID.STATE_ID_SAFETY_MODE c
    else if Common_EventTypes.DEACTIVATE_HMI = state_id then
      let c1 := CancelTempState ops StateID.STATE_ID_DEACTIVATE_HMI c
      { c1 with
        resume_ctrl_calls :=
          c1.resume_ctrl_calls ++ [ResumeCtrlCall.RestoreHmiLevelResumption] }
    else c

/-- `on_event(event)`: dispatch on the function id of the event. -/
def on_event (ops : SetRegularStateOverloads) (m : ApplicationManager) (fuel : Nat)
    (c : StateControllerImpl) (id : FunctionID) (message : Message) :
    Option StateControllerImpl :=
  match id with
  | FunctionID.BasicCommunication_ActivateApp => OnActivateAppResponse ops m fuel c message
  | FunctionID.BasicCommunication_OnAppActivated => some (OnAppActivated ops c message)
  | FunctionID.BasicCommunication_OnAppDeactivated => some (OnAppDeactivated ops c message)
  | FunctionID.VR_Started => some (ApplyTempState StateID.STATE_ID_VR_SESSION c)
  | FunctionID.VR_Stopped => some (CancelTempState ops StateID.STATE_ID_VR_SESSION c)
  | FunctionID.TTS_Started => some (ApplyTempState StateID.STATE_ID_TTS_SESSION c)
  | FunctionID.TTS_Stopped => some (CancelTempState ops StateID.STATE_ID_TTS_SESSION c)
  | FunctionID.BasicCommunication_OnEventChanged => some (OnEventChanged ops c message)
  | FunctionID.OTHER => some c

end StateControllerImpl


/-! ## Order of the levels, stacks of override layers and the VR help items -/

/-- Position of a level in the order NONE < BACKGROUND < LIMITED < FULL
(INVALID_ENUM, which is not part of the order, is placed at the bottom). -/
def HMILevel.rank : HMILevel → Nat
  | HMILevel.INVALID_ENUM => 0
  | HMILevel.HMI_NONE => 0
  | HMILevel.HMI_BACKGROUND => 1
  | HMILevel.HMI_LIMITED => 2
  | HMILevel.HMI_FULL => 3

/-- The table of `GetAvailableHmiLevel` in the words of the specification; the
arguments are the requested level, whether the application is an audio
application, the default HMI level of the application and whether an active
application exists. -/
def available_level_spec (level : HMILevel) (is_audio : Bool) (default_level : HMILevel)
    (active_application_exists : Bool) : HMILevel :=
  if level ≠ HMILevel.HMI_FULL ∧ level ≠ HMILevel.HMI_LIMITED then level
  else if level = HMILevel.HMI_LIMITED then
    (if is_audio = true then HMILevel.HMI_LIMITED else default_level)
  else if is_audio = true then
    (if active_application_exists = true then HMILevel.HMI_LIMITED else HMILevel.HMI_FULL)
  else
    (if active_application_exists = true then default_level else HMILevel.HMI_FULL)

namespace HmiState

/-- The state at the bottom of the chain of parents. -/
def bottom : HmiState → HmiData
  | noParent d => d
  | withParent _ p => bottom p

/-- Number of layers above the bottom state. -/
def depth : HmiState → Nat
  | noParent _ => 0
  | withParent _ p => depth p + 1

/-- The chain consists of deactivate-HMI, audio-source and embedded-navi
layers over a state of kind REGULAR whose level is FULL, LIMITED, BACKGROUND or
NONE. -/
def is_override_stack : HmiState → Bool
  | noParent d =>
    decide (d.state_id_ = StateID.STATE_ID_REGULAR)
      && decide (d.hmi_level_ ≠ HMILevel.INVALID_ENUM)
  | withParent d p =>
    (decide (d.state_id_ = StateID.STATE_ID_DEACTIVATE_HMI)
        || decide (d.state_id_ = StateID.STATE_ID_AUDIO_SOURCE)
        || decide (d.state_id_ = StateID.STATE_ID_EMBEDDED_NAVI))
      && is_override_stack p

/-- The rule of the variant for `hmi_level()` reads the parent. -/
def level_reads_parent (s : HmiState) : Bool :=
  decide (s.state_id = StateID.STATE_ID_PHONE_CALL)
    || decide (s.state_id = StateID.STATE_ID_DEACTIVATE_HMI)
    || decide (s.state_id = StateID.STATE_ID_AUDIO_SOURCE)
    || decide (s.state_id = StateID.STATE_ID_EMBEDDED_NAVI)

/-- The evaluation of `audio_streaming_state()` reaches a read of the parent:
always for navi streaming, for TTS when attenuation is supported, for audio
source for a navi application, for embedded navi for a media application. -/
def audio_reads_parent (is_attenuated_supported : Bool) (s : HmiState) : Bool :=
  decide (s.state_id = StateID.STATE_ID_NAVI_STREAMING)
    || (decide (s.state_id = StateID.STATE_ID_TTS_SESSION) && is_attenuated_supported)
    || (decide (s.state_id = StateID.STATE_ID_AUDIO_SOURCE) && s.is_navi_app)
    || (decide (s.state_id = StateID.STATE_ID_EMBEDDED_NAVI) && s.is_media_app)

end HmiState

/-- Value of a machine integer of `w` bits after an addition (two's complement). -/
def wrap_int (w : Nat) (x : Int) : Int :=
  (x + 2 ^ (w - 1)) % 2 ^ w - 2 ^ (w - 1)

/-- The loop of `SetGlobalPropertiesRequest::CheckVrHelpItemsOrder` with `n`
iterations left; `vr_help` lists the positions of the VR help items, `w` is the
width of the integer returned by `asInt()` (declared in a header that is not
part of the sources). -/
def CheckVrHelpItemsOrder.loop (w : Nat) (vr_help : List Int) : Nat → Nat → Nat → Bool
  | 0, _, _ => true
  | n + 1, i, j =>
    if wrap_int w (vr_help.getD i 0 + 1) ≠ vr_help.getD j 0 then false
    else CheckVrHelpItemsOrder.loop w vr_help n (i + 1) (j + 1)

/-- `SetGlobalPropertiesRequest::CheckVrHelpItemsOrder()`: `i` starts at 0 and
`j` at 1, and the loop runs while `j < vr_help.length()`. -/
def CheckVrHelpItemsOrder (w : Nat) (vr_help : List Int) : Bool :=
  CheckVrHelpItemsOrder.loop w vr_help (vr_help.length - 1) 0 1


/-- The candidate of `ResolveHmiState` in the words of the specification: a
REGULAR state carrying the requested level, audio state and system context; for
a resuming application the level is replaced by
`GetAvailableHmiLevel(app, requested level)` and the audio state by
`CalcAudioState(app, that level)`. -/
def resolve_candidate_spec (c : StateControllerImpl) (m : ApplicationManager)
    (app : Application) (requested : RegularState) : RegularState :=
  if app.is_resuming = true then
    { hmi_level_ := c.GetAvailableHmiLevel m app requested.hmi_level_
      audio_streaming_state_ :=
        StateControllerImpl.CalcAudioState app
          (c.GetAvailableHmiLevel m app requested.hmi_level_)
      system_context_ := requested.system_context_ }
  else requested


/-- The resolver rule in the words of the specification: the resulting level
starts as the candidate's current level, is downgraded to LIMITED under the
first condition and then to BACKGROUND under the second one. -/
def resolved_level_spec (applied_level : HMILevel) (applied_is_audio : Bool)
    (candidate_level : HMILevel) (candidate_is_audio : Bool) (same_type : Bool) : HMILevel :=
  let applied_grabs_full : Prop := applied_level = HMILevel.HMI_FULL
  let applied_grabs_audio : Prop :=
    (applied_level = HMILevel.HMI_FULL ∨ applied_level = HMILevel.HMI_LIMITED)
      ∧ applied_is_audio = true
  let candidate_handles_full : Prop := candidate_level = HMILevel.HMI_FULL
  let candidate_handles_audio : Prop :=
    (candidate_level = HMILevel.HMI_FULL ∨ candidate_level = HMILevel.HMI_LIMITED)
      ∧ candidate_is_audio = true
  let level := candidate_level
  let level :=
    if applied_grabs_full ∧ candidate_handles_audio ∧ same_type = false then
      HMILevel.HMI_LIMITED
    else level
  let level :=
    if (applied_grabs_full ∧ candidate_handles_full ∧ candidate_is_audio = false)
        ∨ (applied_grabs_audio ∧ candidate_handles_audio ∧ same_type = true) then
      HMILevel.HMI_BACKGROUND
    else level
  level

/-- The application `to_resolve` after one call of the resolver built from
`applied_` and `state_` (used to state what the call does to the population). -/
def resolved_candidate (applied_ : Application) (state_ : RegularState)
    (to_resolve : Application) : Application :=
  let result_hmi_level :=
    StateControllerImpl.HmiLevelConflictResolver.result_hmi_level applied_ state_ to_resolve
  if to_resolve.regular.hmi_level_ ≠ result_hmi_level then
    { to_resolve with
      regular :=
        { hmi_level_ := result_hmi_level
          audio_streaming_state_ :=
            if result_hmi_level = HMILevel.HMI_LIMITED then AudioStreamingState.AUDIBLE
            else AudioStreamingState.NOT_AUDIBLE
          system_context_ := to_resolve.regular.system_context_ }
      is_resuming := false }
  else to_resolve

/-- The applied application after `SetupRegularHmiState(app, state)`. -/
def applied_application (c : StateControllerImpl) (a : Application) (state : RegularState) :
    Application :=
  (((if HMILevel.HMI_FULL = state.hmi_level_ then c.RemoveConflictedActiveStatesFromApp a
     else a).SetRegularState state).set_is_resuming false)


/-- Position `i` of the population holds an application whose current level is FULL. -/
def holds_full (c : StateControllerImpl) (i : Nat) : Prop :=
  ∃ a, c.applications[i]? = some a ∧ a.hmi_level = HMILevel.HMI_FULL

/-- Mutual exclusion: no two distinct audio applications of the same type have
the current level FULL at the same time. -/
def mutual_exclusion (c : StateControllerImpl) : Prop :=
  ∀ (i j : Nat) (a b : Application), i ≠ j → c.applications[i]? = some a → c.applications[j]? = some b →
    a.is_audio = true → b.is_audio = true → StateControllerImpl.IsSameAppType a b = true →
    ¬ (a.hmi_level = HMILevel.HMI_FULL ∧ b.hmi_level = HMILevel.HMI_FULL)

/-- Invariant used for the mutual exclusion: no application carries a temporary
state, and no two distinct audio applications of the same type have the regular
level FULL. -/
def exclusion_invariant (c : StateControllerImpl) : Prop :=
  (∀ (m : Nat) (a : Application), c.applications[m]? = some a → a.temps = [])
    ∧ ∀ (i j : Nat) (a b : Application), i ≠ j → c.applications[i]? = some a →
        c.applications[j]? = some b → a.is_audio = true → b.is_audio = true →
        StateControllerImpl.IsSameAppType a b = true →
        ¬ (a.regular.hmi_level_ = HMILevel.HMI_FULL ∧ b.regular.hmi_level_ = HMILevel.HMI_FULL)

/-! ### Sample populations -/

/-- Flags of a media application. -/
def media_info : AppInfo :=
  { is_media_application := true, is_navi := false,
    is_voice_communication_supported := false,
    app_types := [ApplicationType.AT_COMMON_MEDIA] }

/-- Flags of a navigation application. -/
def navi_info : AppInfo :=
  { is_media_application := false, is_navi := true,
    is_voice_communication_supported := false,
    app_types := [ApplicationType.AT_COMMON_NAVI] }

/-- Flags of an application that is neither media, navigation nor voice communication. -/
def plain_info : AppInfo :=
  { is_media_application := false, is_navi := false,
    is_voice_communication_supported := false, app_types := [] }

/-- An application without temporary states. -/
def sample_app (app_id : Nat) (info : AppInfo) (level : HMILevel)
    (audio : AudioStreamingState) : Application :=
  { app_id := app_id, info := info, is_resuming := false,
    regular :=
      { hmi_level_ := level, audio_streaming_state_ := audio,
        system_context_ := SystemContext.SYSCTXT_MENU },
    temps := [] }

/-- A controller without active temporary states over the given population. -/
def sample_controller (apps : List Application) : StateControllerImpl :=
  { applications := apps, active_states_ := [], is_attenuated_supported := true, sent := [] }

/-- A navigation application in NONE and a media application in FULL. -/
def navi_and_media : StateControllerImpl :=
  sample_controller
    [ sample_app 1 navi_info HMILevel.HMI_NONE AudioStreamingState.NOT_AUDIBLE,
      sample_app 2 media_info HMILevel.HMI_FULL AudioStreamingState.AUDIBLE ]

/-- Two media applications, the second one in FULL. -/
def two_media : StateControllerImpl :=
  sample_controller
    [ sample_app 1 media_info HMILevel.HMI_BACKGROUND AudioStreamingState.NOT_AUDIBLE,
      sample_app 2 media_info HMILevel.HMI_FULL AudioStreamingState.AUDIBLE ]

/-- Two media applications, none of them in FULL. -/
def two_media_limited : StateControllerImpl :=
  sample_controller
    [ sample_app 1 media_info HMILevel.HMI_BACKGROUND AudioStreamingState.NOT_AUDIBLE,
      sample_app 2 media_info HMILevel.HMI_LIMITED AudioStreamingState.AUDIBLE ]

/-- Services used in the samples: the default level is NONE. -/
def sample_manager : ApplicationManager :=
  { GetDefaultHmiLevel := fun _ => HMILevel.HMI_NONE
    IsAppTypeExistsInFullOrLimited := fun _ => false }

/-- A resuming application in NONE without temporary states. -/
def resuming_app (app_id : Nat) (info : AppInfo) : Application :=
  { sample_app app_id info HMILevel.HMI_NONE AudioStreamingState.NOT_AUDIBLE with
    is_resuming := true }

/-- A controller over the given population with the given active temporary kinds. -/
def controller_with (apps : List Application) (active : List StateID) : StateControllerImpl :=
  { applications := apps, active_states_ := active, is_attenuated_supported := true,
    sent := [] }

/-- The accessor values of a request for `level` in the main context. -/
def request (level : HMILevel) : RegularState :=
  { hmi_level_ := level, audio_streaming_state_ := AudioStreamingState.AUDIBLE,
    system_context_ := SystemContext.SYSCTXT_MAIN }

/-- A sample instance of the controller operation `SetRegularState`: the state
is resolved and, when granted, applied. -/
def sample_SetRegularState : SetRegularStateFn :=
  fun c app state =>
    match c.applications[app]? with
    | none => c
    | some a =>
      match c.ResolveHmiState sample_manager a state with
      | none => c
      | some granted => c.ApplyRegularState app (granted.toHmiState a.info)


/-- A sample instance of `SetRegularState(app, state, SendActivateApp)`: with
`SendActivateApp` the state becomes the pending state of the application,
otherwise it is applied. -/
def sample_SetRegularStateSend : SetRegularStateSendFn :=
  fun c app state send =>
    match c.applications[app]? with
    | none => c
    | some a =>
      if send then
        { c with
          waiting_for_activate :=
            c.waiting_for_activate ++ [(a.hmi_app_id, some (state.toHmiState a.info))] }
      else c.ApplyRegularState app (state.toHmiState a.info)

/-- A sample instance of `SetRegularState(app, hmi_level, SendActivateApp)`. -/
def sample_SetRegularStateLevel : SetRegularStateLevelFn :=
  fun c app level send =>
    match c.applications[app]? with
    | none => c
    | some a =>
      sample_SetRegularStateSend c app
        { hmi_level_ := level
          audio_streaming_state_ := StateControllerImpl.CalcAudioState a level
          system_context_ := a.regular.system_context_ }
        send

/-- The sample overloads of `SetRegularState`. -/
def sample_ops : SetRegularStateOverloads :=
  { state := sample_SetRegularState
    state_send := sample_SetRegularStateSend
    level_send := sample_SetRegularStateLevel }

/-- A response or notification for the application with id 1 and correlation id 0. -/
def sample_message (code : Int) (is_active : Bool) (event : Common_EventTypes) : Message :=
  { code := code, correlation_id := 0, app_id := 1, is_active := is_active,
    event_name := event }

/-- Two media applications with a deferred queue of two requests, the first one
to be sent to the HMI, and no pending activation. -/
def two_media_queued : StateControllerImpl :=
  { two_media with
    waiting_for_applying_state_ :=
      [ { app_id_ := 1, state_ := request HMILevel.HMI_FULL, send_activate_app_ := true },
        { app_id_ := 2, state_ := request HMILevel.HMI_LIMITED, send_activate_app_ := false } ] }


/-- Two media applications, the first one in BACKGROUND and the second one in NONE. -/
def two_media_none : StateControllerImpl :=
  sample_controller
    [ sample_app 1 media_info HMILevel.HMI_BACKGROUND AudioStreamingState.NOT_AUDIBLE,
      sample_app 2 media_info HMILevel.HMI_NONE AudioStreamingState.NOT_AUDIBLE ]

/-- A regular state object requesting LIMITED and AUDIBLE in the main context. -/
def limited_state (info : AppInfo) : HmiState :=
  RegularState.toHmiState info (request HMILevel.HMI_LIMITED)


/-- A regular state object requesting FULL and AUDIBLE in the main context. -/
def full_state (info : AppInfo) : HmiState :=
  RegularState.toHmiState info
    { hmi_level_ := HMILevel.HMI_FULL, audio_streaming_state_ := AudioStreamingState.AUDIBLE,
      system_context_ := SystemContext.SYSCTXT_MAIN }


/-- Populations reachable from `c0` by `ApplyRegularState` steps. -/
inductive Reachable (c0 : StateControllerImpl) : StateControllerImpl → Prop where
  | start : Reachable c0 c0
  | step (c : StateControllerImpl) (app : Nat) (state : HmiState) :
      Reachable c0 c → Reachable c0 (c.ApplyRegularState app state)

/-! ## Properties of the state variants -/

namespace HmiState

theorem hmi_level_of_regular (s : HmiState) (h : s.state_id = StateID.STATE_ID_REGULAR) :
    s.hmi_level = some s.data.hmi_level_ := by
  cases s <;> simp_all [state_id, data, hmi_level]

theorem audio_streaming_state_of_regular (att : Bool) (s : HmiState)
    (h : s.state_id = StateID.STATE_ID_REGULAR) :
    s.audio_streaming_state att = some s.data.audio_streaming_state_ := by
  cases s <;> simp_all [state_id, data, audio_streaming_state]

end HmiState

/-- Claim C6. A phone-call state whose parent has level `pl` has the level:
`pl` if `pl` is BACKGROUND or NONE; otherwise FULL if the reason is
activation-requested; otherwise LIMITED for a navi application; otherwise `pl`
if the reason is resumption-requested and the application is not a media
application; otherwise BACKGROUND. -/
theorem phone_call_hmi_level (d : HmiData) (p : HmiState) (pl : HMILevel)
    (hkind : d.state_id_ = StateID.STATE_ID_PHONE_CALL) (hparent : p.hmi_level = some pl) :
    (HmiState.withParent d p).hmi_level =
      some (if pl = HMILevel.HMI_BACKGROUND ∨ pl = HMILevel.HMI_NONE then pl
            else if d.reason_ = StateChangeReason.kActivationRequestedReason then
              HMILevel.HMI_FULL
            else if (HmiState.withParent d p).is_navi_app = true then HMILevel.HMI_LIMITED
            else if d.reason_ = StateChangeReason.kResumptionRequestedReason
                ∧ (HmiState.withParent d p).is_media_app = false then pl
            else HMILevel.HMI_BACKGROUND) := by
  simp only [HmiState.hmi_level, hkind, hparent, Option.map_some', PhoneCallHmiState.hmi_level,
    Compare_EQ_ONE, HmiState.is_navi_app, HmiState.is_media_app, HmiState.data]
  congr 1
  obtain ⟨⟨m, n, v, t⟩, k, l, a, sc, r⟩ := d
  cases pl <;> cases r <;> cases n <;> cases m <;> simp

/-- A regular FULL parent below a phone-call layer of a navi application with
the general reason gives LIMITED. -/
theorem phone_call_hmi_level_witness :
    (HmiState.withParent
        (HmiData.create ⟨false, true, false, []⟩ StateID.STATE_ID_PHONE_CALL)
        (RegularState.toHmiState ⟨false, true, false, []⟩
          ⟨HMILevel.HMI_FULL, AudioStreamingState.AUDIBLE, SystemContext.SYSCTXT_MAIN⟩)).hmi_level
      = some HMILevel.HMI_LIMITED :=
  phone_call_hmi_level _ _ HMILevel.HMI_FULL rfl rfl

/-- Claim C7. For a TTS-session state with a parent of level `pl` and audio
state `pa`: `audio_streaming_state()` is ATTENUATED exactly when attenuation is
supported, `pa` is not NOT_AUDIBLE and `pl` is FULL or LIMITED, and it is
NOT_AUDIBLE in every other case; when attenuation is not supported it is
NOT_AUDIBLE whatever the parent is. The level that the rule tests is the own
`hmi_level()` of the TTS state, which is the level of its parent. -/
theorem tts_audio_streaming_state (att : Bool) (d : HmiData) (p : HmiState)
    (pl : HMILevel) (pa : AudioStreamingState)
    (hkind : d.state_id_ = StateID.STATE_ID_TTS_SESSION)
    (hlevel : p.hmi_level = some pl)
    (hparent : p.audio_streaming_state att = some pa) :
    ((HmiState.withParent d p).audio_streaming_state att = some AudioStreamingState.ATTENUATED
        ↔ (att = true ∧ pa ≠ AudioStreamingState.NOT_AUDIBLE
            ∧ (pl = HMILevel.HMI_FULL ∨ pl = HMILevel.HMI_LIMITED)))
    ∧ ((HmiState.withParent d p).audio_streaming_state att = some AudioStreamingState.NOT_AUDIBLE
        ↔ ¬ (att = true ∧ pa ≠ AudioStreamingState.NOT_AUDIBLE
            ∧ (pl = HMILevel.HMI_FULL ∨ pl = HMILevel.HMI_LIMITED)))
    ∧ (HmiState.withParent d p).audio_streaming_state false
        = some AudioStreamingState.NOT_AUDIBLE
    ∧ (HmiState.withParent d p).hmi_level = some pl := by
  have hown : (HmiState.withParent d p).hmi_level = some pl := by
    simp [HmiState.hmi_level, hkind, hlevel]
  refine ⟨?_, ?_, ?_, hown⟩
  · simp only [HmiState.audio_streaming_state, hkind, hparent, hown, Option.map_some']
    cases att <;> cases pa <;> cases pl <;>
      simp [TTSHmiState.audio_streaming_state, Compare_EQ_ONE]
  · simp only [HmiState.audio_streaming_state, hkind, hparent, hown, Option.map_some']
    cases att <;> cases pa <;> cases pl <;>
      simp [TTSHmiState.audio_streaming_state, Compare_EQ_ONE]
  · simp [HmiState.audio_streaming_state, hkind]

/-- A TTS layer as built by the factory over a LIMITED and AUDIBLE regular
parent is ATTENUATED when attenuation is supported. -/
theorem tts_audio_streaming_state_witness :
    (HmiState.withParent
        (HmiData.create ⟨true, false, false, []⟩ StateID.STATE_ID_TTS_SESSION)
        (RegularState.toHmiState ⟨true, false, false, []⟩
          ⟨HMILevel.HMI_LIMITED, AudioStreamingState.AUDIBLE,
            SystemContext.SYSCTXT_MAIN⟩)).audio_streaming_state true
      = some AudioStreamingState.ATTENUATED :=
  (tts_audio_streaming_state true
      (HmiData.create ⟨true, false, false, []⟩ StateID.STATE_ID_TTS_SESSION)
      (RegularState.toHmiState ⟨true, false, false, []⟩
        ⟨HMILevel.HMI_LIMITED, AudioStreamingState.AUDIBLE, SystemContext.SYSCTXT_MAIN⟩)
      HMILevel.HMI_LIMITED AudioStreamingState.AUDIBLE rfl rfl rfl).1.2
    ⟨rfl, by decide, Or.inr rfl⟩

/-- Claim C8, as stated, fails: with attenuation supported, a TTS layer as
built by the factory over a regular parent of level FULL whose audio state is
NOT_AUDIBLE (an application that is not an audio application, in FULL) is
NOT_AUDIBLE, not ATTENUATED. -/
theorem tts_full_parent_not_attenuated :
    (HmiState.withParent
        (HmiData.create ⟨false, false, false, []⟩ StateID.STATE_ID_TTS_SESSION)
        (RegularState.toHmiState ⟨false, false, false, []⟩
          ⟨HMILevel.HMI_FULL, AudioStreamingState.NOT_AUDIBLE,
            SystemContext.SYSCTXT_MAIN⟩)).audio_streaming_state true
      = some AudioStreamingState.NOT_AUDIBLE
    ∧ (RegularState.toHmiState ⟨false, false, false, []⟩
          ⟨HMILevel.HMI_FULL, AudioStreamingState.NOT_AUDIBLE,
            SystemContext.SYSCTXT_MAIN⟩).hmi_level
        = some HMILevel.HMI_FULL
    ∧ (RegularState.toHmiState ⟨false, false, false, []⟩
          ⟨HMILevel.HMI_FULL, AudioStreamingState.NOT_AUDIBLE,
            SystemContext.SYSCTXT_MAIN⟩).audio_streaming_state true
        = some AudioStreamingState.NOT_AUDIBLE := by
  decide

/-- Claim C8, amended. For every TTS-session state whose parent has level FULL
and an audio state other than NOT_AUDIBLE, if attenuation is supported then
`audio_streaming_state()` returns ATTENUATED. -/
theorem tts_full_attenuated (d : HmiData) (p : HmiState) (pa : AudioStreamingState)
    (hkind : d.state_id_ = StateID.STATE_ID_TTS_SESSION)
    (hlevel : p.hmi_level = some HMILevel.HMI_FULL)
    (hparent : p.audio_streaming_state true = some pa)
    (haudible : pa ≠ AudioStreamingState.NOT_AUDIBLE) :
    (HmiState.withParent d p).audio_streaming_state true
      = some AudioStreamingState.ATTENUATED := by
  have hown : (HmiState.withParent d p).hmi_level = some HMILevel.HMI_FULL := by
    simp [HmiState.hmi_level, hkind, hlevel]
  simp only [HmiState.audio_streaming_state, hkind, hparent, hown, Option.map_some']
  cases pa <;> simp_all [TTSHmiState.audio_streaming_state, Compare_EQ_ONE]

/-- A TTS layer as built by the factory over a FULL and AUDIBLE regular parent
of a navi application. -/
theorem tts_full_attenuated_witness :
    (HmiState.withParent
        (HmiData.create ⟨false, true, false, []⟩ StateID.STATE_ID_TTS_SESSION)
        (RegularState.toHmiState ⟨false, true, false, []⟩
          ⟨HMILevel.HMI_FULL, AudioStreamingState.AUDIBLE,
            SystemContext.SYSCTXT_MAIN⟩)).audio_streaming_state true
      = some AudioStreamingState.ATTENUATED :=
  tts_full_attenuated _ _ AudioStreamingState.AUDIBLE rfl rfl rfl (by decide)

/-- Claim C9. A navi-streaming state whose parent has audio state `pa` has
audio state `pa`, except that for an application that is not a navi application
and `pa` = AUDIBLE it is ATTENUATED if attenuation is supported and NOT_AUDIBLE
otherwise. -/
theorem navi_streaming_audio_streaming_state (att : Bool) (d : HmiData) (p : HmiState)
    (pa : AudioStreamingState) (hkind : d.state_id_ = StateID.STATE_ID_NAVI_STREAMING)
    (hparent : p.audio_streaming_state att = some pa) :
    (HmiState.withParent d p).audio_streaming_state att =
      some (if (HmiState.withParent d p).is_navi_app = false
                ∧ pa = AudioStreamingState.AUDIBLE then
              (if att = true then AudioStreamingState.ATTENUATED
               else AudioStreamingState.NOT_AUDIBLE)
            else pa) := by
  simp only [HmiState.audio_streaming_state, hkind, hparent, Option.map_some',
    NaviStreamingHmiState.audio_streaming_state, HmiState.is_navi_app, HmiState.data]
  congr 1
  obtain ⟨⟨m, n, v, t⟩, k, l, a, sc, r⟩ := d
  cases att <;> cases pa <;> cases n <;> simp

/-- A navi-streaming layer of a media application over an AUDIBLE parent,
attenuation not supported. -/
theorem navi_streaming_audio_streaming_state_witness :
    (HmiState.withParent
        (HmiData.create ⟨true, false, false, []⟩ StateID.STATE_ID_NAVI_STREAMING)
        (RegularState.toHmiState ⟨true, false, false, []⟩
          ⟨HMILevel.HMI_LIMITED, AudioStreamingState.AUDIBLE,
            SystemContext.SYSCTXT_MAIN⟩)).audio_streaming_state false
      = some AudioStreamingState.NOT_AUDIBLE :=
  navi_streaming_audio_streaming_state false _ _ AudioStreamingState.AUDIBLE rfl rfl

/-- Claim C10. A VR-session state returns NOT_AUDIBLE from
`audio_streaming_state()`, whatever its stored members, its parent (present or
null) and its application. -/
theorem vr_audio_streaming_state (att : Bool) (s : HmiState)
    (hkind : s.state_id = StateID.STATE_ID_VR_SESSION) :
    s.audio_streaming_state att = some AudioStreamingState.NOT_AUDIBLE := by
  cases s <;>
    simp_all [HmiState.state_id, HmiState.data, HmiState.audio_streaming_state,
      VRHmiState.audio_streaming_state]

/-- A VR layer with stored audio state AUDIBLE and no parent. -/
theorem vr_audio_streaming_state_witness :
    (HmiState.noParent
        { HmiData.create ⟨true, true, true, []⟩ StateID.STATE_ID_VR_SESSION with
          audio_streaming_state_ := AudioStreamingState.AUDIBLE }).audio_streaming_state true
      = some AudioStreamingState.NOT_AUDIBLE :=
  vr_audio_streaming_state true _ rfl

/-! ## Properties of the conflict resolver -/

namespace StateControllerImpl

theorem result_hmi_level_cases (ap : Application) (s : RegularState) (tr : Application) :
    HmiLevelConflictResolver.result_hmi_level ap s tr = tr.regular.hmi_level_
      ∨ HmiLevelConflictResolver.result_hmi_level ap s tr = HMILevel.HMI_LIMITED
      ∨ HmiLevelConflictResolver.result_hmi_level ap s tr = HMILevel.HMI_BACKGROUND := by
  unfold HmiLevelConflictResolver.result_hmi_level
  simp only [Application.RegularHmiState]
  split_ifs <;> simp

theorem SetupRegularHmiState_fields (c : StateControllerImpl) (i : Nat) (r : RegularState) :
    (c.SetupRegularHmiState i r).active_states_ = c.active_states_
      ∧ (c.SetupRegularHmiState i r).is_attenuated_supported = c.is_attenuated_supported := by
  unfold SetupRegularHmiState
  cases c.applications[i]? <;> simp

theorem SetupRegularHmiState_getElem? (c : StateControllerImpl) (i : Nat) (r : RegularState)
    (m : Nat) :
    (c.SetupRegularHmiState i r).applications[m]? =
      if m = i then (c.applications[i]?).map (fun a => applied_application c a r)
      else c.applications[m]? := by
  unfold SetupRegularHmiState
  cases h : c.applications[i]? with
  | none =>
    by_cases hm : m = i
    · subst hm; simp [h]
    · simp [hm]
  | some a =>
    have hlt : i < c.applications.length := by
      rcases List.getElem?_eq_some_iff.1 h with ⟨hlt, _⟩
      exact hlt
    by_cases hm : m = i
    · subst hm
      simp [List.getElem?_set_self hlt, applied_application]
    · have hm' : i ≠ m := fun e => hm e.symm
      simp [hm, List.getElem?_set_ne hm']

theorem HmiLevelConflictResolver_getElem? (c : StateControllerImpl) (i : Nat) (s : RegularState)
    (ap : Application) (hap : c.applications[i]? = some ap) (k m : Nat) :
    (HmiLevelConflictResolver i s c k).applications[m]? =
      if m = k ∧ k ≠ i then (c.applications[k]?).map (resolved_candidate ap s)
      else c.applications[m]? := by
  unfold HmiLevelConflictResolver
  by_cases hk : k = i
  · simp [hk]
  · simp only [hk, if_false, hap, ne_eq, not_false_eq_true, and_true]
    cases htr : c.applications[k]? with
    | none =>
      by_cases hm : m = k
      · subst hm; simp [htr]
      · simp [hm]
    | some tr =>
      simp only [Application.RegularHmiState, Option.map_some']
      by_cases hres : tr.regular.hmi_level_ = HmiLevelConflictResolver.result_hmi_level ap s tr
      · have : resolved_candidate ap s tr = tr := by
          unfold resolved_candidate
          simp [← hres]
        rw [this]
        simp only [← hres, ne_eq, not_true_eq_false, if_false]
        by_cases hm : m = k
        · subst hm; simp [htr]
        · simp [hm]
      · have hnf : HMILevel.HMI_FULL ≠ HmiLevelConflictResolver.result_hmi_level ap s tr := by
          rcases result_hmi_level_cases ap s tr with h | h | h
          · exact absurd h.symm hres
          · rw [h]; decide
          · rw [h]; decide
        simp only [ne_eq, hres, not_false_eq_true, if_true]
        unfold SetupRegularHmiState3
        simp only [htr, Application.RegularHmiState]
        rw [SetupRegularHmiState_getElem?]
        by_cases hm : m = k
        · subst hm
          simp [htr, applied_application, resolved_candidate, hres, hnf,
            Application.SetRegularState, Application.set_is_resuming]
        · simp [hm]

end StateControllerImpl

namespace StateControllerImpl

theorem foldl_HmiLevelConflictResolver_getElem? (i : Nat) (s : RegularState) (ap : Application)
    (L : List Nat) (hL : L.Nodup) :
    ∀ c : StateControllerImpl, c.applications[i]? = some ap → ∀ m : Nat,
      (L.foldl (HmiLevelConflictResolver i s) c).applications[m]? =
        if m ∈ L ∧ m ≠ i then (c.applications[m]?).map (resolved_candidate ap s)
        else c.applications[m]? := by
  induction L with
  | nil => intro c _ m; simp
  | cons k L ih =>
    intro c hap m
    rw [List.nodup_cons] at hL
    obtain ⟨hk, hL'⟩ := hL
    have hstep := HmiLevelConflictResolver_getElem? c i s ap hap k
    have hap1 : (HmiLevelConflictResolver i s c k).applications[i]? = some ap := by
      rw [hstep i]
      by_cases hki : k = i
      · simp [hki, hap]
      · have : ¬ (i = k ∧ k ≠ i) := fun h => hki h.1.symm
        simp [this, hap]
    rw [List.foldl_cons, ih hL' _ hap1 m, hstep m]
    by_cases hmi : m = i
    · subst hmi
      have hne : ¬ (m = k ∧ k ≠ m) := fun h => h.2 h.1.symm
      simp [hne]
    · by_cases hmL : m ∈ L
      · have hmk : m ≠ k := fun e => hk (e ▸ hmL)
        simp [hmi, hmL, hmk]
      · by_cases hmk : m = k
        · subst hmk; simp [hmi, hmL]
        · simp [hmi, hmL, hmk]

theorem ApplyRegularState_getElem? (c : StateControllerImpl) (i : Nat) (state : HmiState)
    (a : Application) (ha : c.applications[i]? = some a)
    (hreg : state.state_id = StateID.STATE_ID_REGULAR) (m : Nat) :
    (c.ApplyRegularState i state).applications[m]? =
      if m = i then some (applied_application c a state.toRegular)
      else (c.applications[m]?).map
        (resolved_candidate (applied_application c a state.toRegular) state.toRegular) := by
  unfold ApplyRegularState ForEachApplication
  simp only [ha, hreg, ne_eq, not_true_eq_false, if_false]
  have hi : (c.SetupRegularHmiState i state.toRegular).applications[i]? =
      some (applied_application c a state.toRegular) := by
    rw [SetupRegularHmiState_getElem?]; simp [ha]
  rw [foldl_HmiLevelConflictResolver_getElem? i _ _ _ (List.nodup_range _) _ hi m]
  by_cases hmi : m = i
  · subst hmi; simp [hi]
  · have hm : (c.SetupRegularHmiState i state.toRegular).applications[m]?
        = c.applications[m]? := by
      rw [SetupRegularHmiState_getElem?]; simp [hmi]
    simp only [hmi, if_false, List.mem_range, ne_eq, not_false_eq_true, and_true, hm]
    split_ifs with hlt
    · rfl
    · have hnone := List.getElem?_eq_none (Nat.le_of_not_lt hlt)
      rw [hm] at hnone
      simp [hnone]

end StateControllerImpl

namespace StateControllerImpl

theorem resolved_candidate_level (ap : Application) (s : RegularState) (tr : Application) :
    (resolved_candidate ap s tr).regular.hmi_level_
      = HmiLevelConflictResolver.result_hmi_level ap s tr := by
  unfold resolved_candidate
  by_cases h : tr.regular.hmi_level_ = HmiLevelConflictResolver.result_hmi_level ap s tr
  · simp [h]
  · simp [h]

theorem resolved_candidate_info (ap : Application) (s : RegularState) (tr : Application) :
    (resolved_candidate ap s tr).info = tr.info ∧ (resolved_candidate ap s tr).temps = tr.temps
      ∧ (resolved_candidate ap s tr).app_id = tr.app_id := by
  by_cases h : tr.regular.hmi_level_ = HmiLevelConflictResolver.result_hmi_level ap s tr
  · simp [resolved_candidate, h]
  · simp [resolved_candidate, h]

theorem foldl_RemoveHMIState (L : List StateID) :
    ∀ a : Application, ((L.foldl Application.RemoveHMIState a).info = a.info
      ∧ (L.foldl Application.RemoveHMIState a).regular = a.regular
      ∧ (L.foldl Application.RemoveHMIState a).is_resuming = a.is_resuming
      ∧ (L.foldl Application.RemoveHMIState a).app_id = a.app_id
      ∧ (a.temps = [] → (L.foldl Application.RemoveHMIState a).temps = [])) := by
  induction L with
  | nil => intro a; simp
  | cons k L ih =>
    intro a
    obtain ⟨h1, h2, h3, h4, h5⟩ := ih (a.RemoveHMIState k)
    simp only [List.foldl_cons]
    refine ⟨h1, h2, h3, h4, fun h => h5 ?_⟩
    simp [Application.RemoveHMIState, h]

theorem RemoveConflictedActiveStatesFromApp_frame (c : StateControllerImpl) (a : Application) :
    (c.RemoveConflictedActiveStatesFromApp a).info = a.info
      ∧ (c.RemoveConflictedActiveStatesFromApp a).regular = a.regular
      ∧ (c.RemoveConflictedActiveStatesFromApp a).is_resuming = a.is_resuming
      ∧ (c.RemoveConflictedActiveStatesFromApp a).app_id = a.app_id
      ∧ (a.temps = [] → (c.RemoveConflictedActiveStatesFromApp a).temps = []) := by
  unfold RemoveConflictedActiveStatesFromApp conflict_states_
  simp only [List.foldl_cons, List.foldl_nil]
  split_ifs
  · obtain ⟨h1, h2, h3, h4, h5⟩ := foldl_RemoveHMIState
      (List.filter c.IsTempStateActive [StateID.STATE_ID_EMBEDDED_NAVI]) a
    obtain ⟨g1, g2, g3, g4, g5⟩ := foldl_RemoveHMIState
      (List.filter c.IsTempStateActive [StateID.STATE_ID_AUDIO_SOURCE])
      (List.foldl Application.RemoveHMIState a
        (List.filter c.IsTempStateActive [StateID.STATE_ID_EMBEDDED_NAVI]))
    exact ⟨g1.trans h1, g2.trans h2, g3.trans h3, g4.trans h4, fun h => g5 (h5 h)⟩
  · exact foldl_RemoveHMIState _ a
  · exact foldl_RemoveHMIState _ a
  · simp

theorem applied_application_frame (c : StateControllerImpl) (a : Application)
    (r : RegularState) :
    (applied_application c a r).info = a.info
      ∧ (applied_application c a r).regular = r
      ∧ (applied_application c a r).is_resuming = false
      ∧ (applied_application c a r).app_id = a.app_id
      ∧ (a.temps = [] → (applied_application c a r).temps = []) := by
  obtain ⟨h1, _, _, h4, h5⟩ := RemoveConflictedActiveStatesFromApp_frame c a
  unfold applied_application
  split_ifs <;> simp [Application.SetRegularState, Application.set_is_resuming, h1, h4]
  exact h5

theorem IsSameAppType_of_info {a a' b b' : Application} (ha : a'.info = a.info)
    (hb : b'.info = b.info) : IsSameAppType a' b' = IsSameAppType a b := by
  simp [IsSameAppType, Application.is_audio, Application.is_media_application,
    Application.is_navi, Application.is_voice_communication_supported, ha, hb]

theorem IsSameAppType_comm (a b : Application) : IsSameAppType a b = IsSameAppType b a := by
  simp only [IsSameAppType, Application.is_audio, Application.is_media_application,
    Application.is_navi, Application.is_voice_communication_supported]
  cases a.info.is_audio <;> cases b.info.is_audio <;> cases a.info.is_media_application <;>
    cases b.info.is_media_application <;> cases a.info.is_navi <;> cases b.info.is_navi <;>
    cases a.info.is_voice_communication_supported <;>
    cases b.info.is_voice_communication_supported <;> rfl

theorem result_hmi_level_eq_spec (ap : Application) (s : RegularState) (tr : Application) :
    HmiLevelConflictResolver.result_hmi_level ap s tr
      = resolved_level_spec s.hmi_level_ ap.is_audio tr.regular.hmi_level_ tr.is_audio
          (IsSameAppType ap tr) := by
  unfold HmiLevelConflictResolver.result_hmi_level resolved_level_spec
  simp only [Application.RegularHmiState, Compare_EQ_ONE]
  generalize IsSameAppType ap tr = same
  generalize ap.is_audio = x
  generalize tr.is_audio = y
  obtain ⟨l, _, _⟩ := s
  obtain ⟨_, _, _, ⟨l', _, _⟩, _⟩ := tr
  cases same <;> cases x <;> cases y <;> cases l <;> cases l' <;> simp

theorem result_hmi_level_full (ap : Application) (s : RegularState) (tr : Application)
    (h : HmiLevelConflictResolver.result_hmi_level ap s tr = HMILevel.HMI_FULL) :
    tr.regular.hmi_level_ = HMILevel.HMI_FULL := by
  rcases result_hmi_level_cases ap s tr with h' | h' | h'
  · rw [← h', h]
  · rw [h] at h'; exact absurd h' (by decide)
  · rw [h] at h'; exact absurd h' (by decide)

theorem result_hmi_level_same_audio (ap : Application) (s : RegularState) (tr : Application)
    (hs : s.hmi_level_ = HMILevel.HMI_FULL) (hap : ap.is_audio = true)
    (htr : tr.is_audio = true) (hsame : IsSameAppType ap tr = true) :
    HmiLevelConflictResolver.result_hmi_level ap s tr ≠ HMILevel.HMI_FULL := by
  intro h
  have hfull := result_hmi_level_full ap s tr h
  rw [result_hmi_level_eq_spec, hs, hap, htr, hsame, hfull] at h
  revert h
  decide

end StateControllerImpl

namespace StateControllerImpl

theorem hmi_level_of_no_temps (a : Application) (h : a.temps = []) :
    a.hmi_level = a.regular.hmi_level_ := by
  simp [Application.hmi_level, h]

theorem exclusion_invariant_step (c : StateControllerImpl) (i : Nat) (state : HmiState)
    (hinv : exclusion_invariant c) : exclusion_invariant (c.ApplyRegularState i state) := by
  cases hi : c.applications[i]? with
  | none => simpa [ApplyRegularState, hi] using hinv
  | some ai =>
    by_cases hreg : state.state_id = StateID.STATE_ID_REGULAR
    swap
    · simpa [ApplyRegularState, hi, hreg] using hinv
    have hget := ApplyRegularState_getElem? c i state ai hi hreg
    obtain ⟨htemps, hexcl⟩ := hinv
    obtain ⟨fi, fr, _, _, ft⟩ := applied_application_frame c ai state.toRegular
    refine ⟨?_, ?_⟩
    · intro m a hm
      rw [hget m] at hm
      by_cases hmi : m = i
      · simp only [hmi, if_true, Option.some.injEq] at hm
        rw [← hm]
        exact ft (htemps i ai hi)
      · simp only [hmi, if_false, Option.map_eq_some'] at hm
        obtain ⟨a0, ha0, rfl⟩ := hm
        rw [(resolved_candidate_info _ _ a0).2.1]
        exact htemps m a0 ha0
    · intro p q a b hpq hp hq haa hba hsame hfull
      rw [hget p] at hp
      rw [hget q] at hq
      by_cases hpi : p = i
      · have hqi : q ≠ i := fun e => hpq (hpi.trans e.symm)
        simp only [hpi, if_true, Option.some.injEq] at hp
        simp only [hqi, if_false, Option.map_eq_some'] at hq
        obtain ⟨b0, _, rfl⟩ := hq
        subst hp
        have hb0 := resolved_candidate_info (applied_application c ai state.toRegular)
          state.toRegular b0
        refine result_hmi_level_same_audio (applied_application c ai state.toRegular)
          state.toRegular b0 ?_ haa ?_ ?_ ?_
        · rw [← fr]; exact hfull.1
        · simpa [Application.is_audio, hb0.1] using hba
        · rw [← IsSameAppType_of_info rfl hb0.1]; exact hsame
        · rw [← resolved_candidate_level]; exact hfull.2
      · simp only [hpi, if_false, Option.map_eq_some'] at hp
        obtain ⟨a0, ha0, rfl⟩ := hp
        have ha0i := resolved_candidate_info (applied_application c ai state.toRegular)
          state.toRegular a0
        by_cases hqi : q = i
        · simp only [hqi, if_true, Option.some.injEq] at hq
          subst hq
          refine result_hmi_level_same_audio (applied_application c ai state.toRegular)
            state.toRegular a0 ?_ hba ?_ ?_ ?_
          · rw [← fr]; exact hfull.2
          · simpa [Application.is_audio, ha0i.1] using haa
          · rw [IsSameAppType_comm, ← IsSameAppType_of_info ha0i.1 rfl]; exact hsame
          · rw [← resolved_candidate_level]; exact hfull.1
        · simp only [hqi, if_false, Option.map_eq_some'] at hq
          obtain ⟨b0, hb0, rfl⟩ := hq
          have hb0i := resolved_candidate_info (applied_application c ai state.toRegular)
            state.toRegular b0
          refine hexcl p q a0 b0 hpq ha0 hb0 ?_ ?_ ?_ ⟨?_, ?_⟩
          · simpa [Application.is_audio, ha0i.1] using haa
          · simpa [Application.is_audio, hb0i.1] using hba
          · rw [← IsSameAppType_of_info ha0i.1 hb0i.1]; exact hsame
          · exact result_hmi_level_full _ _ _ ((resolved_candidate_level _ _ _).symm.trans hfull.1)
          · exact result_hmi_level_full _ _ _ ((resolved_candidate_level _ _ _).symm.trans hfull.2)

theorem exclusion_invariant_reachable (c0 c : StateControllerImpl)
    (h0 : exclusion_invariant c0) (hr : Reachable c0 c) : exclusion_invariant c := by
  induction hr with
  | start => exact h0
  | step c app state _ ih => exact exclusion_invariant_step c app state ih

end StateControllerImpl

/-- Claim C2. Mutual exclusion: in every population reachable by
`ApplyRegularState` steps from a population in which no application carries a
temporary state and no application holds FULL, no two distinct audio
applications of the same type (`IsSameAppType`) have the current level FULL. -/
theorem mutual_exclusion_reachable (c0 c : StateControllerImpl)
    (h0 : ∀ a ∈ c0.applications, a.temps = [] ∧ a.hmi_level ≠ HMILevel.HMI_FULL)
    (hr : Reachable c0 c) : mutual_exclusion c := by
  have hinv0 : exclusion_invariant c0 := by
    refine ⟨fun m a hm => (h0 a (List.getElem?_mem hm)).1, ?_⟩
    intro i j a b _ hi _ _ _ _ hfull
    have ha := h0 a (List.getElem?_mem hi)
    rw [StateControllerImpl.hmi_level_of_no_temps a ha.1] at ha
    exact ha.2 hfull.1
  obtain ⟨htemps, hexcl⟩ := StateControllerImpl.exclusion_invariant_reachable c0 c hinv0 hr
  intro i j a b hij hi hj haa hba hsame hfull
  rw [StateControllerImpl.hmi_level_of_no_temps a (htemps i a hi),
    StateControllerImpl.hmi_level_of_no_temps b (htemps j b hj)] at hfull
  exact hexcl i j a b hij hi hj haa hba hsame hfull

/-- Two media applications, none in FULL; FULL is applied to the first one, then
to the second one. -/
theorem mutual_exclusion_reachable_witness :
    mutual_exclusion
      ((two_media_limited.ApplyRegularState 0 (full_state media_info)).ApplyRegularState 1
        (full_state media_info)) :=
  mutual_exclusion_reachable two_media_limited _ (by decide)
    (Reachable.step _ 1 (full_state media_info)
      (Reachable.step _ 0 (full_state media_info) Reachable.start))

namespace StateControllerImpl

theorem is_audio_of_same_type (a b : Application) (hsame : IsSameAppType a b = true)
    (hb : b.is_audio = true) : a.is_audio = true := by
  obtain ⟨_, ⟨m, n, v, _⟩, _, _, _⟩ := a
  obtain ⟨_, ⟨m', n', v', _⟩, _, _, _⟩ := b
  simp only [IsSameAppType, Application.is_audio, AppInfo.is_audio,
    Application.is_media_application, Application.is_navi,
    Application.is_voice_communication_supported] at *
  revert hsame hb
  cases m <;> cases n <;> cases v <;> cases m' <;> cases n' <;> cases v' <;> decide

theorem toRegular_level_of_regular (state : HmiState) (l : HMILevel)
    (hreg : state.state_id = StateID.STATE_ID_REGULAR) (hl : state.hmi_level = some l) :
    state.toRegular.hmi_level_ = l := by
  rw [HmiState.hmi_level_of_regular state hreg] at hl
  simpa [HmiState.toRegular] using hl

end StateControllerImpl

/-- Claim C1. For the resolver built from the applied application (position
`i`) and the applied state, and every other candidate (position `j`), the level
computed by `HmiLevelConflictResolver` equals the reference definition of the
specification, and it is the regular level of the candidate after the call. -/
theorem resolver_level_refines_spec (c : StateControllerImpl) (i j : Nat)
    (state_ : RegularState) (ap tr : Application) (hji : j ≠ i)
    (hap : c.applications[i]? = some ap) (htr : c.applications[j]? = some tr) :
    StateControllerImpl.HmiLevelConflictResolver.result_hmi_level ap state_ tr
        = resolved_level_spec state_.hmi_level_ ap.is_audio tr.RegularHmiState.hmi_level_
            tr.is_audio (StateControllerImpl.IsSameAppType ap tr)
      ∧ ((StateControllerImpl.HmiLevelConflictResolver i state_ c j).applications[j]?).map
            (fun a => a.RegularHmiState.hmi_level_)
          = some (resolved_level_spec state_.hmi_level_ ap.is_audio
              tr.RegularHmiState.hmi_level_ tr.is_audio
              (StateControllerImpl.IsSameAppType ap tr)) := by
  refine ⟨StateControllerImpl.result_hmi_level_eq_spec ap state_ tr, ?_⟩
  rw [StateControllerImpl.HmiLevelConflictResolver_getElem? c i state_ ap hap j j]
  simp [hji, htr, Application.RegularHmiState, StateControllerImpl.resolved_candidate_level,
    StateControllerImpl.result_hmi_level_eq_spec]

/-- A navigation application is applied FULL; the media application in FULL is
resolved to LIMITED. -/
theorem resolver_level_refines_spec_witness :
    ((StateControllerImpl.HmiLevelConflictResolver 0 (full_state navi_info).toRegular
        navi_and_media 1).applications[1]?).map (fun a => a.RegularHmiState.hmi_level_)
      = some HMILevel.HMI_LIMITED :=
  (resolver_level_refines_spec navi_and_media 0 1 (full_state navi_info).toRegular
    (sample_app 1 navi_info HMILevel.HMI_NONE AudioStreamingState.NOT_AUDIBLE)
    (sample_app 2 media_info HMILevel.HMI_FULL AudioStreamingState.AUDIBLE)
    (by decide) rfl rfl).2

/-- Claim C3. For distinct applications A (position `i`) and B (position `j`)
where B is an audio application, A and B are not of the same type and the
regular level of B is LIMITED or FULL: after `ApplyRegularState(A, s)` with a
regular state `s` of level FULL, the regular level of B is LIMITED. -/
theorem apply_full_other_type_limited (c : StateControllerImpl) (i j : Nat)
    (state : HmiState) (A B : Application) (hij : i ≠ j)
    (hA : c.applications[i]? = some A) (hB : c.applications[j]? = some B)
    (hreg : state.state_id = StateID.STATE_ID_REGULAR)
    (hfull : state.hmi_level = some HMILevel.HMI_FULL)
    (haudio : B.is_audio = true)
    (hdiff : StateControllerImpl.IsSameAppType A B = false)
    (hlevel : B.RegularHmiState.hmi_level_ = HMILevel.HMI_LIMITED
      ∨ B.RegularHmiState.hmi_level_ = HMILevel.HMI_FULL) :
    ((c.ApplyRegularState i state).applications[j]?).map
        (fun b => b.RegularHmiState.hmi_level_) = some HMILevel.HMI_LIMITED := by
  have hji : j ≠ i := fun e => hij e.symm
  have hl := StateControllerImpl.toRegular_level_of_regular state _ hreg hfull
  have hinfo := (StateControllerImpl.applied_application_frame c A state.toRegular).1
  have hsame : StateControllerImpl.IsSameAppType
      (applied_application c A state.toRegular) B = false := by
    rw [StateControllerImpl.IsSameAppType_of_info hinfo rfl]; exact hdiff
  rw [StateControllerImpl.ApplyRegularState_getElem? c i state A hA hreg j]
  simp only [hji, if_false, hB, Option.map_some', Application.RegularHmiState,
    StateControllerImpl.resolved_candidate_level, Option.some.injEq,
    StateControllerImpl.result_hmi_level_eq_spec, hl, hsame, haudio]
  simp only [Application.RegularHmiState] at hlevel
  generalize (applied_application c A state.toRegular).is_audio = x
  rcases hlevel with h | h <;> rw [h] <;> cases x <;> decide

/-- A navigation application is applied FULL next to a media application in FULL. -/
theorem apply_full_other_type_limited_witness :
    ((navi_and_media.ApplyRegularState 0 (full_state navi_info)).applications[1]?).map
        (fun b => b.RegularHmiState.hmi_level_) = some HMILevel.HMI_LIMITED :=
  apply_full_other_type_limited navi_and_media 0 1 (full_state navi_info)
    (sample_app 1 navi_info HMILevel.HMI_NONE AudioStreamingState.NOT_AUDIBLE)
    (sample_app 2 media_info HMILevel.HMI_FULL AudioStreamingState.AUDIBLE)
    (by decide) rfl rfl rfl rfl rfl rfl (Or.inr rfl)

/-- Claim C4. For distinct applications A (position `i`) and B (position `j`)
of the same type where the regular level of B is FULL: after
`ApplyRegularState(A, s)` with a regular state `s` of level FULL, the regular
level of B is BACKGROUND. -/
theorem apply_full_same_type_background (c : StateControllerImpl) (i j : Nat)
    (state : HmiState) (A B : Application) (hij : i ≠ j)
    (hA : c.applications[i]? = some A) (hB : c.applications[j]? = some B)
    (hreg : state.state_id = StateID.STATE_ID_REGULAR)
    (hfull : state.hmi_level = some HMILevel.HMI_FULL)
    (hsame : StateControllerImpl.IsSameAppType A B = true)
    (hlevel : B.RegularHmiState.hmi_level_ = HMILevel.HMI_FULL) :
    ((c.ApplyRegularState i state).applications[j]?).map
        (fun b => b.RegularHmiState.hmi_level_) = some HMILevel.HMI_BACKGROUND := by
  have hji : j ≠ i := fun e => hij e.symm
  have hl := StateControllerImpl.toRegular_level_of_regular state _ hreg hfull
  have hinfo := (StateControllerImpl.applied_application_frame c A state.toRegular).1
  have hsame' : StateControllerImpl.IsSameAppType
      (applied_application c A state.toRegular) B = true := by
    rw [StateControllerImpl.IsSameAppType_of_info hinfo rfl]; exact hsame
  rw [StateControllerImpl.ApplyRegularState_getElem? c i state A hA hreg j]
  simp only [Application.RegularHmiState] at hlevel
  simp only [hji, if_false, hB, Option.map_some', Application.RegularHmiState,
    StateControllerImpl.resolved_candidate_level, Option.some.injEq,
    StateControllerImpl.result_hmi_level_eq_spec, hl, hsame', hlevel]
  cases hb : B.is_audio with
  | false => cases (applied_application c A state.toRegular).is_audio <;> decide
  | true =>
    rw [StateControllerImpl.is_audio_of_same_type _ B hsame' hb]
    decide

/-- A media application is applied FULL next to another media application in FULL. -/
theorem apply_full_same_type_background_witness :
    ((two_media.ApplyRegularState 0 (full_state media_info)).applications[1]?).map
        (fun b => b.RegularHmiState.hmi_level_) = some HMILevel.HMI_BACKGROUND :=
  apply_full_same_type_background two_media 0 1 (full_state media_info)
    (sample_app 1 media_info HMILevel.HMI_BACKGROUND AudioStreamingState.NOT_AUDIBLE)
    (sample_app 2 media_info HMILevel.HMI_FULL AudioStreamingState.AUDIBLE)
    (by decide) rfl rfl rfl rfl rfl rfl

/-- Claim C5. One call of the resolver on the candidate at position `j`, for
the applied application at position `i`: the applied application itself is
skipped; if the computed level differs from the candidate's current regular
level, the candidate's new regular state has that level, the audio state AUDIBLE
when the level is LIMITED and NOT_AUDIBLE otherwise, and the system context of
the previous regular state; if the computed level equals the current one, the
controller and every application are left unchanged; in both cases no
application other than the candidate is modified. -/
theorem resolver_step_frame (c : StateControllerImpl) (i j : Nat) (state_ : RegularState)
    (ap tr : Application) (hap : c.applications[i]? = some ap)
    (htr : c.applications[j]? = some tr) :
    StateControllerImpl.HmiLevelConflictResolver i state_ c i = c
      ∧ (j ≠ i →
          StateControllerImpl.HmiLevelConflictResolver.result_hmi_level ap state_ tr
            ≠ tr.RegularHmiState.hmi_level_ →
          ((StateControllerImpl.HmiLevelConflictResolver i state_ c j).applications[j]?).map
              Application.RegularHmiState
            = some
                { hmi_level_ :=
                    StateControllerImpl.HmiLevelConflictResolver.result_hmi_level ap state_ tr
                  audio_streaming_state_ :=
                    if StateControllerImpl.HmiLevelConflictResolver.result_hmi_level ap state_ tr
                        = HMILevel.HMI_LIMITED then AudioStreamingState.AUDIBLE
                    else AudioStreamingState.NOT_AUDIBLE
                  system_context_ := tr.RegularHmiState.system_context_ })
      ∧ (j ≠ i →
          StateControllerImpl.HmiLevelConflictResolver.result_hmi_level ap state_ tr
            = tr.RegularHmiState.hmi_level_ →
          StateControllerImpl.HmiLevelConflictResolver i state_ c j = c)
      ∧ (∀ m : Nat, m ≠ j →
          (StateControllerImpl.HmiLevelConflictResolver i state_ c j).applications[m]?
            = c.applications[m]?) := by
  refine ⟨by simp [StateControllerImpl.HmiLevelConflictResolver], ?_, ?_, ?_⟩
  · intro hji hne
    have hne' : ¬ tr.regular.hmi_level_
        = StateControllerImpl.HmiLevelConflictResolver.result_hmi_level ap state_ tr :=
      fun e => hne e.symm
    rw [StateControllerImpl.HmiLevelConflictResolver_getElem? c i state_ ap hap j j]
    simp [hji, htr, resolved_candidate, hne', Application.RegularHmiState]
  · intro hji heq
    simp only [Application.RegularHmiState] at heq
    simp [StateControllerImpl.HmiLevelConflictResolver, hji, hap, htr, heq,
      Application.RegularHmiState]
  · intro m hm
    rw [StateControllerImpl.HmiLevelConflictResolver_getElem? c i state_ ap hap j m]
    simp [hm]

/-- The resolver for a navigation application applied FULL changes the media
application at position 1 and leaves position 0 alone. -/
theorem resolver_step_frame_witness :
    (StateControllerImpl.HmiLevelConflictResolver 0 (full_state navi_info).toRegular
        navi_and_media 1).applications[0]? = navi_and_media.applications[0]? :=
  (resolver_step_frame navi_and_media 0 1 (full_state navi_info).toRegular
    (sample_app 1 navi_info HMILevel.HMI_NONE AudioStreamingState.NOT_AUDIBLE)
    (sample_app 2 media_info HMILevel.HMI_FULL AudioStreamingState.AUDIBLE)
    rfl rfl).2.2.2 0 (by decide)

/-! ## The stack of an application evaluates like its chain of states -/

namespace Application

theorem foldl_withParent_hmi_level (temps : List HmiData) :
    ∀ (p : HmiState) (l : HMILevel), p.hmi_level = some l →
      (temps.foldl (fun parent d => HmiState.withParent d parent) p).hmi_level
        = some (temps.foldl (fun l d => layer_hmi_level d l) l) := by
  induction temps with
  | nil => intro p l h; simpa using h
  | cons d ds ih =>
    intro p l h
    simp only [List.foldl_cons]
    apply ih
    cases hk : d.state_id_ <;> simp [HmiState.hmi_level, layer_hmi_level, hk, h]

theorem withParent_audio_streaming_state (att : Bool) (d : HmiData) (p : HmiState)
    (l : HMILevel) (s : AudioStreamingState) (hl : p.hmi_level = some l)
    (hs : p.audio_streaming_state att = some s) :
    (HmiState.withParent d p).audio_streaming_state att
      = some (layer_audio_streaming_state att d l s) := by
  cases hk : d.state_id_ <;>
    simp [HmiState.audio_streaming_state, HmiState.hmi_level, layer_audio_streaming_state,
      layer_hmi_level, hk, hl, hs]
  · cases att <;> cases s <;>
      simp [TTSHmiState.audio_streaming_state, VRHmiState.audio_streaming_state]
  · cases hn : d.app_.is_navi <;> simp [AudioSource.audio_streaming_state, hn]
  · cases hm : d.app_.is_media_application <;>
      simp [EmbeddedNavi.audio_streaming_state, hm]

theorem foldl_withParent_layers (att : Bool) (temps : List HmiData) :
    ∀ (p : HmiState) (l : HMILevel) (s : AudioStreamingState),
      p.hmi_level = some l → p.audio_streaming_state att = some s →
      (temps.foldl (fun parent d => HmiState.withParent d parent) p).hmi_level
          = some (temps.foldl (layer_step att) (l, s)).1
        ∧ (temps.foldl (fun parent d => HmiState.withParent d parent) p).audio_streaming_state
            att = some (temps.foldl (layer_step att) (l, s)).2 := by
  induction temps with
  | nil => intro p l s hl hs; exact ⟨by simpa using hl, by simpa using hs⟩
  | cons d ds ih =>
    intro p l s hl hs
    simp only [List.foldl_cons]
    apply ih
    · exact foldl_withParent_hmi_level [d] p l hl
    · exact withParent_audio_streaming_state att d p l s hl hs

theorem CurrentHmiState_hmi_level (a : Application) :
    a.CurrentHmiState.hmi_level = some a.hmi_level :=
  foldl_withParent_hmi_level a.temps _ _ rfl

theorem CurrentHmiState_audio_streaming_state (att : Bool) (a : Application) :
    a.CurrentHmiState.audio_streaming_state att = some (a.audio_streaming_state att) :=
  (foldl_withParent_layers att a.temps (a.regular.toHmiState a.info) a.regular.hmi_level_
    a.regular.audio_streaming_state_ rfl rfl).2

end Application

/-! ## Properties of the remaining state variants -/

/-- Claim C11. A deactivate-HMI state whose parent has level `pl` has the
level `pl` when `pl` is BACKGROUND or NONE, and BACKGROUND otherwise. -/
theorem deactivate_hmi_level (d : HmiData) (p : HmiState) (pl : HMILevel)
    (hkind : d.state_id_ = StateID.STATE_ID_DEACTIVATE_HMI) (hparent : p.hmi_level = some pl) :
    (HmiState.withParent d p).hmi_level =
      some (if pl = HMILevel.HMI_BACKGROUND ∨ pl = HMILevel.HMI_NONE then pl
            else HMILevel.HMI_BACKGROUND) := by
  simp only [HmiState.hmi_level, hkind, hparent, Option.map_some', DeactivateHMI.hmi_level,
    Compare_EQ_ONE]
  congr 1
  cases pl <;> simp

/-- A deactivate-HMI layer over a regular LIMITED parent gives BACKGROUND. -/
theorem deactivate_hmi_level_witness :
    (HmiState.withParent (HmiData.create media_info StateID.STATE_ID_DEACTIVATE_HMI)
        (RegularState.toHmiState media_info (request HMILevel.HMI_LIMITED))).hmi_level
      = some HMILevel.HMI_BACKGROUND :=
  deactivate_hmi_level _ _ HMILevel.HMI_LIMITED rfl rfl

/-- Claim C12. An audio-source state whose parent has level `pl` and audio
state `pa`: the level is `pl` if `pl` is BACKGROUND or NONE, else LIMITED for a
navi or voice-communication application, else BACKGROUND; the audio state is
`pa` for a navi application and NOT_AUDIBLE otherwise. -/
theorem audio_source_rules (att : Bool) (d : HmiData) (p : HmiState) (pl : HMILevel)
    (pa : AudioStreamingState) (hkind : d.state_id_ = StateID.STATE_ID_AUDIO_SOURCE)
    (hlevel : p.hmi_level = some pl) (haudio : p.audio_streaming_state att = some pa) :
    (HmiState.withParent d p).hmi_level =
        some (if pl = HMILevel.HMI_BACKGROUND ∨ pl = HMILevel.HMI_NONE then pl
              else if (HmiState.withParent d p).is_navi_app = true
                  ∨ (HmiState.withParent d p).is_voice_communication_app = true then
                HMILevel.HMI_LIMITED
              else HMILevel.HMI_BACKGROUND)
      ∧ (HmiState.withParent d p).audio_streaming_state att =
        some (if (HmiState.withParent d p).is_navi_app = true then pa
              else AudioStreamingState.NOT_AUDIBLE) := by
  obtain ⟨⟨m, n, v, t⟩, k, l, a, sc, r⟩ := d
  simp only at hkind
  subst hkind
  constructor
  · simp only [HmiState.hmi_level, hlevel, Option.map_some', AudioSource.hmi_level,
      Compare_EQ_ONE, HmiState.is_navi_app, HmiState.is_voice_communication_app,
      HmiState.data]
    congr 1
    cases pl <;> cases n <;> cases v <;> simp
  · simp only [HmiState.audio_streaming_state, haudio, AudioSource.audio_streaming_state,
      HmiState.is_navi_app, HmiState.data]
    cases n <;> simp [haudio, AudioSource.audio_streaming_state]

/-- An audio-source layer of a navigation application over a FULL and AUDIBLE
parent: LIMITED and AUDIBLE. -/
theorem audio_source_rules_witness :
    (HmiState.withParent (HmiData.create navi_info StateID.STATE_ID_AUDIO_SOURCE)
        (full_state navi_info)).hmi_level = some HMILevel.HMI_LIMITED
      ∧ (HmiState.withParent (HmiData.create navi_info StateID.STATE_ID_AUDIO_SOURCE)
          (full_state navi_info)).audio_streaming_state true
        = some AudioStreamingState.AUDIBLE :=
  audio_source_rules true (HmiData.create navi_info StateID.STATE_ID_AUDIO_SOURCE)
    (full_state navi_info) HMILevel.HMI_FULL AudioStreamingState.AUDIBLE rfl rfl rfl

/-- Claim C13. An embedded-navi state whose parent has level `pl` and audio
state `pa`: the level is `pl` if `pl` is BACKGROUND or NONE, else LIMITED for a
media application, else BACKGROUND; the audio state is `pa` for a media
application and NOT_AUDIBLE otherwise. -/
theorem embedded_navi_rules (att : Bool) (d : HmiData) (p : HmiState) (pl : HMILevel)
    (pa : AudioStreamingState) (hkind : d.state_id_ = StateID.STATE_ID_EMBEDDED_NAVI)
    (hlevel : p.hmi_level = some pl) (haudio : p.audio_streaming_state att = some pa) :
    (HmiState.withParent d p).hmi_level =
        some (if pl = HMILevel.HMI_BACKGROUND ∨ pl = HMILevel.HMI_NONE then pl
              else if (HmiState.withParent d p).is_media_app = true then HMILevel.HMI_LIMITED
              else HMILevel.HMI_BACKGROUND)
      ∧ (HmiState.withParent d p).audio_streaming_state att =
        some (if (HmiState.withParent d p).is_media_app = true then pa
              else AudioStreamingState.NOT_AUDIBLE) := by
  obtain ⟨⟨m, n, v, t⟩, k, l, a, sc, r⟩ := d
  simp only at hkind
  subst hkind
  constructor
  · simp only [HmiState.hmi_level, hlevel, Option.map_some', EmbeddedNavi.hmi_level,
      Compare_EQ_ONE, HmiState.is_media_app, HmiState.data]
    congr 1
    cases pl <;> cases m <;> simp
  · simp only [HmiState.audio_streaming_state, haudio, EmbeddedNavi.audio_streaming_state,
      HmiState.is_media_app, HmiState.data]
    cases m <;> simp [haudio, EmbeddedNavi.audio_streaming_state]

/-- An embedded-navi layer of a navigation application over a FULL and AUDIBLE
parent: BACKGROUND and NOT_AUDIBLE. -/
theorem embedded_navi_rules_witness :
    (HmiState.withParent (HmiData.create navi_info StateID.STATE_ID_EMBEDDED_NAVI)
        (full_state navi_info)).hmi_level = some HMILevel.HMI_BACKGROUND
      ∧ (HmiState.withParent (HmiData.create navi_info StateID.STATE_ID_EMBEDDED_NAVI)
          (full_state navi_info)).audio_streaming_state false
        = some AudioStreamingState.NOT_AUDIBLE :=
  embedded_navi_rules false (HmiData.create navi_info StateID.STATE_ID_EMBEDDED_NAVI)
    (full_state navi_info) HMILevel.HMI_FULL AudioStreamingState.AUDIBLE rfl rfl rfl

/-! ## Availability of a requested state -/

/-- Claim C14, as stated, fails: for a resuming media application an active
TTS_SESSION does not block a FULL request, and an active VR_SESSION does not
block a BACKGROUND request. -/
theorem resumption_not_blocked_by_tts :
    (controller_with [resuming_app 1 media_info]
        [StateID.STATE_ID_TTS_SESSION]).IsStateAvailable
        (resuming_app 1 media_info) (request HMILevel.HMI_FULL) = true
      ∧ (controller_with [resuming_app 1 media_info]
          [StateID.STATE_ID_VR_SESSION]).IsStateAvailable
          (resuming_app 1 media_info) (request HMILevel.HMI_BACKGROUND) = true := by
  decide

/-- Claim C14, amended. For an application in resumption, `IsStateAvailable`
returns false exactly when the requested level is FULL or LIMITED and
VR_SESSION, SAFETY_MODE or DEACTIVATE_HMI is active (whatever the type of the
application) or PHONE_CALL is active and the application is an audio
application. An active TTS_SESSION alone does not block, and a request for
another level is always available. -/
theorem resumption_availability (c : StateControllerImpl) (app : Application)
    (state : RegularState) (hres : app.is_resuming = true) :
    c.IsStateAvailable app state = false ↔
      ((state.hmi_level_ = HMILevel.HMI_FULL ∨ state.hmi_level_ = HMILevel.HMI_LIMITED)
        ∧ (c.IsTempStateActive StateID.STATE_ID_VR_SESSION = true
            ∨ c.IsTempStateActive StateID.STATE_ID_SAFETY_MODE = true
            ∨ c.IsTempStateActive StateID.STATE_ID_DEACTIVATE_HMI = true
            ∨ (c.IsTempStateActive StateID.STATE_ID_PHONE_CALL = true
                ∧ app.is_audio = true))) := by
  simp only [StateControllerImpl.IsStateAvailable, hres, if_true,
    StateControllerImpl.IsStateAvailableForResumption, Compare_EQ_ONE]
  generalize c.IsTempStateActive StateID.STATE_ID_VR_SESSION = vr
  generalize c.IsTempStateActive StateID.STATE_ID_SAFETY_MODE = sm
  generalize c.IsTempStateActive StateID.STATE_ID_DEACTIVATE_HMI = dh
  generalize c.IsTempStateActive StateID.STATE_ID_PHONE_CALL = pc
  generalize app.is_audio = au
  obtain ⟨l, _, _⟩ := state
  cases l <;> cases vr <;> cases sm <;> cases dh <;> cases pc <;> cases au <;> simp

/-- A resuming media application requesting LIMITED during a phone call is refused. -/
theorem resumption_availability_witness :
    (controller_with [resuming_app 1 media_info]
        [StateID.STATE_ID_PHONE_CALL]).IsStateAvailable
        (resuming_app 1 media_info) (request HMILevel.HMI_LIMITED) = false :=
  (resumption_availability
      (controller_with [resuming_app 1 media_info] [StateID.STATE_ID_PHONE_CALL])
      (resuming_app 1 media_info) (request HMILevel.HMI_LIMITED) rfl).2
    ⟨Or.inr rfl, Or.inr (Or.inr (Or.inr ⟨by decide, by decide⟩))⟩

/-- Claim C15, as stated, fails: a media application (application type common
media) that is not in resumption and requests FULL while EMBEDDED_NAVI is
active is not refused. -/
theorem media_full_available_with_embedded_navi :
    (controller_with
        [sample_app 1 media_info HMILevel.HMI_NONE AudioStreamingState.NOT_AUDIBLE]
        [StateID.STATE_ID_EMBEDDED_NAVI]).IsStateAvailable
      (sample_app 1 media_info HMILevel.HMI_NONE AudioStreamingState.NOT_AUDIBLE)
      (request HMILevel.HMI_FULL) = true := by
  decide

/-- Claim C15, amended. For an application that is not in resumption and
requests FULL, `IsStateAvailable` returns false exactly when an active
temporary kind is listed by the conflict table under an application type that
the application does not include: EMBEDDED_NAVI for an application that is not
common media, AUDIO_SOURCE for an application that is not common navi. -/
theorem full_availability (c : StateControllerImpl) (app : Application)
    (state : RegularState) (hres : app.is_resuming = false)
    (hfull : state.hmi_level_ = HMILevel.HMI_FULL) :
    c.IsStateAvailable app state = false ↔
      ((app.is_app_type_included ApplicationType.AT_COMMON_MEDIA = false
          ∧ c.IsTempStateActive StateID.STATE_ID_EMBEDDED_NAVI = true)
        ∨ (app.is_app_type_included ApplicationType.AT_COMMON_NAVI = false
          ∧ c.IsTempStateActive StateID.STATE_ID_AUDIO_SOURCE = true)) := by
  simp only [StateControllerImpl.IsStateAvailable, hres, hfull,
    StateControllerImpl.CheckActiveStatesForConflictWithApp, conflict_states_, List.any_cons,
    List.any_nil, Bool.or_false]
  generalize c.IsTempStateActive StateID.STATE_ID_EMBEDDED_NAVI = en
  generalize c.IsTempStateActive StateID.STATE_ID_AUDIO_SOURCE = au
  generalize app.is_app_type_included ApplicationType.AT_COMMON_MEDIA = im
  generalize app.is_app_type_included ApplicationType.AT_COMMON_NAVI = inv
  cases en <;> cases au <;> cases im <;> cases inv <;> simp

/-- A media application requesting FULL while AUDIO_SOURCE is active is refused. -/
theorem full_availability_witness :
    (controller_with
        [sample_app 1 media_info HMILevel.HMI_NONE AudioStreamingState.NOT_AUDIBLE]
        [StateID.STATE_ID_AUDIO_SOURCE]).IsStateAvailable
      (sample_app 1 media_info HMILevel.HMI_NONE AudioStreamingState.NOT_AUDIBLE)
      (request HMILevel.HMI_FULL) = false :=
  (full_availability
      (controller_with
        [sample_app 1 media_info HMILevel.HMI_NONE AudioStreamingState.NOT_AUDIBLE]
        [StateID.STATE_ID_AUDIO_SOURCE])
      (sample_app 1 media_info HMILevel.HMI_NONE AudioStreamingState.NOT_AUDIBLE)
      (request HMILevel.HMI_FULL) rfl rfl).2
    (Or.inr ⟨by decide, by decide⟩)

/-- Claim C16. For a resuming media application and a state of level FULL,
`IsResumptionAllowed` returns false while STATE_ID_AUDIO_SOURCE is active. -/
theorem resumption_not_allowed_with_audio_source (c : StateControllerImpl)
    (app : Application) (state : RegularState) (hres : app.is_resuming = true)
    (hmedia : app.is_media_application = true)
    (hfull : state.hmi_level_ = HMILevel.HMI_FULL)
    (hactive : c.IsStateActive StateID.STATE_ID_AUDIO_SOURCE = true) :
    c.IsResumptionAllowed app state = false := by
  simp only [StateControllerImpl.IsStateActive] at hactive
  simp [StateControllerImpl.IsResumptionAllowed, hres, hmedia, hfull, hactive, Compare_EQ_ONE]

/-- A resuming media application requesting FULL while AUDIO_SOURCE is active. -/
theorem resumption_not_allowed_with_audio_source_witness :
    (controller_with [resuming_app 1 media_info]
        [StateID.STATE_ID_AUDIO_SOURCE]).IsResumptionAllowed
      (resuming_app 1 media_info) (request HMILevel.HMI_FULL) = false :=
  resumption_not_allowed_with_audio_source
    (controller_with [resuming_app 1 media_info] [StateID.STATE_ID_AUDIO_SOURCE])
    (resuming_app 1 media_info) (request HMILevel.HMI_FULL) rfl rfl rfl (by decide)

/-- Claim C17, as stated, fails: a resuming media application requests FULL
while AUDIO_SOURCE is the active temporary state and no application holds FULL;
`ResolveHmiState` grants the request with the level FULL unchanged. -/
theorem resolve_grants_full_unchanged :
    (controller_with [resuming_app 1 media_info]
        [StateID.STATE_ID_AUDIO_SOURCE]).ResolveHmiState sample_manager
      (resuming_app 1 media_info) (request HMILevel.HMI_FULL)
      = some { hmi_level_ := HMILevel.HMI_FULL
               audio_streaming_state_ := AudioStreamingState.AUDIBLE
               system_context_ := SystemContext.SYSCTXT_MAIN } := by
  decide

/-- Claim C17, amended. For a resuming media application requesting FULL while
AUDIO_SOURCE is the only active temporary state, `ResolveHmiState` grants a
state (it does not return none); the granted level is the one of
`GetAvailableHmiLevel`: LIMITED when an active application exists and FULL,
unchanged, when none exists; the granted audio state is AUDIBLE and the system
context is the requested one. -/
theorem resolve_resuming_media_full (c : StateControllerImpl) (m : ApplicationManager)
    (app : Application) (state : RegularState) (hres : app.is_resuming = true)
    (hmedia : app.is_media_application = true)
    (hfull : state.hmi_level_ = HMILevel.HMI_FULL)
    (hactive : c.active_states_ = [StateID.STATE_ID_AUDIO_SOURCE]) :
    c.ResolveHmiState m app state =
      some { hmi_level_ :=
               if c.active_application.isSome = true then HMILevel.HMI_LIMITED
               else HMILevel.HMI_FULL
             audio_streaming_state_ := AudioStreamingState.AUDIBLE
             system_context_ := state.system_context_ }
      ∧ c.GetAvailableHmiLevel m app state.hmi_level_ =
          (if c.active_application.isSome = true then HMILevel.HMI_LIMITED
           else HMILevel.HMI_FULL) := by
  have haudio : app.is_audio = true := by
    simp only [Application.is_media_application] at hmedia
    simp [Application.is_audio, AppInfo.is_audio, hmedia]
  have hlevel : c.GetAvailableHmiLevel m app state.hmi_level_ =
      (if c.active_application.isSome = true then HMILevel.HMI_LIMITED
       else HMILevel.HMI_FULL) := by
    simp [StateControllerImpl.GetAvailableHmiLevel, hfull, haudio, Compare_EQ_ONE]
  refine ⟨?_, hlevel⟩
  simp only [StateControllerImpl.ResolveHmiState, hres, if_true, hlevel]
  cases hact : c.active_application.isSome <;>
    simp [StateControllerImpl.IsStateAvailable, hres,
      StateControllerImpl.IsStateAvailableForResumption,
      StateControllerImpl.IsTempStateActive, hactive, Compare_EQ_ONE,
      StateControllerImpl.CalcAudioState, haudio]

/-- The same request next to a navigation application holding FULL is granted
with the level LIMITED. -/
theorem resolve_resuming_media_full_witness :
    (controller_with
        [resuming_app 1 media_info,
          sample_app 2 navi_info HMILevel.HMI_FULL AudioStreamingState.AUDIBLE]
        [StateID.STATE_ID_AUDIO_SOURCE]).ResolveHmiState sample_manager
      (resuming_app 1 media_info) (request HMILevel.HMI_FULL)
      = some { hmi_level_ := HMILevel.HMI_LIMITED
               audio_streaming_state_ := AudioStreamingState.AUDIBLE
               system_context_ := SystemContext.SYSCTXT_MAIN } :=
  (resolve_resuming_media_full
    (controller_with
      [resuming_app 1 media_info,
        sample_app 2 navi_info HMILevel.HMI_FULL AudioStreamingState.AUDIBLE]
      [StateID.STATE_ID_AUDIO_SOURCE])
    sample_manager (resuming_app 1 media_info) (request HMILevel.HMI_FULL)
    rfl rfl rfl rfl).1

/-- Claim C18. `ResolveHmiState(app, requested)` builds the REGULAR candidate
of the specification (requested level, audio state and system context; for a
resuming application the level of `GetAvailableHmiLevel` and the audio state of
`CalcAudioState` for that level); it returns none exactly when
`IsStateAvailable(app, candidate)` is false and the candidate otherwise. The
result is a value: neither the application nor the controller is changed. -/
theorem resolve_hmi_state_spec (c : StateControllerImpl) (m : ApplicationManager)
    (app : Application) (requested : RegularState) :
    (c.ResolveHmiState m app requested = none
        ↔ c.IsStateAvailable app (resolve_candidate_spec c m app requested) = false)
      ∧ (c.IsStateAvailable app (resolve_candidate_spec c m app requested) = true →
          c.ResolveHmiState m app requested
            = some (resolve_candidate_spec c m app requested)) := by
  unfold StateControllerImpl.ResolveHmiState resolve_candidate_spec
  cases hres : app.is_resuming <;> simp only [if_true, if_false, Bool.false_eq_true]
  · cases h : c.IsStateAvailable app requested <;> simp [h]
  · cases h : c.IsStateAvailable app
        { hmi_level_ := c.GetAvailableHmiLevel m app requested.hmi_level_
          audio_streaming_state_ :=
            StateControllerImpl.CalcAudioState app
              (c.GetAvailableHmiLevel m app requested.hmi_level_)
          system_context_ := requested.system_context_ } <;> simp [h]

/-! ## The registry of active temporary states -/

namespace StateControllerImpl

theorem foldl_active_states (f : StateControllerImpl → Nat → StateControllerImpl)
    (hf : ∀ (c : StateControllerImpl) (k : Nat), (f c k).active_states_ = c.active_states_)
    (L : List Nat) :
    ∀ c : StateControllerImpl, (L.foldl f c).active_states_ = c.active_states_ := by
  induction L with
  | nil => intro c; rfl
  | cons k L ih => intro c; rw [List.foldl_cons, ih, hf]

theorem update_application_active_states (c : StateControllerImpl) (i : Nat)
    (f : Application → Application) :
    (c.update_application i f).active_states_ = c.active_states_ := by
  unfold update_application
  cases c.applications[i]? <;> rfl

theorem OnTempStateStartedForApp_active_states (ID : StateID) (c : StateControllerImpl)
    (k : Nat) : (OnTempStateStartedForApp ID c k).active_states_ = c.active_states_ := by
  unfold OnTempStateStartedForApp
  split_ifs
  · exact update_application_active_states c k _
  · rfl

theorem OnTempStateStoppedForApp_active_states (SetRegularState : SetRegularStateFn)
    (hframe : ∀ (c : StateControllerImpl) (app : Nat) (state : RegularState),
      (SetRegularState c app state).active_states_ = c.active_states_)
    (ID : StateID) (c : StateControllerImpl) (k : Nat) :
    (OnTempStateStoppedForApp SetRegularState ID c k).active_states_ = c.active_states_ := by
  unfold OnTempStateStoppedForApp
  cases c.applications[k]? with
  | none => rfl
  | some a =>
    cases hp : a.PostponedHmiState with
    | none =>
      simp only [hp]
      split_ifs
      · exact update_application_active_states c k _
      · rfl
    | some state =>
      simp only [hp]
      split_ifs
      · rw [update_application_active_states, hframe, update_application_active_states]
      · rw [hframe, update_application_active_states]

theorem TempStateStarted_active_states (c : StateControllerImpl) (ID : StateID) :
    (c.TempStateStarted ID).active_states_ =
      if ID ∈ c.active_states_ then c.active_states_ else c.active_states_ ++ [ID] := by
  unfold TempStateStarted ForEachApplicationWithParam
  rw [foldl_active_states _ (OnTempStateStartedForApp_active_states ID)]
  split_ifs <;> rfl

theorem TempStateStopped_active_states (SetRegularState : SetRegularStateFn)
    (hframe : ∀ (c : StateControllerImpl) (app : Nat) (state : RegularState),
      (SetRegularState c app state).active_states_ = c.active_states_)
    (c : StateControllerImpl) (ID : StateID) :
    (c.TempStateStopped SetRegularState ID).active_states_ =
      c.active_states_.filter (fun s => decide (s ≠ ID)) := by
  unfold TempStateStopped ForEachApplicationWithParam
  rw [foldl_active_states _ (OnTempStateStoppedForApp_active_states SetRegularState hframe ID)]

theorem SetupRegularHmiState3_active_states (c : StateControllerImpl) (k : Nat)
    (l : HMILevel) (au : AudioStreamingState) :
    (c.SetupRegularHmiState3 k l au).active_states_ = c.active_states_ := by
  unfold SetupRegularHmiState3
  cases c.applications[k]? with
  | none => rfl
  | some a => exact (SetupRegularHmiState_fields c k _).1

theorem HmiLevelConflictResolver_active_states (i : Nat) (s : RegularState)
    (c : StateControllerImpl) (k : Nat) :
    (HmiLevelConflictResolver i s c k).active_states_ = c.active_states_ := by
  unfold HmiLevelConflictResolver
  by_cases hk : k = i
  · simp [hk]
  · simp only [hk, if_false]
    cases c.applications[i]? with
    | none => rfl
    | some ap =>
      cases c.applications[k]? with
      | none => rfl
      | some tr =>
        simp only
        by_cases h : tr.RegularHmiState.hmi_level_
            = HmiLevelConflictResolver.result_hmi_level ap s tr
        · simp [h]
        · simp only [ne_eq, h, not_false_eq_true, if_true]
          exact SetupRegularHmiState3_active_states c k _ _

theorem ApplyRegularState_active_states (c : StateControllerImpl) (i : Nat)
    (state : HmiState) : (c.ApplyRegularState i state).active_states_ = c.active_states_ := by
  unfold ApplyRegularState ForEachApplication
  cases c.applications[i]? with
  | none => rfl
  | some a =>
    simp only
    split_ifs
    · rfl
    · rw [foldl_active_states _ (HmiLevelConflictResolver_active_states i _)]
      exact (SetupRegularHmiState_fields c i _).1

end StateControllerImpl

theorem sample_SetRegularState_active_states (c : StateControllerImpl) (app : Nat)
    (state : RegularState) :
    (sample_SetRegularState c app state).active_states_ = c.active_states_ := by
  unfold sample_SetRegularState
  cases c.applications[app]? with
  | none => rfl
  | some a =>
    simp only
    cases c.ResolveHmiState sample_manager a state with
    | none => rfl
    | some granted => exact StateControllerImpl.ApplyRegularState_active_states c app _

/-- Claim C19. For every temporary kind K and every controller state: after
`TempStateStarted(K)`, `IsStateActive(K)` returns true, and after then
`TempStateStopped(K)` it returns false. The operation `SetRegularState` called
for postponed states is any operation that leaves the registry alone. -/
theorem temp_state_started_then_stopped (SetRegularState : SetRegularStateFn)
    (hframe : ∀ (c : StateControllerImpl) (app : Nat) (state : RegularState),
      (SetRegularState c app state).active_states_ = c.active_states_)
    (c : StateControllerImpl) (K : StateID) (hK : K.is_temporary = true) :
    (c.TempStateStarted K).IsStateActive K = true
      ∧ ((c.TempStateStarted K).TempStateStopped SetRegularState K).IsStateActive K
          = false := by
  have hstart : K ∈ (c.TempStateStarted K).active_states_ := by
    rw [StateControllerImpl.TempStateStarted_active_states]
    split_ifs with h
    · exact h
    · simp
  have hstop : K ∉ ((c.TempStateStarted K).TempStateStopped SetRegularState K).active_states_ := by
    rw [StateControllerImpl.TempStateStopped_active_states SetRegularState hframe]
    simp
  constructor
  · cases K <;> simp_all [StateControllerImpl.IsStateActive,
      StateControllerImpl.IsTempStateActive]
  · cases K <;> simp_all [StateControllerImpl.IsStateActive,
      StateControllerImpl.IsTempStateActive, StateID.is_temporary]

/-- A phone call starts and stops over two media applications. -/
theorem temp_state_started_then_stopped_witness :
    (two_media.TempStateStarted StateID.STATE_ID_PHONE_CALL).IsStateActive
        StateID.STATE_ID_PHONE_CALL = true
      ∧ ((two_media.TempStateStarted StateID.STATE_ID_PHONE_CALL).TempStateStopped
          sample_SetRegularState StateID.STATE_ID_PHONE_CALL).IsStateActive
          StateID.STATE_ID_PHONE_CALL = false :=
  temp_state_started_then_stopped sample_SetRegularState
    sample_SetRegularState_active_states two_media StateID.STATE_ID_PHONE_CALL rfl

/-- Claim C20. Marking a kind active is idempotent: when K is already active,
`TempStateStarted(K)` leaves the list of active kinds unchanged (same elements,
same order, same size). -/
theorem temp_state_started_idempotent (c : StateControllerImpl) (K : StateID)
    (hactive : c.IsTempStateActive K = true) :
    (c.TempStateStarted K).active_states_ = c.active_states_ := by
  have h : K ∈ c.active_states_ := by
    simpa [StateControllerImpl.IsTempStateActive] using hactive
  rw [StateControllerImpl.TempStateStarted_active_states, if_pos h]

/-- A second phone-call event while VR and the phone call are active. -/
theorem temp_state_started_idempotent_witness :
    ((controller_with [resuming_app 1 media_info]
        [StateID.STATE_ID_VR_SESSION, StateID.STATE_ID_PHONE_CALL]).TempStateStarted
        StateID.STATE_ID_PHONE_CALL).active_states_
      = [StateID.STATE_ID_VR_SESSION, StateID.STATE_ID_PHONE_CALL] :=
  temp_state_started_idempotent
    (controller_with [resuming_app 1 media_info]
      [StateID.STATE_ID_VR_SESSION, StateID.STATE_ID_PHONE_CALL])
    StateID.STATE_ID_PHONE_CALL (by decide)

/-! ## Registry invariant, registration, notifications and the factory -/

theorem run_registry_calls_nodup (SetRegularState : SetRegularStateFn)
    (hframe : ∀ (c : StateControllerImpl) (app : Nat) (state : RegularState),
      (SetRegularState c app state).active_states_ = c.active_states_)
    (calls : List RegistryCall) :
    ∀ c : StateControllerImpl, c.active_states_.Nodup →
      (run_registry_calls SetRegularState c calls).active_states_.Nodup := by
  induction calls with
  | nil => intro c h; exact h
  | cons call rest ih =>
    intro c h
    cases call with
    | started ID =>
      simp only [run_registry_calls]
      apply ih
      rw [StateControllerImpl.TempStateStarted_active_states]
      split_ifs with hmem
      · exact h
      · exact List.Nodup.append h (List.nodup_singleton ID) (by simpa using hmem)
    | stopped ID =>
      simp only [run_registry_calls]
      apply ih
      rw [StateControllerImpl.TempStateStopped_active_states SetRegularState hframe]
      exact h.filter _

/-- Claim C21. Registry invariant: starting from the empty active set, after
any sequence of `TempStateStarted` and `TempStateStopped` calls every kind
appears at most once in the active set. The operation `SetRegularState` called
for postponed states is any operation that leaves the registry alone. -/
theorem registry_kinds_unique (SetRegularState : SetRegularStateFn)
    (hframe : ∀ (c : StateControllerImpl) (app : Nat) (state : RegularState),
      (SetRegularState c app state).active_states_ = c.active_states_)
    (c0 : StateControllerImpl) (hempty : c0.active_states_ = [])
    (calls : List RegistryCall) (K : StateID) :
    (run_registry_calls SetRegularState c0 calls).active_states_.count K ≤ 1 := by
  have h := run_registry_calls_nodup SetRegularState hframe calls c0 (by simp [hempty])
  exact List.nodup_iff_count_le_one.1 h K

/-- A phone call is started twice, VR once, and the phone call is stopped and
started again. -/
theorem registry_kinds_unique_witness :
    (run_registry_calls sample_SetRegularState two_media
        [RegistryCall.started StateID.STATE_ID_PHONE_CALL,
          RegistryCall.started StateID.STATE_ID_PHONE_CALL,
          RegistryCall.started StateID.STATE_ID_VR_SESSION,
          RegistryCall.stopped StateID.STATE_ID_PHONE_CALL,
          RegistryCall.started StateID.STATE_ID_PHONE_CALL]).active_states_.count
        StateID.STATE_ID_PHONE_CALL ≤ 1 :=
  registry_kinds_unique sample_SetRegularState sample_SetRegularState_active_states
    two_media rfl _ StateID.STATE_ID_PHONE_CALL

/-- Claim C24. `OnStateChanged(app, old, new)` emits the HMI-status
notification, the level-changed notification and the usage-statistics record
exactly when old and new differ in level, audio state or system context; it
resets the in-vehicle data exactly when they differ and the new level is NONE;
it emits nothing when the three fields are equal, and `IsStatusChanged(s, s)`
is false. -/
theorem on_state_changed_contract (app_id : Nat) (old_state new_state s : RegularState) :
    (IsStatusChanged old_state new_state = true ↔ states_differ old_state new_state)
      ∧ (Notification.SendHMIStatusNotification app_id
            ∈ StateControllerImpl.OnStateChanged app_id old_state new_state
          ↔ states_differ old_state new_state)
      ∧ (Notification.OnHMILevelChanged app_id old_state.hmi_level_ new_state.hmi_level_
            ∈ StateControllerImpl.OnStateChanged app_id old_state new_state
          ↔ states_differ old_state new_state)
      ∧ (Notification.RecordHmiStateChanged app_id new_state.hmi_level_
            ∈ StateControllerImpl.OnStateChanged app_id old_state new_state
          ↔ states_differ old_state new_state)
      ∧ (Notification.ResetDataInNone app_id
            ∈ StateControllerImpl.OnStateChanged app_id old_state new_state
          ↔ (states_differ old_state new_state ∧ new_state.hmi_level_ = HMILevel.HMI_NONE))
      ∧ (¬ states_differ old_state new_state →
          StateControllerImpl.OnStateChanged app_id old_state new_state = [])
      ∧ IsStatusChanged s s = false := by
  have hchanged : IsStatusChanged old_state new_state = true
      ↔ states_differ old_state new_state := by
    unfold IsStatusChanged states_differ
    split_ifs with h
    · simp [h]
    · simp [h]
  refine ⟨hchanged, ?_, ?_, ?_, ?_, ?_, ?_⟩
  all_goals
    first
    | (unfold IsStatusChanged; simp)
    | (by_cases hd : states_differ old_state new_state
       · have hc := hchanged.2 hd
         by_cases hn : new_state.hmi_level_ = HMILevel.HMI_NONE <;>
           simp [StateControllerImpl.OnStateChanged, hc, hd, hn]
       · have hc : IsStatusChanged old_state new_state = false := by
           cases h : IsStatusChanged old_state new_state
           · rfl
           · exact absurd (hchanged.1 h) hd
         simp [StateControllerImpl.OnStateChanged, hc, hd])

/-- Claim C30. For every kind among REGULAR, POSTPONED, VR_SESSION,
TTS_SESSION, NAVI_STREAMING, PHONE_CALL, SAFETY_MODE, DEACTIVATE_HMI,
AUDIO_SOURCE and EMBEDDED_NAVI, `CreateHmiState(app, kind)` returns a state
bound to `app` whose kind tag (which selects the variant) is the requested kind,
with no parent and the members set by the constructor; REGULAR and POSTPONED
give the base variant, whose accessors return the stored members; for the
remaining kind CURRENT it yields no state. -/
theorem create_hmi_state_kinds (app : AppInfo) (kind : StateID) :
    CreateHmiState app kind =
        (if kind = StateID.STATE_ID_CURRENT then none
         else some (HmiState.noParent (HmiData.create app kind)))
      ∧ (∀ s : HmiState, CreateHmiState app kind = some s →
          s.state_id = kind ∧ s.data.app_ = app ∧ s.parent = none
            ∧ s.data.reason_ = StateChangeReason.kGeneralReason
            ∧ ((kind = StateID.STATE_ID_REGULAR ∨ kind = StateID.STATE_ID_POSTPONED) →
                s.hmi_level = some s.data.hmi_level_
                  ∧ ∀ att : Bool,
                      s.audio_streaming_state att = some s.data.audio_streaming_state_)) := by
  constructor
  · cases kind <;> simp [CreateHmiState]
  · intro s hs
    cases kind <;> simp [CreateHmiState] at hs <;> subst hs <;>
      simp [HmiState.state_id, HmiState.data, HmiData.create, HmiState.parent,
        HmiState.hmi_level, HmiState.audio_streaming_state]

namespace StateControllerImpl

theorem CalcAudioState_of_info {a b : Application} (h : b.info = a.info) (l : HMILevel) :
    CalcAudioState b l = CalcAudioState a l := by
  simp [CalcAudioState, Application.is_audio, h]

theorem attach_of_temporary (active : List StateID)
    (hkinds : ∀ k ∈ active, k.is_temporary = true) :
    ∀ a : Application,
      OnApplicationRegistered.attach active a =
        ({ a with temps := a.temps ++ active.map (HmiData.create a.info) }, true) := by
  induction active with
  | nil => intro a; simp [OnApplicationRegistered.attach]
  | cons k rest ih =>
    intro a
    have hk : k.is_temporary = true := hkinds k (List.mem_cons_self _ _)
    have hrest : ∀ k' ∈ rest, k'.is_temporary = true :=
      fun k' hk' => hkinds k' (List.mem_cons_of_mem _ hk')
    have hstep : OnApplicationRegistered.attach (k :: rest) a =
        OnApplicationRegistered.attach rest
          (a.AddHMIState ((HmiState.noParent (HmiData.create a.info k)).set_parent
            a.CurrentHmiState)) := by
      cases k <;> simp [StateID.is_temporary] at hk <;>
        simp [OnApplicationRegistered.attach, CreateHmiState, HmiState.state_id,
          HmiState.data, HmiData.create]
    rw [hstep, ih hrest]
    simp [Application.AddHMIState, HmiState.set_parent, HmiState.data, List.append_assoc]

theorem OnApplicationRegistered_getElem? (c : StateControllerImpl) (i : Nat)
    (a : Application) (default_level : HMILevel) (ha : c.applications[i]? = some a)
    (hkinds : ∀ k ∈ c.active_states_, k.is_temporary = true) :
    (c.OnApplicationRegistered i default_level).applications[i]? =
      some { a with
        temps := a.temps ++ c.active_states_.map (HmiData.create a.info)
        regular :=
          { hmi_level_ := default_level
            audio_streaming_state_ := CalcAudioState a default_level
            system_context_ := SystemContext.SYSCTXT_MAIN } } := by
  have hlt : i < c.applications.length := by
    rcases List.getElem?_eq_some_iff.1 ha with ⟨hlt, _⟩
    exact hlt
  unfold OnApplicationRegistered
  simp only [ha, attach_of_temporary c.active_states_ hkinds a]
  simp only [List.getElem?_set_self hlt, Application.SetRegularState, Option.some.injEq]
  congr 1

end StateControllerImpl

/-- Claim C22. For an application without temporary layers, when no temporary
state is active: after `OnApplicationRegistered(app, default_level)` the level
of the current state is the default level and its audio state is
`CalcAudioState(app, default_level)`; for LIMITED the level is LIMITED and the
audio state is AUDIBLE if and only if the application is an audio application,
and NOT_AUDIBLE otherwise. -/
theorem registered_without_temporary_states (c : StateControllerImpl) (i : Nat)
    (a : Application) (default_level : HMILevel) (ha : c.applications[i]? = some a)
    (hactive : c.active_states_ = []) (htemps : a.temps = []) :
    ∃ a' : Application,
      (c.OnApplicationRegistered i default_level).applications[i]? = some a'
        ∧ a'.CurrentHmiState.hmi_level = some default_level
        ∧ a'.CurrentHmiState.audio_streaming_state c.is_attenuated_supported
            = some (StateControllerImpl.CalcAudioState a default_level)
        ∧ (default_level = HMILevel.HMI_LIMITED →
            (a'.CurrentHmiState.audio_streaming_state c.is_attenuated_supported
                = some AudioStreamingState.AUDIBLE ↔ a.is_audio = true)
              ∧ (a'.CurrentHmiState.audio_streaming_state c.is_attenuated_supported
                  = some AudioStreamingState.NOT_AUDIBLE ↔ a.is_audio = false)) := by
  have hget := StateControllerImpl.OnApplicationRegistered_getElem? c i a default_level ha
    (by simp [hactive])
  refine ⟨_, hget, ?_, ?_, ?_⟩
  · rw [Application.CurrentHmiState_hmi_level]
    simp [Application.hmi_level, htemps, hactive]
  · rw [Application.CurrentHmiState_audio_streaming_state]
    simp [Application.audio_streaming_state, htemps, hactive]
  · intro hl
    rw [Application.CurrentHmiState_audio_streaming_state]
    subst hl
    cases hau : a.is_audio <;>
      simp [Application.audio_streaming_state, htemps, hactive,
        StateControllerImpl.CalcAudioState, Compare_EQ_ONE, hau]

/-- A media application registered with LIMITED is LIMITED and AUDIBLE. -/
theorem registered_without_temporary_states_witness :
    ∃ a' : Application,
      (two_media.OnApplicationRegistered 0 HMILevel.HMI_LIMITED).applications[0]? = some a'
        ∧ a'.CurrentHmiState.hmi_level = some HMILevel.HMI_LIMITED
        ∧ a'.CurrentHmiState.audio_streaming_state true
            = some AudioStreamingState.AUDIBLE := by
  obtain ⟨a', h1, h2, h3, _⟩ := registered_without_temporary_states two_media 0
    (sample_app 1 media_info HMILevel.HMI_BACKGROUND AudioStreamingState.NOT_AUDIBLE)
    HMILevel.HMI_LIMITED rfl rfl rfl
  exact ⟨a', h1, h2, h3⟩

namespace StateControllerImpl

theorem foldl_preserves {β : Type} (proj : StateControllerImpl → β)
    (f : StateControllerImpl → Nat → StateControllerImpl)
    (hf : ∀ (c : StateControllerImpl) (k : Nat), proj (f c k) = proj c) (L : List Nat) :
    ∀ c : StateControllerImpl, proj (L.foldl f c) = proj c := by
  induction L with
  | nil => intro c; rfl
  | cons k L ih => intro c; rw [List.foldl_cons, ih, hf]

theorem not_mem_keys_erase (c : StateControllerImpl) (id : Nat) :
    ∀ e ∈ (c.erase_waiting_for_activate id).waiting_for_activate, e.1 ≠ id := by
  intro e he
  simp only [erase_waiting_for_activate, List.mem_filter, decide_eq_true_eq] at he
  exact he.2

end StateControllerImpl

/-- Claim C25. For every controller state and every ActivateApp response whose
result code is not SUCCESS, `OnTimeOutActivateAppRequest` for the HMI
application id of the response gives the same controller and applications as
`OnActivateAppResponse`: the pending entry is erased, no state is applied to the
applications by the handler itself, and the deferred queue is drained under the
same condition (queue not empty and no activation pending). -/
theorem timeout_equals_failed_response (ops : SetRegularStateOverloads)
    (m : ApplicationManager) (fuel : Nat) (c : StateControllerImpl) (message : Message)
    (hcode : message.code ≠ Common_Result.SUCCESS) :
    StateControllerImpl.OnActivateAppResponse ops m fuel c message
        = StateControllerImpl.OnTimeOutActivateAppRequest ops fuel c
            (m.application_id message.correlation_id)
      ∧ (∀ e ∈ (c.erase_waiting_for_activate
            (m.application_id message.correlation_id)).waiting_for_activate,
          e.1 ≠ m.application_id message.correlation_id)
      ∧ (c.erase_waiting_for_activate (m.application_id message.correlation_id)).applications
          = c.applications
      ∧ (((c.erase_waiting_for_activate
              (m.application_id message.correlation_id)).waiting_for_applying_state_ = []
            ∨ (c.erase_waiting_for_activate
              (m.application_id message.correlation_id)).waiting_for_activate ≠ []) →
          StateControllerImpl.OnTimeOutActivateAppRequest ops fuel c
              (m.application_id message.correlation_id)
            = some (c.erase_waiting_for_activate (m.application_id message.correlation_id)))
      ∧ (((c.erase_waiting_for_activate
              (m.application_id message.correlation_id)).waiting_for_applying_state_ ≠ []
            ∧ (c.erase_waiting_for_activate
              (m.application_id message.correlation_id)).waiting_for_activate = []) →
          StateControllerImpl.OnTimeOutActivateAppRequest ops fuel c
              (m.application_id message.correlation_id)
            = StateControllerImpl.ProcessSavingHMIState ops.state_send fuel
                (c.erase_waiting_for_activate (m.application_id message.correlation_id))) := by
  have hne : ¬ Common_Result.SUCCESS = message.code := fun e => hcode e.symm
  refine ⟨?_, StateControllerImpl.not_mem_keys_erase c _, rfl, ?_, ?_⟩
  · unfold StateControllerImpl.OnActivateAppResponse
      StateControllerImpl.OnTimeOutActivateAppRequest
    simp only [hne, if_false]
    split <;> rfl
  · intro h
    unfold StateControllerImpl.OnTimeOutActivateAppRequest
    rcases h with h | h
    · simp [h]
    · have : (c.erase_waiting_for_activate
          (m.application_id message.correlation_id)).waiting_for_activate.isEmpty = false := by
        cases hw : (c.erase_waiting_for_activate
          (m.application_id message.correlation_id)).waiting_for_activate with
        | nil => exact absurd hw h
        | cons _ _ => rfl
      simp [this]
  · intro h
    unfold StateControllerImpl.OnTimeOutActivateAppRequest
    obtain ⟨hq, hw⟩ := h
    have hq' : (c.erase_waiting_for_activate
        (m.application_id message.correlation_id)).waiting_for_applying_state_.isEmpty
          = false := by
      cases hq'' : (c.erase_waiting_for_activate
        (m.application_id message.correlation_id)).waiting_for_applying_state_ with
      | nil => exact absurd hq'' hq
      | cons _ _ => rfl
    simp [hq', hw]

/-- A response with the code 5 for the pending application of a controller
without queue: same result as the timeout, namely the erased entry. -/
theorem timeout_equals_failed_response_witness :
    StateControllerImpl.OnActivateAppResponse sample_ops sample_manager 3
        { two_media with waiting_for_activate := [(0, some (full_state media_info))] }
        (sample_message 5 false Common_EventTypes.PHONE_CALL)
      = StateControllerImpl.OnTimeOutActivateAppRequest sample_ops 3
          { two_media with waiting_for_activate := [(0, some (full_state media_info))] } 0 :=
  (timeout_equals_failed_response sample_ops sample_manager 3
    { two_media with waiting_for_activate := [(0, some (full_state media_info))] }
    (sample_message 5 false Common_EventTypes.PHONE_CALL) (by decide)).1

/-- Claim C26 at its failing input: a SUCCESS response for a registered
application that has no pending entry (for instance after the timeout erased
it). `operator[]` inserts a null entry, the check of the pending state leaves the
function, and the map holds an entry for the HMI application id afterwards. -/
theorem late_success_response_leaves_entry :
    (two_media.waiting_for_activate = []
      ∧ two_media.application_by_hmi_app (sample_manager.application_id 0) = some 0)
    ∧ (StateControllerImpl.OnActivateAppResponse sample_ops sample_manager 3 two_media
        (sample_message Common_Result.SUCCESS false Common_EventTypes.PHONE_CALL)).map
        (fun c => c.waiting_for_activate) = some [(0, none)] := by
  decide

namespace StateControllerImpl

theorem SetupRegularHmiState_registers (c : StateControllerImpl) (i : Nat) (r : RegularState) :
    (c.SetupRegularHmiState i r).waiting_for_applying_state_ = c.waiting_for_applying_state_
      ∧ (c.SetupRegularHmiState i r).waiting_for_activate = c.waiting_for_activate
      ∧ (c.SetupRegularHmiState i r).resume_ctrl_calls = c.resume_ctrl_calls := by
  unfold SetupRegularHmiState
  cases c.applications[i]? <;> simp

theorem HmiLevelConflictResolver_registers (i : Nat) (s : RegularState)
    (c : StateControllerImpl) (k : Nat) :
    (HmiLevelConflictResolver i s c k).waiting_for_applying_state_
        = c.waiting_for_applying_state_
      ∧ (HmiLevelConflictResolver i s c k).waiting_for_activate = c.waiting_for_activate
      ∧ (HmiLevelConflictResolver i s c k).resume_ctrl_calls = c.resume_ctrl_calls := by
  unfold HmiLevelConflictResolver
  by_cases hk : k = i
  · simp [hk]
  · simp only [hk, if_false]
    cases c.applications[i]? with
    | none => simp
    | some ap =>
      cases htr : c.applications[k]? with
      | none => simp
      | some tr =>
        simp only
        by_cases h : tr.RegularHmiState.hmi_level_
            = HmiLevelConflictResolver.result_hmi_level ap s tr
        · simp [h]
        · simp only [ne_eq, h, not_false_eq_true, if_true]
          unfold SetupRegularHmiState3
          simp only [htr]
          exact SetupRegularHmiState_registers c k _

theorem ApplyRegularState_registers (c : StateControllerImpl) (i : Nat) (state : HmiState) :
    (c.ApplyRegularState i state).waiting_for_applying_state_ = c.waiting_for_applying_state_
      ∧ (c.ApplyRegularState i state).waiting_for_activate = c.waiting_for_activate
      ∧ (c.ApplyRegularState i state).resume_ctrl_calls = c.resume_ctrl_calls := by
  unfold ApplyRegularState ForEachApplication
  cases c.applications[i]? with
  | none => simp
  | some a =>
    simp only
    split_ifs
    · simp
    · obtain ⟨h1, h2, h3⟩ := SetupRegularHmiState_registers c i state.toRegular
      refine ⟨?_, ?_, ?_⟩
      · rw [foldl_preserves (fun c => c.waiting_for_applying_state_) _
          (fun c k => (HmiLevelConflictResolver_registers i _ c k).1), h1]
      · rw [foldl_preserves (fun c => c.waiting_for_activate) _
          (fun c k => (HmiLevelConflictResolver_registers i _ c k).2.1), h2]
      · rw [foldl_preserves (fun c => c.resume_ctrl_calls) _
          (fun c k => (HmiLevelConflictResolver_registers i _ c k).2.2), h3]

end StateControllerImpl

theorem sample_SetRegularStateSend_queue (c : StateControllerImpl) (app : Nat)
    (state : RegularState) (send : Bool) :
    (sample_SetRegularStateSend c app state send).waiting_for_applying_state_
      = c.waiting_for_applying_state_ := by
  unfold sample_SetRegularStateSend
  cases c.applications[app]? with
  | none => rfl
  | some a =>
    simp only
    split_ifs
    · rfl
    · exact (StateControllerImpl.ApplyRegularState_registers c app _).1

/-- Claim C28, as stated, fails: for a registered media application whose
level is BACKGROUND, `OnAppDeactivated` requests nothing (the controller is
unchanged), whereas the request for LIMITED and AUDIBLE without activation
request would change the controller. -/
theorem deactivation_skipped_below_full :
    StateControllerImpl.OnAppDeactivated sample_ops two_media
        (sample_message 0 false Common_EventTypes.PHONE_CALL) = two_media
      ∧ sample_ops.state_send two_media 0
          { hmi_level_ := HMILevel.HMI_LIMITED
            audio_streaming_state_ := AudioStreamingState.AUDIBLE
            system_context_ := SystemContext.SYSCTXT_MENU } false ≠ two_media := by
  decide

/-- Claim C28, amended. For a registered application whose current level is
FULL, `OnAppDeactivated` requests, without activation request, its regular
state with the level and audio state replaced by LIMITED and AUDIBLE for an
audio application and by BACKGROUND and NOT_AUDIBLE otherwise, the system
context being kept; for an application whose current level is not FULL it
requests nothing. -/
theorem on_app_deactivated (ops : SetRegularStateOverloads) (c : StateControllerImpl)
    (message : Message) (app : Nat) (a : Application)
    (hfound : c.application message.app_id = some app)
    (ha : c.applications[app]? = some a) :
    (a.hmi_level = HMILevel.HMI_FULL →
        StateControllerImpl.OnAppDeactivated ops c message =
          ops.state_send c app
            { hmi_level_ :=
                if a.is_audio = true then HMILevel.HMI_LIMITED else HMILevel.HMI_BACKGROUND
              audio_streaming_state_ :=
                if a.is_audio = true then AudioStreamingState.AUDIBLE
                else AudioStreamingState.NOT_AUDIBLE
              system_context_ := a.RegularHmiState.system_context_ }
            false)
      ∧ (a.hmi_level ≠ HMILevel.HMI_FULL →
          StateControllerImpl.OnAppDeactivated ops c message = c) := by
  constructor
  · intro hfull
    simp only [StateControllerImpl.OnAppDeactivated, hfound, ha, hfull, ne_eq,
      not_true_eq_false, if_false, StateControllerImpl.DeactivateApp]
    cases a.is_audio <;> simp
  · intro hne
    have hne' : HMILevel.HMI_FULL ≠ a.hmi_level := fun e => hne e.symm
    simp [StateControllerImpl.OnAppDeactivated, hfound, ha, hne']

/-- The media application in FULL is deactivated: LIMITED and AUDIBLE are
requested for it. -/
theorem on_app_deactivated_witness :
    StateControllerImpl.OnAppDeactivated sample_ops two_media
        { sample_message 0 false Common_EventTypes.PHONE_CALL with app_id := 2 } =
      sample_ops.state_send two_media 1
        { hmi_level_ := HMILevel.HMI_LIMITED
          audio_streaming_state_ := AudioStreamingState.AUDIBLE
          system_context_ := SystemContext.SYSCTXT_MENU }
        false :=
  (on_app_deactivated sample_ops two_media
    { sample_message 0 false Common_EventTypes.PHONE_CALL with app_id := 2 } 1
    (sample_app 2 media_info HMILevel.HMI_FULL AudioStreamingState.AUDIBLE) rfl rfl).1 rfl

namespace StateControllerImpl

theorem update_application_resume_ctrl_calls (c : StateControllerImpl) (i : Nat)
    (f : Application → Application) :
    (c.update_application i f).resume_ctrl_calls = c.resume_ctrl_calls := by
  unfold update_application
  cases c.applications[i]? <;> rfl

theorem HMIStateStarted_registers (ID : StateID) (c : StateControllerImpl) (k : Nat) :
    (HMIStateStarted ID c k).active_states_ = c.active_states_
      ∧ (HMIStateStarted ID c k).resume_ctrl_calls = c.resume_ctrl_calls := by
  unfold HMIStateStarted
  cases h : c.applications[k]? with
  | none => simp
  | some a =>
    simp only
    split <;> simp

theorem HMIStateStopped_registers (ID : StateID) (c : StateControllerImpl) (k : Nat) :
    (HMIStateStopped ID c k).active_states_ = c.active_states_
      ∧ (HMIStateStopped ID c k).resume_ctrl_calls = c.resume_ctrl_calls := by
  unfold HMIStateStopped
  cases h : c.applications[k]? <;> simp

theorem OnTempStateStoppedForApp_resume_ctrl_calls (SetRegularState : SetRegularStateFn)
    (hframe : ∀ (c : StateControllerImpl) (app : Nat) (state : RegularState),
      (SetRegularState c app state).resume_ctrl_calls = c.resume_ctrl_calls)
    (ID : StateID) (c : StateControllerImpl) (k : Nat) :
    (OnTempStateStoppedForApp SetRegularState ID c k).resume_ctrl_calls
      = c.resume_ctrl_calls := by
  unfold OnTempStateStoppedForApp
  cases c.applications[k]? with
  | none => rfl
  | some a =>
    cases hp : a.PostponedHmiState with
    | none =>
      simp only [hp]
      split_ifs
      · exact update_application_resume_ctrl_calls c k _
      · rfl
    | some state =>
      simp only [hp]
      split_ifs
      · rw [update_application_resume_ctrl_calls, hframe,
          update_application_resume_ctrl_calls]
      · rw [hframe, update_application_resume_ctrl_calls]

theorem ApplyTempState_registers (ID : StateID) (c : StateControllerImpl) :
    (ApplyTempState ID c).active_states_ =
        (if ID ∈ c.active_states_ then c.active_states_ else c.active_states_ ++ [ID])
      ∧ (ApplyTempState ID c).resume_ctrl_calls = c.resume_ctrl_calls := by
  have h1 : (ForEachApplication (HMIStateStarted ID) c).active_states_ = c.active_states_ :=
    foldl_preserves (fun c => c.active_states_) _
      (fun c k => (HMIStateStarted_registers ID c k).1) _ c
  have h2 : (ForEachApplication (HMIStateStarted ID) c).resume_ctrl_calls
      = c.resume_ctrl_calls :=
    foldl_preserves (fun c => c.resume_ctrl_calls) _
      (fun c k => (HMIStateStarted_registers ID c k).2) _ c
  constructor
  · unfold ApplyTempState
    rw [TempStateStarted_active_states, h1]
  · unfold ApplyTempState TempStateStarted ForEachApplicationWithParam
    rw [foldl_preserves (fun c => c.resume_ctrl_calls) _
      (fun c k => by
        unfold OnTempStateStartedForApp
        split_ifs
        · exact update_application_resume_ctrl_calls c k _
        · rfl)]
    split_ifs <;> exact h2

theorem CancelTempState_registers (ops : SetRegularStateOverloads)
    (hframe : ∀ (c : StateControllerImpl) (app : Nat) (state : RegularState),
      (ops.state c app state).active_states_ = c.active_states_
        ∧ (ops.state c app state).resume_ctrl_calls = c.resume_ctrl_calls)
    (ID : StateID) (c : StateControllerImpl) :
    (CancelTempState ops ID c).active_states_ =
        c.active_states_.filter (fun s => decide (s ≠ ID))
      ∧ (CancelTempState ops ID c).resume_ctrl_calls = c.resume_ctrl_calls := by
  have h1 : (ForEachApplication (HMIStateStopped ID) c).active_states_ = c.active_states_ :=
    foldl_preserves (fun c => c.active_states_) _
      (fun c k => (HMIStateStopped_registers ID c k).1) _ c
  have h2 : (ForEachApplication (HMIStateStopped ID) c).resume_ctrl_calls
      = c.resume_ctrl_calls :=
    foldl_preserves (fun c => c.resume_ctrl_calls) _
      (fun c k => (HMIStateStopped_registers ID c k).2) _ c
  constructor
  · unfold CancelTempState
    rw [TempStateStopped_active_states ops.state (fun c app s => (hframe c app s).1), h1]
  · unfold CancelTempState TempStateStopped ForEachApplicationWithParam
    rw [foldl_preserves (fun c => c.resume_ctrl_calls) _
      (OnTempStateStoppedForApp_resume_ctrl_calls ops.state
        (fun c app s => (hframe c app s).2) ID)]
    exact h2

end StateControllerImpl

theorem sample_ops_state_registers (c : StateControllerImpl) (app : Nat)
    (state : RegularState) :
    (sample_ops.state c app state).active_states_ = c.active_states_
      ∧ (sample_ops.state c app state).resume_ctrl_calls = c.resume_ctrl_calls := by
  refine ⟨sample_SetRegularState_active_states c app state, ?_⟩
  show (sample_SetRegularState c app state).resume_ctrl_calls = c.resume_ctrl_calls
  unfold sample_SetRegularState
  cases c.applications[app]? with
  | none => rfl
  | some a =>
    simp only
    cases c.ResolveHmiState sample_manager a state with
    | none => rfl
    | some granted => exact (StateControllerImpl.ApplyRegularState_registers c app _).2.2

/-- Claim C29. For an OnEventChanged notification with event type E and flag
`is_active`: the kind mapped from E is active afterwards iff `is_active` is
true, the activeness of no other kind changes, an event type outside the five
leaves the registry unchanged, and the resumption controller is called exactly
once for DEACTIVATE_HMI (postpone on entering, restore on leaving) and not at
all for the other event types. `SetRegularState` called for postponed states is
any operation that leaves the registry and the resumption controller alone. -/
theorem on_event_changed_registry (ops : SetRegularStateOverloads)
    (hframe : ∀ (c : StateControllerImpl) (app : Nat) (state : RegularState),
      (ops.state c app state).active_states_ = c.active_states_
        ∧ (ops.state c app state).resume_ctrl_calls = c.resume_ctrl_calls)
    (m : ApplicationManager) (fuel : Nat) (c : StateControllerImpl) (message : Message) :
    StateControllerImpl.on_event ops m fuel c FunctionID.BasicCommunication_OnEventChanged
        message = some (StateControllerImpl.OnEventChanged ops c message)
      ∧ (∀ K : StateID, event_state_id message.event_name = some K →
          ((StateControllerImpl.OnEventChanged ops c message).IsStateActive K = true
              ↔ message.is_active = true)
            ∧ ∀ K' : StateID, K' ≠ K →
                (StateControllerImpl.OnEventChanged ops c message).IsTempStateActive K'
                  = c.IsTempStateActive K')
      ∧ (event_state_id message.event_name = none →
          (StateControllerImpl.OnEventChanged ops c message).active_states_
            = c.active_states_)
      ∧ (StateControllerImpl.OnEventChanged ops c message).resume_ctrl_calls =
          c.resume_ctrl_calls ++
            (if message.event_name = Common_EventTypes.DEACTIVATE_HMI then
              (if message.is_active = true then [ResumeCtrlCall.PostponeHmiLevelResumption]
               else [ResumeCtrlCall.RestoreHmiLevelResumption])
             else []) := by
  have hstart : ∀ (K : StateID) (c0 : StateControllerImpl),
      K ∈ (StateControllerImpl.ApplyTempState K c0).active_states_
        ∧ ∀ K' : StateID, K' ≠ K →
            (K' ∈ (StateControllerImpl.ApplyTempState K c0).active_states_
              ↔ K' ∈ c0.active_states_) := by
    intro K c0
    rw [(StateControllerImpl.ApplyTempState_registers K c0).1]
    split_ifs with h
    · exact ⟨h, fun _ _ => Iff.rfl⟩
    · exact ⟨by simp, fun K' hK' => by simp [hK']⟩
  have hstop : ∀ (K : StateID),
      K ∉ (StateControllerImpl.CancelTempState ops K c).active_states_
        ∧ ∀ K' : StateID, K' ≠ K →
            (K' ∈ (StateControllerImpl.CancelTempState ops K c).active_states_
              ↔ K' ∈ c.active_states_) := by
    intro K
    rw [(StateControllerImpl.CancelTempState_registers ops hframe K c).1]
    exact ⟨by simp, fun K' hK' => by simp [hK']⟩
  obtain ⟨code, corr, aid, active, ev⟩ := message
  refine ⟨rfl, ?_, ?_, ?_⟩
  · intro K hK
    cases ev <;> simp only [event_state_id, Option.some.injEq, reduceCtorEq] at hK <;>
      subst hK <;> cases active <;>
      simp only [StateControllerImpl.OnEventChanged, StateControllerImpl.IsStateActive,
        StateControllerImpl.IsTempStateActive, if_true, if_false, reduceCtorEq,
        Bool.false_eq_true, decide_eq_true_eq, decide_eq_decide] <;>
      first
      | exact ⟨by simpa using (hstop _).1, fun K' hK' => (hstop _).2 K' hK'⟩
      | exact ⟨by simpa using (hstart _ _).1, fun K' hK' => (hstart _ _).2 K' hK'⟩
  · intro hnone
    cases ev <;> simp only [event_state_id, reduceCtorEq] at hnone
    cases active <;> simp [StateControllerImpl.OnEventChanged]
  · cases ev <;> cases active <;>
      simp [StateControllerImpl.OnEventChanged,
        (StateControllerImpl.ApplyTempState_registers _ _).2,
        (StateControllerImpl.CancelTempState_registers ops hframe _ _).2]

/-- The HMI is deactivated while a phone call is active: DEACTIVATE_HMI becomes
active, the phone call stays active and the resumption is postponed. -/
theorem on_event_changed_registry_witness :
    ((StateControllerImpl.OnEventChanged sample_ops
          (controller_with [resuming_app 1 media_info] [StateID.STATE_ID_PHONE_CALL])
          (sample_message 0 true Common_EventTypes.DEACTIVATE_HMI)).IsStateActive
          StateID.STATE_ID_DEACTIVATE_HMI = true ↔ true = true)
      ∧ (StateControllerImpl.OnEventChanged sample_ops
          (controller_with [resuming_app 1 media_info] [StateID.STATE_ID_PHONE_CALL])
          (sample_message 0 true Common_EventTypes.DEACTIVATE_HMI)).resume_ctrl_calls
        = [ResumeCtrlCall.PostponeHmiLevelResumption] :=
  ⟨((on_event_changed_registry sample_ops sample_ops_state_registers sample_manager 1
      (controller_with [resuming_app 1 media_info] [StateID.STATE_ID_PHONE_CALL])
      (sample_message 0 true Common_EventTypes.DEACTIVATE_HMI)).2.1
        StateID.STATE_ID_DEACTIVATE_HMI rfl).1,
    (on_event_changed_registry sample_ops sample_ops_state_registers sample_manager 1
      (controller_with [resuming_app 1 media_info] [StateID.STATE_ID_PHONE_CALL])
      (sample_message 0 true Common_EventTypes.DEACTIVATE_HMI)).2.2.2⟩

/-! ## Available level, null parents, monotonicity and idempotence of the resolver -/

/-- Claim C31. `GetAvailableHmiLevel` does not depend on the answer of
`IsAppTypeExistsInFullOrLimited`: two runs that differ only in what that query
returns yield the same level. -/
theorem available_level_ignores_type_query (c : StateControllerImpl)
    (m : ApplicationManager) (f g : Application → Bool) (app : Application)
    (hmi_level : HMILevel) :
    c.GetAvailableHmiLevel { m with IsAppTypeExistsInFullOrLimited := f } app hmi_level
      = c.GetAvailableHmiLevel { m with IsAppTypeExistsInFullOrLimited := g } app
          hmi_level := by
  simp [StateControllerImpl.GetAvailableHmiLevel]

/-- Claim C36. `GetAvailableHmiLevel(app, level)` equals the table: a level
other than FULL and LIMITED is returned unchanged; LIMITED gives LIMITED for an
audio application and the default level otherwise; FULL gives, for an audio
application, LIMITED if an active application exists and FULL otherwise, and for
another application the default level if an active application exists and FULL
otherwise. -/
theorem available_level_table (c : StateControllerImpl) (m : ApplicationManager)
    (app : Application) (hmi_level : HMILevel) :
    c.GetAvailableHmiLevel m app hmi_level
      = available_level_spec hmi_level app.is_audio (m.GetDefaultHmiLevel app)
          c.active_application.isSome := by
  unfold StateControllerImpl.GetAvailableHmiLevel available_level_spec
  simp only [Compare_EQ_ONE]
  generalize c.active_application.isSome = act
  generalize app.is_audio = au
  generalize m.GetDefaultHmiLevel app = dl
  cases hmi_level <;> cases act <;> cases au <;> simp

/-- Claim C32, as stated, fails: a TTS state with a null parent returns
NOT_AUDIBLE when attenuation is not supported, and so do an audio-source state
of an application that is not a navi application and an embedded-navi state of
an application that is not a media application; the parent is not read there. -/
theorem null_parent_returns_not_audible :
    (HmiState.noParent
        (HmiData.create media_info StateID.STATE_ID_TTS_SESSION)).audio_streaming_state false
      = some AudioStreamingState.NOT_AUDIBLE
    ∧ (HmiState.noParent
        (HmiData.create media_info StateID.STATE_ID_AUDIO_SOURCE)).audio_streaming_state true
      = some AudioStreamingState.NOT_AUDIBLE
    ∧ (HmiState.noParent
        (HmiData.create navi_info StateID.STATE_ID_EMBEDDED_NAVI)).audio_streaming_state true
      = some AudioStreamingState.NOT_AUDIBLE := by
  decide

/-- Claim C32, amended. For a state with a null parent: `hmi_level()` fails
(no value is returned) exactly for the variants phone call, deactivate HMI,
audio source and embedded navi; `audio_streaming_state()` fails exactly when the
evaluation reaches the read of the parent, that is for navi streaming, for TTS
when attenuation is supported, for audio source of a navi application and for
embedded navi of a media application. In the remaining cases of TTS, audio
source and embedded navi (TTS without attenuation, audio source of an
application that is not a navi application, embedded navi of an application that
is not a media application) NOT_AUDIBLE is returned, as for VR; a variant whose
rule does not read the parent returns its stored value. -/
theorem null_parent_fails (att : Bool) (d : HmiData) :
    ((HmiState.noParent d).hmi_level = none
        ↔ (HmiState.noParent d).level_reads_parent = true)
      ∧ ((HmiState.noParent d).audio_streaming_state att = none
        ↔ (HmiState.noParent d).audio_reads_parent att = true)
      ∧ (HmiState.noParent d).audio_streaming_state att =
          (if (HmiState.noParent d).audio_reads_parent att = true then none
           else if d.state_id_ = StateID.STATE_ID_TTS_SESSION
               ∨ d.state_id_ = StateID.STATE_ID_AUDIO_SOURCE
               ∨ d.state_id_ = StateID.STATE_ID_EMBEDDED_NAVI
               ∨ d.state_id_ = StateID.STATE_ID_VR_SESSION then
             some AudioStreamingState.NOT_AUDIBLE
           else some d.audio_streaming_state_)
      ∧ (HmiState.noParent d).hmi_level =
          (if (HmiState.noParent d).level_reads_parent = true then none
           else some d.hmi_level_) := by
  obtain ⟨⟨m, n, v, t⟩, k, l, a, sc, r⟩ := d
  refine ⟨?_, ?_, ?_, ?_⟩
  · cases k <;>
      simp [HmiState.hmi_level, HmiState.level_reads_parent, HmiState.state_id, HmiState.data]
  · cases k <;> cases att <;> cases m <;> cases n <;>
      simp [HmiState.audio_streaming_state, HmiState.audio_reads_parent, HmiState.state_id,
        HmiState.data, HmiState.is_navi_app, HmiState.is_media_app,
        VRHmiState.audio_streaming_state]
  · cases k <;> cases att <;> cases m <;> cases n <;>
      simp [HmiState.audio_streaming_state, HmiState.audio_reads_parent, HmiState.state_id,
        HmiState.data, HmiState.is_navi_app, HmiState.is_media_app,
        VRHmiState.audio_streaming_state]
  · cases k <;>
      simp [HmiState.hmi_level, HmiState.level_reads_parent, HmiState.state_id, HmiState.data]

/-- Claim C34. The conflict resolver never raises the level of a candidate:
the computed level is at most the current regular level of the candidate in the
order NONE < BACKGROUND < LIMITED < FULL, and it is the current level when the
applied level is BACKGROUND or NONE. -/
theorem resolver_never_raises (applied_ : Application) (state_ : RegularState)
    (to_resolve : Application) :
    (StateControllerImpl.HmiLevelConflictResolver.result_hmi_level applied_ state_
          to_resolve).rank ≤ to_resolve.RegularHmiState.hmi_level_.rank
      ∧ ((state_.hmi_level_ = HMILevel.HMI_BACKGROUND ∨ state_.hmi_level_ = HMILevel.HMI_NONE) →
          StateControllerImpl.HmiLevelConflictResolver.result_hmi_level applied_ state_
              to_resolve = to_resolve.RegularHmiState.hmi_level_) := by
  rw [StateControllerImpl.result_hmi_level_eq_spec]
  simp only [Application.RegularHmiState]
  generalize StateControllerImpl.IsSameAppType applied_ to_resolve = same
  generalize applied_.is_audio = x
  generalize to_resolve.is_audio = y
  obtain ⟨l, _, _⟩ := state_
  obtain ⟨_, _, _, ⟨l', _, _⟩, _⟩ := to_resolve
  cases same <;> cases x <;> cases y <;> cases l <;> cases l' <;>
    simp [resolved_level_spec, HMILevel.rank]

namespace HmiState

theorem override_rule (x : Bool) (pl : HMILevel) (hpl : pl ≠ HMILevel.INVALID_ENUM) :
    (if Compare_EQ_ONE pl HMILevel.HMI_BACKGROUND HMILevel.HMI_NONE = true then pl
      else if x = true then HMILevel.HMI_LIMITED else HMILevel.HMI_BACKGROUND)
        ≠ HMILevel.INVALID_ENUM
      ∧ (if Compare_EQ_ONE pl HMILevel.HMI_BACKGROUND HMILevel.HMI_NONE = true then pl
          else if x = true then HMILevel.HMI_LIMITED else HMILevel.HMI_BACKGROUND)
        ≠ HMILevel.HMI_FULL
      ∧ (if Compare_EQ_ONE pl HMILevel.HMI_BACKGROUND HMILevel.HMI_NONE = true then pl
          else if x = true then HMILevel.HMI_LIMITED else HMILevel.HMI_BACKGROUND).rank
        ≤ pl.rank
      ∧ ((pl = HMILevel.HMI_BACKGROUND ∨ pl = HMILevel.HMI_NONE) →
          (if Compare_EQ_ONE pl HMILevel.HMI_BACKGROUND HMILevel.HMI_NONE = true then pl
            else if x = true then HMILevel.HMI_LIMITED else HMILevel.HMI_BACKGROUND) = pl) := by
  cases pl <;> cases x <;> simp_all [Compare_EQ_ONE, HMILevel.rank]

theorem override_layer (d : HmiData) (pl : HMILevel) (hpl : pl ≠ HMILevel.INVALID_ENUM)
    (hkind : d.state_id_ = StateID.STATE_ID_DEACTIVATE_HMI
      ∨ d.state_id_ = StateID.STATE_ID_AUDIO_SOURCE
      ∨ d.state_id_ = StateID.STATE_ID_EMBEDDED_NAVI) :
    Application.layer_hmi_level d pl ≠ HMILevel.INVALID_ENUM
      ∧ Application.layer_hmi_level d pl ≠ HMILevel.HMI_FULL
      ∧ (Application.layer_hmi_level d pl).rank ≤ pl.rank
      ∧ ((pl = HMILevel.HMI_BACKGROUND ∨ pl = HMILevel.HMI_NONE) →
          Application.layer_hmi_level d pl = pl) := by
  rcases hkind with hk | hk | hk
  · simp only [Application.layer_hmi_level, hk, DeactivateHMI.hmi_level]
    simpa using override_rule false pl hpl
  · simp only [Application.layer_hmi_level, hk, AudioSource.hmi_level]
    exact override_rule (d.app_.is_navi || d.app_.is_voice_communication_supported) pl hpl
  · simp only [Application.layer_hmi_level, hk, EmbeddedNavi.hmi_level]
    exact override_rule d.app_.is_media_application pl hpl

theorem hmi_level_withParent_override (d : HmiData) (p : HmiState) (pl : HMILevel)
    (hp : p.hmi_level = some pl)
    (hkind : d.state_id_ = StateID.STATE_ID_DEACTIVATE_HMI
      ∨ d.state_id_ = StateID.STATE_ID_AUDIO_SOURCE
      ∨ d.state_id_ = StateID.STATE_ID_EMBEDDED_NAVI) :
    (withParent d p).hmi_level = some (Application.layer_hmi_level d pl) := by
  rcases hkind with hk | hk | hk <;>
    simp [hmi_level, hk, hp, Application.layer_hmi_level]

theorem override_stack_level_aux (s : HmiState) (hstack : s.is_override_stack = true) :
    ∃ l : HMILevel, s.hmi_level = some l ∧ l ≠ HMILevel.INVALID_ENUM
      ∧ l.rank ≤ s.bottom.hmi_level_.rank
      ∧ ((s.bottom.hmi_level_ = HMILevel.HMI_BACKGROUND
            ∨ s.bottom.hmi_level_ = HMILevel.HMI_NONE) → l = s.bottom.hmi_level_)
      ∧ (0 < s.depth → l ≠ HMILevel.HMI_FULL) := by
  induction s with
  | noParent d =>
    simp only [is_override_stack, Bool.and_eq_true, decide_eq_true_eq] at hstack
    refine ⟨d.hmi_level_, ?_, hstack.2, le_refl _, fun _ => rfl, ?_⟩
    · simp [hmi_level, hstack.1]
    · simp [depth]
  | withParent d p ih =>
    simp only [is_override_stack, Bool.and_eq_true, Bool.or_eq_true, decide_eq_true_eq]
      at hstack
    obtain ⟨pl, hpl, hne, hle, heq, _⟩ := ih hstack.2
    have hkind : d.state_id_ = StateID.STATE_ID_DEACTIVATE_HMI
        ∨ d.state_id_ = StateID.STATE_ID_AUDIO_SOURCE
        ∨ d.state_id_ = StateID.STATE_ID_EMBEDDED_NAVI := by
      rcases hstack.1 with (h | h) | h
      · exact Or.inl h
      · exact Or.inr (Or.inl h)
      · exact Or.inr (Or.inr h)
    obtain ⟨r1, r2, r3, r4⟩ := override_layer d pl hne hkind
    refine ⟨_, hmi_level_withParent_override d p pl hpl hkind, r1, le_trans r3 hle, ?_,
      fun _ => r2⟩
    intro hb
    have hplb := heq hb
    simp only [bottom]
    rw [← hplb]
    exact r4 (hplb ▸ hb)

end HmiState

/-- Claim C37. For a stack of one or more deactivate-HMI, audio-source and
embedded-navi layers over a regular state whose level is FULL, LIMITED,
BACKGROUND or NONE, the level of the top layer is never FULL, never higher than
the regular level in the order NONE < BACKGROUND < LIMITED < FULL, and equal to
the regular level when that is BACKGROUND or NONE. -/
theorem override_stack_level (d : HmiData) (p : HmiState)
    (hstack : (HmiState.withParent d p).is_override_stack = true) :
    ∃ l : HMILevel, (HmiState.withParent d p).hmi_level = some l
      ∧ l ≠ HMILevel.HMI_FULL
      ∧ l.rank ≤ (HmiState.withParent d p).bottom.hmi_level_.rank
      ∧ (((HmiState.withParent d p).bottom.hmi_level_ = HMILevel.HMI_BACKGROUND
            ∨ (HmiState.withParent d p).bottom.hmi_level_ = HMILevel.HMI_NONE) →
          l = (HmiState.withParent d p).bottom.hmi_level_) := by
  obtain ⟨l, h1, _, h3, h4, h5⟩ := HmiState.override_stack_level_aux _ hstack
  exact ⟨l, h1, h5 (by simp [HmiState.depth]), h3, h4⟩

/-- An embedded-navi layer over an audio-source layer over a regular FULL state
of a media application: the level is BACKGROUND. -/
theorem override_stack_level_witness :
    ∃ l : HMILevel,
      (HmiState.withParent (HmiData.create media_info StateID.STATE_ID_EMBEDDED_NAVI)
          (HmiState.withParent (HmiData.create media_info StateID.STATE_ID_AUDIO_SOURCE)
            (full_state media_info))).hmi_level = some l
        ∧ l ≠ HMILevel.HMI_FULL :=
  (override_stack_level (HmiData.create media_info StateID.STATE_ID_EMBEDDED_NAVI)
    (HmiState.withParent (HmiData.create media_info StateID.STATE_ID_AUDIO_SOURCE)
      (full_state media_info)) (by decide)).imp (fun _ h => ⟨h.1, h.2.1⟩)

namespace StateControllerImpl

theorem result_hmi_level_idempotent (ap : Application) (s : RegularState) (tr : Application) :
    HmiLevelConflictResolver.result_hmi_level ap s (resolved_candidate ap s tr)
      = HmiLevelConflictResolver.result_hmi_level ap s tr := by
  have hinfo := (resolved_candidate_info ap s tr).1
  have hsame : IsSameAppType ap (resolved_candidate ap s tr) = IsSameAppType ap tr :=
    IsSameAppType_of_info rfl hinfo
  have haudio : (resolved_candidate ap s tr).is_audio = tr.is_audio := by
    simp [Application.is_audio, hinfo]
  rw [result_hmi_level_eq_spec ap s (resolved_candidate ap s tr), hsame, haudio,
    resolved_candidate_level, result_hmi_level_eq_spec ap s tr]
  generalize IsSameAppType ap tr = same
  generalize ap.is_audio = x
  generalize tr.is_audio = y
  obtain ⟨l, _, _⟩ := s
  obtain ⟨_, _, _, ⟨l', _, _⟩, _⟩ := tr
  cases same <;> cases x <;> cases y <;> cases l <;> cases l' <;>
    simp [resolved_level_spec]

theorem result_hmi_level_limited (ap : Application) (s : RegularState) (tr : Application)
    (hs : s.hmi_level_ = HMILevel.HMI_LIMITED) :
    HmiLevelConflictResolver.result_hmi_level ap s tr =
      if ap.is_audio = true ∧ tr.is_audio = true ∧ IsSameAppType ap tr = true
          ∧ (tr.regular.hmi_level_ = HMILevel.HMI_FULL
              ∨ tr.regular.hmi_level_ = HMILevel.HMI_LIMITED) then
        HMILevel.HMI_BACKGROUND
      else tr.regular.hmi_level_ := by
  rw [result_hmi_level_eq_spec, hs]
  generalize IsSameAppType ap tr = same
  generalize ap.is_audio = x
  generalize tr.is_audio = y
  obtain ⟨_, _, _, ⟨l', _, _⟩, _⟩ := tr
  cases same <;> cases x <;> cases y <;> cases l' <;> simp [resolved_level_spec]

end StateControllerImpl

/-- Claim C33, as stated, fails: a media application is applied LIMITED; the
other media application (same HMI type) whose regular level is NONE keeps NONE
and does not get BACKGROUND. -/
theorem limited_same_type_none_kept :
    StateControllerImpl.IsSameAppType
        (sample_app 1 media_info HMILevel.HMI_BACKGROUND AudioStreamingState.NOT_AUDIBLE)
        (sample_app 2 media_info HMILevel.HMI_NONE AudioStreamingState.NOT_AUDIBLE) = true
      ∧ ((two_media_none.ApplyRegularState 0 (limited_state media_info)).applications[1]?).map
          (fun b => b.RegularHmiState.hmi_level_) = some HMILevel.HMI_NONE := by
  decide

/-- Claim C33, amended. For an applied regular state of level LIMITED and every
other application B: if the applied application and B are audio applications of
the same HMI type and the regular level of B is FULL or LIMITED, B gets the
regular state BACKGROUND and NOT_AUDIBLE (system context kept); in every other
case (another HMI type, an application that is not an audio application, a level
of B other than FULL and LIMITED) B is left as it is. -/
theorem apply_limited (c : StateControllerImpl) (i j : Nat) (state : HmiState)
    (A B : Application) (hij : i ≠ j)
    (hA : c.applications[i]? = some A) (hB : c.applications[j]? = some B)
    (hreg : state.state_id = StateID.STATE_ID_REGULAR)
    (hlimited : state.hmi_level = some HMILevel.HMI_LIMITED) :
    (c.ApplyRegularState i state).applications[j]? =
      some (if A.is_audio = true ∧ B.is_audio = true
                ∧ StateControllerImpl.IsSameAppType A B = true
                ∧ (B.RegularHmiState.hmi_level_ = HMILevel.HMI_FULL
                    ∨ B.RegularHmiState.hmi_level_ = HMILevel.HMI_LIMITED) then
              { B with
                regular :=
                  { hmi_level_ := HMILevel.HMI_BACKGROUND
                    audio_streaming_state_ := AudioStreamingState.NOT_AUDIBLE
                    system_context_ := B.RegularHmiState.system_context_ }
                is_resuming := false }
            else B) := by
  have hji : j ≠ i := fun e => hij e.symm
  have hl := StateControllerImpl.toRegular_level_of_regular state _ hreg hlimited
  have hinfo := (StateControllerImpl.applied_application_frame c A state.toRegular).1
  have hsame : StateControllerImpl.IsSameAppType
      (applied_application c A state.toRegular) B
        = StateControllerImpl.IsSameAppType A B :=
    StateControllerImpl.IsSameAppType_of_info hinfo rfl
  have haudio : (applied_application c A state.toRegular).is_audio = A.is_audio := by
    simp [Application.is_audio, hinfo]
  rw [StateControllerImpl.ApplyRegularState_getElem? c i state A hA hreg j]
  simp only [hji, if_false, hB, Option.map_some', Option.some.injEq]
  have hres := StateControllerImpl.result_hmi_level_limited
    (applied_application c A state.toRegular) state.toRegular B hl
  rw [hsame, haudio] at hres
  unfold resolved_candidate
  simp only [hres, Application.RegularHmiState]
  by_cases hcond : A.is_audio = true ∧ B.is_audio = true
      ∧ StateControllerImpl.IsSameAppType A B = true
      ∧ (B.regular.hmi_level_ = HMILevel.HMI_FULL
          ∨ B.regular.hmi_level_ = HMILevel.HMI_LIMITED)
  · have hne : B.regular.hmi_level_ ≠ HMILevel.HMI_BACKGROUND := by
      rcases hcond.2.2.2 with h | h <;> rw [h] <;> decide
    simp [hcond, hne]
  · simp [hcond]

/-- A media application is applied LIMITED next to a media application in FULL,
which gets BACKGROUND. -/
theorem apply_limited_witness :
    ((two_media.ApplyRegularState 0 (limited_state media_info)).applications[1]?).map
        (fun b => b.RegularHmiState) =
      some { hmi_level_ := HMILevel.HMI_BACKGROUND
             audio_streaming_state_ := AudioStreamingState.NOT_AUDIBLE
             system_context_ := SystemContext.SYSCTXT_MENU } := by
  rw [apply_limited two_media 0 1 (limited_state media_info)
    (sample_app 1 media_info HMILevel.HMI_BACKGROUND AudioStreamingState.NOT_AUDIBLE)
    (sample_app 2 media_info HMILevel.HMI_FULL AudioStreamingState.AUDIBLE)
    (by decide) rfl rfl rfl rfl]
  decide

/-- Claim C35. Conflict resolution is idempotent: a second call of the
resolver, built from the same applied application and state, on the same
candidate computes the level that the candidate already has and leaves the
controller as the first call left it. -/
theorem resolver_step_idempotent (c : StateControllerImpl) (i j : Nat)
    (state_ : RegularState) :
    StateControllerImpl.HmiLevelConflictResolver i state_
        (StateControllerImpl.HmiLevelConflictResolver i state_ c j) j
      = StateControllerImpl.HmiLevelConflictResolver i state_ c j
    ∧ ∀ ap tr : Application, c.applications[i]? = some ap → c.applications[j]? = some tr →
        StateControllerImpl.HmiLevelConflictResolver.result_hmi_level ap state_
            (resolved_candidate ap state_ tr)
          = (resolved_candidate ap state_ tr).RegularHmiState.hmi_level_ := by
  constructor
  · by_cases hji : j = i
    · simp [StateControllerImpl.HmiLevelConflictResolver, hji]
    · cases hap : c.applications[i]? with
      | none => simp [StateControllerImpl.HmiLevelConflictResolver, hji, hap]
      | some ap =>
        cases htr : c.applications[j]? with
        | none => simp [StateControllerImpl.HmiLevelConflictResolver, hji, hap, htr]
        | some tr =>
          have h1 := StateControllerImpl.HmiLevelConflictResolver_getElem? c i state_ ap hap j
          have h1i : (StateControllerImpl.HmiLevelConflictResolver i state_ c j).applications[i]?
              = some ap := by
            rw [h1 i]
            have : ¬ (i = j ∧ j ≠ i) := fun h => hji h.1.symm
            simp [this, hap]
          have h1j : (StateControllerImpl.HmiLevelConflictResolver i state_ c j).applications[j]?
              = some (resolved_candidate ap state_ tr) := by
            rw [h1 j]
            simp [hji, htr]
          generalize StateControllerImpl.HmiLevelConflictResolver i state_ c j = c1 at h1i h1j
          unfold StateControllerImpl.HmiLevelConflictResolver
          simp [hji, h1i, h1j, Application.RegularHmiState,
            StateControllerImpl.resolved_candidate_level,
            StateControllerImpl.result_hmi_level_idempotent]
  · intro ap tr _ _
    rw [StateControllerImpl.result_hmi_level_idempotent, Application.RegularHmiState,
      StateControllerImpl.resolved_candidate_level]

/-- Claim C38. After `SetupRegularHmiState(app, state)` the flag `is_resuming`
of the application is false and its regular state is the given state; the
OnResumeAudioSource notification is sent exactly when the level of the state is
LIMITED and the application was resuming before the call: the calls made are
that notification, if any, followed by those of `OnStateChanged`, which never
sends it. -/
theorem setup_regular_state (c : StateControllerImpl) (i : Nat) (a : Application)
    (state : RegularState) (ha : c.applications[i]? = some a) :
    ∃ a' : Application,
      (c.SetupRegularHmiState i state).applications[i]? = some a'
        ∧ a'.is_resuming = false
        ∧ a'.RegularHmiState = state
        ∧ (c.SetupRegularHmiState i state).sent =
            c.sent
              ++ (if state.hmi_level_ = HMILevel.HMI_LIMITED ∧ a.is_resuming = true then
                    [Notification.SendOnResumeAudioSourceToHMI a.app_id] else [])
              ++ StateControllerImpl.OnStateChanged a.app_id
                  (a.current c.is_attenuated_supported)
                  (a'.current c.is_attenuated_supported)
        ∧ Notification.SendOnResumeAudioSourceToHMI a.app_id
            ∉ StateControllerImpl.OnStateChanged a.app_id
                (a.current c.is_attenuated_supported)
                (a'.current c.is_attenuated_supported) := by
  obtain ⟨f1, f2, f3, f4, _⟩ := StateControllerImpl.applied_application_frame c a state
  obtain ⟨_, _, g3, g4, _⟩ := StateControllerImpl.RemoveConflictedActiveStatesFromApp_frame c a
  refine ⟨applied_application c a state, ?_, f3, f2, ?_, ?_⟩
  · rw [StateControllerImpl.SetupRegularHmiState_getElem?]
    simp [ha]
  · unfold StateControllerImpl.SetupRegularHmiState
    simp only [ha]
    by_cases hfull : HMILevel.HMI_FULL = state.hmi_level_
    · have hnl : ¬ state.hmi_level_ = HMILevel.HMI_LIMITED := by
        rw [← hfull]; decide
      have hnl' : ¬ HMILevel.HMI_LIMITED = state.hmi_level_ := fun e => hnl e.symm
      simp [applied_application, hfull, hnl, hnl', Application.SetRegularState,
        Application.set_is_resuming, g4]
    · by_cases hl : state.hmi_level_ = HMILevel.HMI_LIMITED
      · simp [applied_application, hfull, hl, Application.SetRegularState,
          Application.set_is_resuming]
      · have hl' : ¬ HMILevel.HMI_LIMITED = state.hmi_level_ := fun e => hl e.symm
        simp [applied_application, hfull, hl, hl', Application.SetRegularState,
          Application.set_is_resuming]
  · unfold StateControllerImpl.OnStateChanged
    split_ifs <;> simp

/-- A resuming media application is set to LIMITED: the notification is sent. -/
theorem setup_regular_state_witness :
    ∃ a' : Application,
      ((controller_with [resuming_app 1 media_info] []).SetupRegularHmiState 0
          (request HMILevel.HMI_LIMITED)).applications[0]? = some a'
        ∧ a'.is_resuming = false
        ∧ a'.RegularHmiState = request HMILevel.HMI_LIMITED :=
  (setup_regular_state (controller_with [resuming_app 1 media_info] []) 0
    (resuming_app 1 media_info) (request HMILevel.HMI_LIMITED) rfl).imp
    (fun _ h => ⟨h.1, h.2.1, h.2.2.1⟩)

namespace StateControllerImpl

theorem ProcessSavingHMIState_fuel_succ (SetRegularState : SetRegularStateSendFn)
    (fuel : Nat) :
    ∀ c c' : StateControllerImpl,
      ProcessSavingHMIState SetRegularState fuel c = some c' →
        ProcessSavingHMIState SetRegularState (fuel + 1) c = some c' := by
  induction fuel with
  | zero => intro c c' h; simp [ProcessSavingHMIState] at h
  | succ fuel ih =>
    intro c c' h
    rw [ProcessSavingHMIState] at h ⊢
    by_cases hw : c.waiting_for_activate.isEmpty = true
    · simp only [hw, if_true] at h ⊢
      cases hq : c.waiting_for_applying_state_ with
      | nil => simpa only [hq] using h
      | cons it rest =>
        simp only [hq] at h ⊢
        cases happ : c.application it.app_id_ with
        | none =>
          simp only [happ] at h ⊢
          exact ih _ _ h
        | some app =>
          simp only [happ] at h ⊢
          exact ih _ _ h
    · simpa only [hw] using h

theorem ProcessSavingHMIState_fuel_add (SetRegularState : SetRegularStateSendFn)
    (fuel : Nat) (c c' : StateControllerImpl)
    (h : ProcessSavingHMIState SetRegularState fuel c = some c') (k : Nat) :
    ProcessSavingHMIState SetRegularState (fuel + k) c = some c' := by
  induction k with
  | zero => exact h
  | succ k ih => exact ProcessSavingHMIState_fuel_succ SetRegularState (fuel + k) c c' ih

theorem ProcessSavingHMIState_returns (SetRegularState : SetRegularStateSendFn)
    (hqueue : ∀ (c : StateControllerImpl) (app : Nat) (state : RegularState) (send : Bool),
      c.waiting_for_activate = [] →
        (SetRegularState c app state send).waiting_for_applying_state_.length
          ≤ c.waiting_for_applying_state_.length)
    (fuel : Nat) :
    ∀ c : StateControllerImpl, c.waiting_for_applying_state_.length < fuel →
      ∃ c' : StateControllerImpl,
        ProcessSavingHMIState SetRegularState fuel c = some c'
          ∧ (c'.waiting_for_activate ≠ [] ∨ c'.waiting_for_applying_state_ = []) := by
  induction fuel with
  | zero => intro c h; exact absurd h (Nat.not_lt_zero _)
  | succ fuel ih =>
    intro c hlen
    unfold ProcessSavingHMIState
    by_cases hw : c.waiting_for_activate = []
    swap
    · have hne : c.waiting_for_activate.isEmpty = false := by
        cases hw' : c.waiting_for_activate with
        | nil => exact absurd hw' hw
        | cons _ _ => rfl
      exact ⟨c, by simp [hne], Or.inl hw⟩
    have hemp : c.waiting_for_activate.isEmpty = true := by simp [hw]
    simp only [hemp, if_true]
    cases hq : c.waiting_for_applying_state_ with
    | nil => exact ⟨c, rfl, Or.inr hq⟩
    | cons it rest =>
      have hrest : rest.length < fuel := by
        rw [hq] at hlen
        simpa using hlen
      simp only
      cases happ : c.application it.app_id_ with
      | none =>
        obtain ⟨c', h1, h3⟩ := ih { c with waiting_for_applying_state_ := rest } hrest
        simp only
        exact ⟨c', h1, h3⟩
      | some app =>
        have hq1 := hqueue { c with waiting_for_applying_state_ := rest } app it.state_
          it.send_activate_app_ hw
        obtain ⟨c', h1, h3⟩ := ih
          (SetRegularState { c with waiting_for_applying_state_ := rest } app it.state_
            it.send_activate_app_) (lt_of_le_of_lt hq1 hrest)
        simp only
        exact ⟨c', h1, h3⟩

end StateControllerImpl

/-- Claim C39. `ProcessSavingHMIState` terminates for every finite deferred
queue when `SetRegularState` does not lengthen that queue while no activation is
pending: every iteration bound above the length of the queue gives the same
result, in which an activation is pending or the queue is empty. Each iteration
removes the front entry of the queue: an entry whose application does not exist
is removed without a call of `SetRegularState`, an entry of an existing
application is removed before its state is applied; with a pending activation or
an empty queue the function returns at once, leaving the controller as it is. -/
theorem process_saving_terminates (SetRegularState : SetRegularStateSendFn)
    (hqueue : ∀ (c : StateControllerImpl) (app : Nat) (state : RegularState) (send : Bool),
      c.waiting_for_activate = [] →
        (SetRegularState c app state send).waiting_for_applying_state_.length
          ≤ c.waiting_for_applying_state_.length)
    (c : StateControllerImpl) :
    (∃ c' : StateControllerImpl,
        (∀ fuel : Nat, c.waiting_for_applying_state_.length < fuel →
          StateControllerImpl.ProcessSavingHMIState SetRegularState fuel c = some c')
        ∧ (c'.waiting_for_activate ≠ [] ∨ c'.waiting_for_applying_state_ = []))
    ∧ (∀ (fuel : Nat) (it : DataForActivation) (rest : List DataForActivation),
        c.waiting_for_activate = [] → c.waiting_for_applying_state_ = it :: rest →
        c.application it.app_id_ = none →
          StateControllerImpl.ProcessSavingHMIState SetRegularState (fuel + 1) c
            = StateControllerImpl.ProcessSavingHMIState SetRegularState fuel
                { c with waiting_for_applying_state_ := rest })
    ∧ (∀ (fuel : Nat) (it : DataForActivation) (rest : List DataForActivation) (app : Nat),
        c.waiting_for_activate = [] → c.waiting_for_applying_state_ = it :: rest →
        c.application it.app_id_ = some app →
          StateControllerImpl.ProcessSavingHMIState SetRegularState (fuel + 1) c
            = StateControllerImpl.ProcessSavingHMIState SetRegularState fuel
                (SetRegularState { c with waiting_for_applying_state_ := rest } app it.state_
                  it.send_activate_app_))
    ∧ (c.waiting_for_activate ≠ [] ∨ c.waiting_for_applying_state_ = [] →
        ∀ fuel : Nat,
          StateControllerImpl.ProcessSavingHMIState SetRegularState (fuel + 1) c = some c) := by
  refine ⟨?_, ?_, ?_, ?_⟩
  · obtain ⟨c', h1, h2⟩ :=
      StateControllerImpl.ProcessSavingHMIState_returns SetRegularState hqueue
        (c.waiting_for_applying_state_.length + 1) c (Nat.lt_succ_self _)
    refine ⟨c', ?_, h2⟩
    intro fuel hfuel
    have hk : fuel = c.waiting_for_applying_state_.length + 1
        + (fuel - (c.waiting_for_applying_state_.length + 1)) := by omega
    rw [hk]
    exact StateControllerImpl.ProcessSavingHMIState_fuel_add SetRegularState _ c c' h1 _
  · intro fuel it rest hw hq happ
    rw [StateControllerImpl.ProcessSavingHMIState]
    simp [hw, hq, happ]
  · intro fuel it rest app hw hq happ
    rw [StateControllerImpl.ProcessSavingHMIState]
    simp [hw, hq, happ]
  · intro h fuel
    rw [StateControllerImpl.ProcessSavingHMIState]
    rcases h with h | h
    · have hne : c.waiting_for_activate.isEmpty = false := by
        cases hw' : c.waiting_for_activate with
        | nil => exact absurd hw' h
        | cons _ _ => rfl
      simp [hne]
    · simp [h]

/-- The deferred queue of two requests is processed within every iteration
bound above two. -/
theorem process_saving_terminates_witness :
    ∃ c' : StateControllerImpl,
      (∀ fuel : Nat, two_media_queued.waiting_for_applying_state_.length < fuel →
        StateControllerImpl.ProcessSavingHMIState sample_SetRegularStateSend fuel
          two_media_queued = some c')
      ∧ (c'.waiting_for_activate ≠ [] ∨ c'.waiting_for_applying_state_ = []) :=
  (process_saving_terminates sample_SetRegularStateSend
    (fun c app state send _ =>
      le_of_eq (congrArg List.length (sample_SetRegularStateSend_queue c app state send)))
    two_media_queued).1

theorem wrap_int_of_range (w : Nat) (hw : 0 < w) (y : Int)
    (h1 : -(2 ^ (w - 1)) ≤ y) (h2 : y < 2 ^ (w - 1)) : wrap_int w y = y := by
  have hpow : (2 : Int) ^ w = 2 * 2 ^ (w - 1) := by
    obtain ⟨k, rfl⟩ := Nat.exists_eq_succ_of_ne_zero (Nat.pos_iff_ne_zero.mp hw)
    simp [pow_succ, mul_comm]
  unfold wrap_int
  rw [hpow]
  generalize (2 : Int) ^ (w - 1) = P at *
  rw [Int.emod_eq_of_lt (by omega) (by omega)]
  omega

theorem CheckVrHelpItemsOrder.loop_iff (w : Nat) (hw : 0 < w) (vr_help : List Int) (n : Nat) :
    ∀ i : Nat,
      (∀ k : Nat, k < n →
        -(2 ^ (w - 1)) ≤ vr_help.getD (i + k) 0 ∧ vr_help.getD (i + k) 0 < 2 ^ (w - 1) - 1) →
      (CheckVrHelpItemsOrder.loop w vr_help n i (i + 1) = true ↔
        ∀ k : Nat, k < n → vr_help.getD (i + k + 1) 0 = vr_help.getD (i + k) 0 + 1) := by
  induction n with
  | zero => intro i _; simp [CheckVrHelpItemsOrder.loop]
  | succ n ih =>
    intro i hr
    have h0 := hr 0 (Nat.succ_pos n)
    simp only [Nat.add_zero] at h0
    have hwrap : wrap_int w (vr_help.getD i 0 + 1) = vr_help.getD i 0 + 1 :=
      wrap_int_of_range w hw _ (by omega) (by omega)
    have hr' : ∀ k : Nat, k < n →
        -(2 ^ (w - 1)) ≤ vr_help.getD (i + 1 + k) 0
          ∧ vr_help.getD (i + 1 + k) 0 < 2 ^ (w - 1) - 1 := by
      intro k hk
      have := hr (k + 1) (Nat.succ_lt_succ hk)
      rwa [show i + (k + 1) = i + 1 + k by omega] at this
    unfold CheckVrHelpItemsOrder.loop
    rw [hwrap]
    by_cases heq : vr_help.getD i 0 + 1 = vr_help.getD (i + 1) 0
    · simp only [heq, ne_eq, not_true_eq_false, if_false]
      rw [ih (i + 1) hr']
      constructor
      · intro h k hk
        cases k with
        | zero => simpa using heq.symm
        | succ k =>
          have := h k (Nat.lt_of_succ_lt_succ hk)
          rwa [show i + 1 + k = i + (k + 1) by omega] at this
      · intro h k hk
        have := h (k + 1) (Nat.succ_lt_succ hk)
        rwa [show i + (k + 1) = i + 1 + k by omega] at this
    · simp only [ne_eq, heq, not_false_eq_true, if_true]
      constructor
      · intro h; exact absurd h (by simp)
      · intro h
        exact absurd (h 0 (Nat.succ_pos n)).symm (by simpa using heq)

/-- Claim C40. `CheckVrHelpItemsOrder` returns true if and only if every
adjacent pair of VR help items has consecutive positions, position[j] =
position[j-1] + 1 for every j from 1 to length-1 (the positions being values of
the integer type of width `w` whose successor is such a value too, so that the
addition does not overflow); it accepts the empty list and every list of one
item, and it does not require the first position to be 1: two items at the
positions p and p + 1 are accepted for every p. -/
theorem check_vr_help_items_order (w : Nat) (hw : 0 < w) (vr_help : List Int)
    (hrange : ∀ p ∈ vr_help, -(2 ^ (w - 1)) ≤ p ∧ p < 2 ^ (w - 1) - 1) :
    (CheckVrHelpItemsOrder w vr_help = true ↔
        ∀ j : Nat, 1 ≤ j → j < vr_help.length →
          vr_help.getD j 0 = vr_help.getD (j - 1) 0 + 1)
    ∧ CheckVrHelpItemsOrder w [] = true
    ∧ (∀ p : Int, CheckVrHelpItemsOrder w [p] = true)
    ∧ (∀ p : Int, -(2 ^ (w - 1)) ≤ p → p < 2 ^ (w - 1) - 1 →
        CheckVrHelpItemsOrder w [p, p + 1] = true) := by
  refine ⟨?_, ?_, ?_, ?_⟩
  · have hr : ∀ k : Nat, k < vr_help.length - 1 →
        -(2 ^ (w - 1)) ≤ vr_help.getD (0 + k) 0
          ∧ vr_help.getD (0 + k) 0 < 2 ^ (w - 1) - 1 := by
      intro k hk
      have hlt : k < vr_help.length := by omega
      rw [Nat.zero_add, List.getD_eq_getElem vr_help 0 hlt]
      exact hrange _ (List.getElem_mem hlt)
    unfold CheckVrHelpItemsOrder
    rw [CheckVrHelpItemsOrder.loop_iff w hw vr_help _ 0 hr]
    constructor
    · intro h j h1 h2
      have := h (j - 1) (by omega)
      rwa [show 0 + (j - 1) + 1 = j by omega, Nat.zero_add] at this
    · intro h k hk
      have := h (k + 1) (by omega) (by omega)
      simpa using this
  · simp [CheckVrHelpItemsOrder, CheckVrHelpItemsOrder.loop]
  · intro p
    simp [CheckVrHelpItemsOrder, CheckVrHelpItemsOrder.loop]
  · intro p h1 h2
    have hwrap : wrap_int w (p + 1) = p + 1 :=
      wrap_int_of_range w hw _ (by omega) (by omega)
    simp [CheckVrHelpItemsOrder, CheckVrHelpItemsOrder.loop, hwrap]

/-- Three items at the positions 5, 6 and 7 are accepted; the first position is
not 1. -/
theorem check_vr_help_items_order_witness :
    (∀ p ∈ [(5 : Int), 6, 7], -(2 ^ (32 - 1)) ≤ p ∧ p < 2 ^ (32 - 1) - 1)
      ∧ CheckVrHelpItemsOrder 32 [5, 6, 7] = true := by
  have hrange : ∀ p ∈ [(5 : Int), 6, 7], -(2 ^ (32 - 1)) ≤ p ∧ p < 2 ^ (32 - 1) - 1 := by
    intro p hp
    simp only [List.mem_cons, List.mem_singleton, List.not_mem_nil, or_false] at hp
    rcases hp with rfl | rfl | rfl <;> norm_num
  refine ⟨hrange, (check_vr_help_items_order 32 (by decide) [5, 6, 7] hrange).1.mpr ?_⟩
  intro j h1 h2
  have hj : j = 1 ∨ j = 2 := by
    simp only [List.length_cons, List.length_nil] at h2
    omega
  rcases hj with rfl | rfl <;> simp

end application_manager
